import Mathlib

/-!
# Authentication core of the todo backend

A shallow embedding of `todo/backend/routes/auth.js` and of the Google strategy
of `todo/backend/config/passport.js`.

* The user collection is a list of records in insertion order; `findOne`
  returns the first record that satisfies the query.
* Library functions (`isEmail` and `normalizeEmail` of express-validator,
  bcrypt, crypto, google-auth-library) are fields of `Lib`; the sanitizer `trim`
  and the validators `isLength` and `matches` are defined here as the validator
  library computes them; `process.env` is `Env`; `Date.now()` and the bcrypt
  salt are arguments of the handler that uses them.
* `models/User.js`, `middleware/auth.js` and `middleware/errorHandler.js` are
  not part of the sources; what the handlers need of them is modelled from the
  specification and marked so.
-/

namespace TodoAuth

/-! ## Data model -/

/-- A user document. Optional paths of the schema are `Option`s. -/
structure User where
  _id : Nat
  name : String
  email : String
  password : Option String
  googleId : Option String
  avatar : Option String
  dateOfBirth : Option String
  preferences : String
  isEmailVerified : Bool
  provider : String
  resetPasswordToken : Option String
  resetPasswordExpire : Option Nat
  createdAt : Nat
  deriving DecidableEq, Repr

/-- The user collection: the documents in insertion order and the next
fresh `_id`. -/
structure Store where
  users : List User
  nextId : Nat
  deriving DecidableEq, Repr

/-- What `google-auth-library` returns from `ticket.getPayload()`. -/
structure Payload where
  sub : String
  name : String
  email : String
  picture : Option String
  deriving DecidableEq, Repr

/-- Library functions the handlers call. -/
structure Lib where
  isEmail : String → Bool
  normalizeEmail : String → String
  bcryptHash : String → String → String
  bcryptCompare : String → String → Bool
  sha256 : String → String
  verifyIdToken : String → Except String Payload

/-- The variables of `process.env` read by the handlers. `JWT_EXPIRE` is the
time span the variable denotes, in milliseconds: the variable is a string, and
`jsonwebtoken` reads a string `expiresIn` with `ms`, so `'30d'` is 2592000000
and a string of digits without a unit, such as `'3600'`, is that many
milliseconds. The model covers the variables `ms` reads as a whole number of
milliseconds; `jwt.sign` throws on one that is unset or no time span.
`JWT_COOKIE_EXPIRE` is in days. -/
structure Env where
  NODE_ENV : String
  JWT_SECRET : String
  JWT_EXPIRE : Nat
  JWT_COOKIE_EXPIRE : Nat
  deriving DecidableEq, Repr

/-- A signed session token: the payload `id`, the `iat` and `exp` claims (in
seconds) and the secret it was signed with. -/
structure Token where
  id : Nat
  iat : Nat
  exp : Nat
  key : String
  deriving DecidableEq, Repr

/-- A JSON value of a response's `user` object. -/
inductive JsVal where
  | undefined
  | str (s : String)
  | num (n : Nat)
  | bool (b : Bool)
  deriving DecidableEq, Repr

/-- A JSON object: its fields in the order they are written. -/
abbrev JsObj := List (String × JsVal)

/-- The options of `res.cookie`. -/
structure CookieOptions where
  expires : Nat
  httpOnly : Bool
  secure : Bool
  sameSite : String
  deriving DecidableEq, Repr

/-- A cookie set on a response. -/
structure Cookie where
  name : String
  value : Token
  options : CookieOptions
  deriving DecidableEq, Repr

/-- A JSON response: status, cookie and the fields of the body. -/
structure Response where
  status : Nat
  cookie : Option Cookie
  success : Bool
  message : Option String
  errors : List String
  token : Option Token
  user : Option JsObj
  resetToken : Option String
  deriving DecidableEq, Repr

/-- What a handler does with a request: it sends a response or passes an
error to `next`. -/
inductive Result where
  | sent (r : Response)
  | next (error : String)
  deriving DecidableEq, Repr

/-- A failure response `res.status(code).json({ success: false, message })`. -/
def fail (code : Nat) (message : String) : Response :=
  { status := code, cookie := none, success := false, message := some message,
    errors := [], token := none, user := none, resetToken := none }

/-- The response `res.status(400).json({ success: false, message, errors })`. -/
def validationFailed (message : String) (errors : List String) : Response :=
  { status := 400, cookie := none, success := false, message := some message,
    errors := errors, token := none, user := none, resetToken := none }

def optStr : Option String → JsVal
  | none => JsVal.undefined
  | some s => JsVal.str s

/-- JavaScript truthiness of an optional string: `undefined` and the empty
string are falsy. -/
def truthy : Option String → Bool
  | none => false
  | some s => s != ""

/-! ## Mongoose operations on the user collection -/

/-- `User.findOne(query)`: the first document that satisfies the query. -/
def findOne (s : Store) (q : User → Bool) : Option User :=
  s.users.find? q

/-- `User.findById(id)`. -/
def findById (s : Store) (id : Nat) : Option User :=
  s.users.find? (fun u => u._id == id)

/-- The first document with the `_id` of `u` replaced by `u`, as an
`updateOne({ _id })` does. -/
def replaceById (u : User) : List User → List User
  | [] => []
  | v :: vs => if v._id = u._id then u :: vs else v :: replaceById u vs

/-- `user.save()` of a document whose email is not modified: the stored
document with this `_id` is replaced. -/
def save (s : Store) (u : User) : Store :=
  { s with users := replaceById u s.users }

/-- Modelled from the spec: the unique index on `email` of the schema in
`models/User.js` (not in the sources; "Email is globally unique"). An insert
of a document whose email is already stored is rejected with a duplicate-key
error; otherwise the document gets the next fresh `_id` and is appended. -/
def insert (s : Store) (mk : Nat → User) : Except String (Store × User) :=
  let u := mk s.nextId
  if s.users.any (fun v => v.email == u.email) then
    Except.error "E11000 duplicate key error"
  else
    Except.ok ({ users := s.users ++ [u], nextId := s.nextId + 1 }, u)

/-- Modelled from the spec: the pre-save hook of `models/User.js` (not in the
sources), which stores `hash(plaintext)` in place of a modified password
("Password Hasher: hash(plaintext) -> digest"). -/
def hashPassword (lib : Lib) (salt password : String) : String :=
  lib.bcryptHash salt password

/-- Modelled from the spec: `user.matchPassword` of `models/User.js` (not in
the sources): "verify(plaintext, digest) -> bool", false when there is no
digest. -/
def matchPassword (lib : Lib) (u : User) (entered : String) : Bool :=
  match u.password with
  | none => false
  | some digest => lib.bcryptCompare entered digest

/-- Modelled from the spec: the schema defaults of `models/User.js` (not in
the sources) for a document created with the given paths: provider `local`
unless given, email not verified unless given, no reset pending. -/
def newUser (name email : String) (password googleId avatar : Option String)
    (provider : String) (isEmailVerified : Bool) (now id : Nat) : User :=
  { _id := id, name := name, email := email, password := password,
    googleId := googleId, avatar := avatar, dateOfBirth := none,
    preferences := "", isEmailVerified := isEmailVerified, provider := provider,
    resetPasswordToken := none, resetPasswordExpire := none, createdAt := now }

/-! ## Token issuer -/

/-- `generateToken`: `jwt.sign({ id }, JWT_SECRET, { expiresIn: JWT_EXPIRE })`
at time `now` (milliseconds). `iat` is `Math.floor(Date.now() / 1000)` and,
`expiresIn` being a string, `exp` is `Math.floor(iat + ms(expiresIn) / 1000)`. -/
def generateToken (env : Env) (now : Nat) (id : Nat) : Token :=
  { id := id, iat := now / 1000, exp := now / 1000 + env.JWT_EXPIRE / 1000,
    key := env.JWT_SECRET }

/-- Modelled from the spec: the token verifier of `middleware/auth.js` (not in
the sources): "verify(signedToken) -> userId | Invalid", invalid on a
signature mismatch and once the expiry has elapsed (`jwt.verify` rejects a
token when `Math.floor(Date.now() / 1000) >= exp`). -/
def verifyToken (env : Env) (now : Nat) (t : Token) : Option Nat :=
  if t.key = env.JWT_SECRET ∧ now / 1000 < t.exp then some t.id else none

/-- The cookie options built by `sendTokenResponse` and by the Google
callback. -/
def cookieOptions (env : Env) (now : Nat) : CookieOptions :=
  { expires := now + env.JWT_COOKIE_EXPIRE * 24 * 60 * 60 * 1000,
    httpOnly := true,
    secure := env.NODE_ENV == "production",
    sameSite := "strict" }

/-- The `user` object of `sendTokenResponse`. -/
def tokenResponseUser (user : User) : JsObj :=
  [("id", JsVal.num user._id),
   ("name", JsVal.str user.name),
   ("email", JsVal.str user.email),
   ("avatar", optStr user.avatar),
   ("dateOfBirth", optStr user.dateOfBirth),
   ("preferences", JsVal.str user.preferences),
   ("isEmailVerified", JsVal.bool user.isEmailVerified),
   ("provider", JsVal.str user.provider)]

/-- `sendTokenResponse(user, statusCode, res)`. -/
def sendTokenResponse (env : Env) (now : Nat) (user : User) (statusCode : Nat) :
    Response :=
  let token := generateToken env now user._id
  let options := cookieOptions env now
  { status := statusCode,
    cookie := some { name := "token", value := token, options := options },
    success := true, message := none, errors := [],
    token := some token, user := some (tokenResponseUser user), resetToken := none }

/-! ## Validators -/

/-- The characters `\s` of a JavaScript regular expression matches: the white
space and line terminator code points (tab, line feed, vertical tab, form
feed, carriage return, space, no-break space, U+1680, U+2000 to U+200A,
U+2028, U+2029, U+202F, U+205F, U+3000 and U+FEFF). -/
def isJsSpace (c : Char) : Bool :=
  (decide (0x09 ≤ c.toNat) && decide (c.toNat ≤ 0x0D)) || c.toNat == 0x20 ||
    c.toNat == 0xA0 || c.toNat == 0x1680 ||
    (decide (0x2000 ≤ c.toNat) && decide (c.toNat ≤ 0x200A)) || c.toNat == 0x2028 ||
    c.toNat == 0x2029 || c.toNat == 0x202F || c.toNat == 0x205F || c.toNat == 0x3000 ||
    c.toNat == 0xFEFF

/-- The sanitizer `trim()` of the validator library, which removes `^\s+` and
`\s+$`; `String.prototype.trim`, which the `trim` option of a schema path
applies, removes the same characters. -/
def trim (s : String) : String :=
  String.mk
    ((s.toList.dropWhile isJsSpace).reverse.dropWhile isJsSpace).reverse

/-- The length `isLength` of the validator library compares with `min` and
`max`: `str.length` less the number of surrogate pairs and less the number of
variation selectors U+FE0E and U+FE0F, that is the number of characters other
than the two selectors (older releases of the library count the selectors). -/
def isLengthCount (s : String) : Nat :=
  (s.toList.filter (fun c => !(c.toNat == 0xFE0E || c.toNat == 0xFE0F))).length

/-- The line terminators, which `.` of a JavaScript regular expression does
not match. -/
def isLineTerminator (c : Char) : Bool :=
  c == Char.ofNat 0x0A || c == Char.ofNat 0x0D || c == Char.ofNat 0x2028 ||
    c == Char.ofNat 0x2029

/-- `matches(/^(?=.*[a-z])(?=.*[A-Z])(?=.*\d)/)`: each lookahead starts at
position 0 and `.*` runs up to the first line terminator. -/
def matchesPolicy (password : String) : Bool :=
  let line := password.toList.takeWhile (fun c => !isLineTerminator c)
  line.any Char.isLower && line.any Char.isUpper && line.any Char.isDigit

/-- The password chain `isLength({ min: 6 })`, `matches(...)` with its two
messages. -/
def passwordErrors (msgLength msgPattern password : String) : List String :=
  (if 6 ≤ isLengthCount password then [] else [msgLength]) ++
    (if matchesPolicy password then [] else [msgPattern])

structure RegisterBody where
  name : String
  email : String
  password : String
  deriving DecidableEq, Repr

/-- The validation chains of `POST /register`. -/
def registerErrors (lib : Lib) (body : RegisterBody) : List String :=
  (if 2 ≤ isLengthCount (trim body.name) ∧ isLengthCount (trim body.name) ≤ 50 then []
    else ["Name must be between 2 and 50 characters"]) ++
  (if lib.isEmail body.email then [] else ["Please provide a valid email"]) ++
  passwordErrors "Password must be at least 6 characters long"
    "Password must contain at least one uppercase letter, one lowercase letter, and one number"
    body.password

structure LoginBody where
  email : String
  password : String
  deriving DecidableEq, Repr

/-- The validation chains of `POST /login`. -/
def loginErrors (lib : Lib) (body : LoginBody) : List String :=
  (if lib.isEmail body.email then [] else ["Please provide a valid email"]) ++
  (if body.password.length ≠ 0 then [] else ["Please provide a password"])

/-! ## Email service -/

/-- The object an email function resolves to: `{ success, messageId }` or
`{ success, error }`. -/
structure MailResult where
  success : Bool
  info : String
  deriving DecidableEq, Repr

/-- An email a handler asks the email service to send: the recipient, which
of the two templates, and the second argument (the name or the reset token). -/
structure Mail where
  recipient : String
  template : String
  arg : String
  deriving DecidableEq, Repr

/-- `sendWelcomeEmail`: `sendMail` resolves to a message id or throws, and a
throw is caught and reported as `{ success: false, error }`. -/
def sendWelcomeEmail (sendMail : Except String String) : MailResult :=
  match sendMail with
  | Except.ok messageId => { success := true, info := messageId }
  | Except.error e => { success := false, info := e }

/-- `sendPasswordResetEmail`: the same shape, a throw of `sendMail` is caught
and reported as `{ success: false, error }`. -/
def sendPasswordResetEmail (sendMail : Except String String) : MailResult :=
  match sendMail with
  | Except.ok messageId => { success := true, info := messageId }
  | Except.error e => { success := false, info := e }

/-! ## Local accounts -/

/-- `POST /register`: the store afterwards, the response and the emails the
handler asked for. `welcome` is what `await sendWelcomeEmail(...)` does: it
resolves to a result or throws. -/
def register (lib : Lib) (env : Env) (s : Store) (now : Nat) (salt : String)
    (welcome : Except String MailResult) (body : RegisterBody) :
    Store × Result × List Mail :=
  let errors := registerErrors lib body
  if errors ≠ [] then
    (s, Result.sent (validationFailed "Validation failed" errors), [])
  else
    let name := trim body.name
    let email := lib.normalizeEmail body.email
    let password := body.password
    match findOne s (fun u => u.email == email) with
    | some _ => (s, Result.sent (fail 400 "User already exists with this email"), [])
    | none =>
      match insert s (newUser name email (some (hashPassword lib salt password))
          none none "local" false now) with
      | Except.error e => (s, Result.next e, [])
      | Except.ok (s1, user) =>
        let mail : Mail := { recipient := user.email, template := "welcome", arg := user.name }
        match welcome with
        | Except.ok _ => (s1, Result.sent (sendTokenResponse env now user 201), [mail])
        | Except.error _ => (s1, Result.sent (sendTokenResponse env now user 201), [mail])

/-- `POST /login`. -/
def login (lib : Lib) (env : Env) (s : Store) (now : Nat) (body : LoginBody) :
    Store × Result :=
  let errors := loginErrors lib body
  if errors ≠ [] then
    (s, Result.sent (validationFailed "Validation failed" errors))
  else
    let email := lib.normalizeEmail body.email
    let password := body.password
    match findOne s (fun u => u.email == email) with
    | none => (s, Result.sent (fail 401 "Invalid credentials"))
    | some user =>
      if !matchPassword lib user password then
        (s, Result.sent (fail 401 "Invalid credentials"))
      else
        (s, Result.sent (sendTokenResponse env now user 200))

/-- The query of `PUT /resetpassword/:resettoken`:
`{ resetPasswordToken, resetPasswordExpire: { $gt: Date.now() } }`. -/
def pendingReset (hashed : String) (now : Nat) (u : User) : Bool :=
  u.resetPasswordToken == some hashed &&
    (match u.resetPasswordExpire with
     | some e => decide (now < e)
     | none => false)

/-- `PUT /resetpassword/:resettoken`. -/
def resetPassword (lib : Lib) (env : Env) (s : Store) (now : Nat) (salt : String)
    (resettoken password : String) : Store × Result :=
  let errors := passwordErrors "Password must be at least 6 characters long"
    "Password must contain at least one uppercase letter, one lowercase letter, and one number"
    password
  if errors ≠ [] then
    (s, Result.sent (validationFailed "Password validation failed" errors))
  else
    let resetPasswordToken := lib.sha256 resettoken
    match findOne s (pendingReset resetPasswordToken now) with
    | none => (s, Result.sent (fail 400 "Invalid or expired reset token"))
    | some user =>
      let user := { user with
        password := some (hashPassword lib salt password),
        resetPasswordToken := none,
        resetPasswordExpire := none }
      (save s user, Result.sent (sendTokenResponse env now user 200))

/-- The `user` object of `GET /me`. -/
def meUser (user : User) : JsObj :=
  [("id", JsVal.num user._id),
   ("name", JsVal.str user.name),
   ("email", JsVal.str user.email),
   ("avatar", optStr user.avatar),
   ("dateOfBirth", optStr user.dateOfBirth),
   ("preferences", JsVal.str user.preferences),
   ("isEmailVerified", JsVal.bool user.isEmailVerified),
   ("provider", JsVal.str user.provider),
   ("createdAt", JsVal.num user.createdAt)]

/-- A success response without cookie or token carrying a `user` object. -/
def userResponse (view : JsObj) : Response :=
  { status := 200, cookie := none, success := true, message := none,
    errors := [], token := none, user := some view, resetToken := none }

/-- `GET /me`, after `protect` has set `req.user`. Reading a field of a
missing document throws. -/
def me (s : Store) (reqUserId : Nat) : Result :=
  match findById s reqUserId with
  | none => Result.next "TypeError"
  | some user => Result.sent (userResponse (meUser user))

structure DetailsBody where
  name : Option String
  email : Option String
  deriving DecidableEq, Repr

/-- The validation chains of `PUT /updatedetails`; both fields are optional. -/
def detailsErrors (lib : Lib) (body : DetailsBody) : List String :=
  (match body.name with
   | none => []
   | some n => if 2 ≤ isLengthCount (trim n) ∧ isLengthCount (trim n) ≤ 50 then []
      else ["Name must be between 2 and 50 characters"]) ++
  (match body.email with
   | none => []
   | some e => if lib.isEmail e then [] else ["Please provide a valid email"])

/-- Modelled from the spec: `User.findByIdAndUpdate(id, fields, ...)` under
the unique index on `email` of `models/User.js` (not in the sources; "Email is
globally unique"): the update is rejected with a duplicate-key error when a
document other than the updated one already stores the new email. The result
is `none` when no document has the id. -/
def findByIdAndUpdate (s : Store) (id : Nat) (name email : Option String) :
    Except String (Store × Option User) :=
  match findById s id with
  | none => Except.ok (s, none)
  | some u =>
    let u1 : User := { u with name := name.getD u.name, email := email.getD u.email }
    if (s.users.eraseP (fun v => v._id == id)).any (fun v => v.email == u1.email) then
      Except.error "E11000 duplicate key error"
    else
      Except.ok (save s u1, some u1)

/-- The `user` object of `PUT /updatedetails`. -/
def detailsUser (user : User) : JsObj :=
  [("id", JsVal.num user._id),
   ("name", JsVal.str user.name),
   ("email", JsVal.str user.email),
   ("avatar", optStr user.avatar),
   ("preferences", JsVal.str user.preferences),
   ("isEmailVerified", JsVal.bool user.isEmailVerified),
   ("provider", JsVal.str user.provider)]

/-- `PUT /updatedetails`, after `protect` has set `req.user`. A field is
updated only when its (sanitized) value is truthy. -/
def updateDetails (lib : Lib) (s : Store) (reqUserId : Nat) (body : DetailsBody) :
    Store × Result :=
  let errors := detailsErrors lib body
  if errors ≠ [] then
    (s, Result.sent (validationFailed "Validation failed" errors))
  else
    let name := body.name.map trim
    let email := body.email.map lib.normalizeEmail
    let fieldName := if truthy name then name else none
    let fieldEmail := if truthy email then email else none
    match findByIdAndUpdate s reqUserId fieldName fieldEmail with
    | Except.error e => (s, Result.next e)
    | Except.ok (_, none) => (s, Result.next "TypeError")
    | Except.ok (s1, some user) => (s1, Result.sent (userResponse (detailsUser user)))

structure PasswordBody where
  currentPassword : String
  newPassword : String
  deriving DecidableEq, Repr

/-- The validation chains of `PUT /updatepassword`. -/
def updatePasswordErrors (body : PasswordBody) : List String :=
  (if body.currentPassword.length ≠ 0 then [] else ["Please provide current password"]) ++
  passwordErrors "New password must be at least 6 characters long"
    "New password must contain at least one uppercase letter, one lowercase letter, and one number"
    body.newPassword

/-- `PUT /updatepassword`, after `protect` has set `req.user`. Calling
`matchPassword` on a missing document throws. -/
def updatePassword (lib : Lib) (env : Env) (s : Store) (now : Nat) (salt : String)
    (reqUserId : Nat) (body : PasswordBody) : Store × Result :=
  let errors := updatePasswordErrors body
  if errors ≠ [] then
    (s, Result.sent (validationFailed "Validation failed" errors))
  else
    match findById s reqUserId with
    | none => (s, Result.next "TypeError")
    | some user =>
      if !matchPassword lib user body.currentPassword then
        (s, Result.sent (fail 401 "Password is incorrect"))
      else
        let user := { user with password := some (hashPassword lib salt body.newPassword) }
        (save s user, Result.sent (sendTokenResponse env now user 200))

/-- Modelled from the spec: the reset window of `models/User.js` (not in the
sources): "fixed short window, e.g. 10 minutes", in milliseconds. -/
def resetWindow : Nat := 10 * 60 * 1000

/-- Modelled from the spec: `user.getResetPasswordToken()` of `models/User.js`
(not in the sources): it "stores only hash(secret) and an absolute expiry on
the user record" and "returns the raw secret"; `secret` is the random secret
it generates. -/
def getResetPasswordToken (lib : Lib) (now : Nat) (secret : String) (user : User) :
    User × String :=
  ({ user with
      resetPasswordToken := some (lib.sha256 secret),
      resetPasswordExpire := some (now + resetWindow) },
   secret)

/-- The success response of `POST /forgotpassword`. -/
def resetEmailSent (env : Env) (resetToken : String) : Response :=
  { status := 200, cookie := none, success := true,
    message := some "Password reset email sent successfully", errors := [],
    token := none, user := none,
    resetToken := if env.NODE_ENV == "development" then some resetToken else none }

/-- `POST /forgotpassword`: the store afterwards, the response and the emails
the handler asked for. `mail` is what `await sendPasswordResetEmail(...)`
does: it resolves to a result or throws. -/
def forgotPassword (lib : Lib) (env : Env) (s : Store) (now : Nat) (secret : String)
    (mail : Except String MailResult) (email : String) : Store × Result × List Mail :=
  if !lib.isEmail email then
    (s, Result.sent (validationFailed "Please provide a valid email"
      ["Please provide a valid email"]), [])
  else
    match findOne s (fun u => u.email == lib.normalizeEmail email) with
    | none => (s, Result.sent (fail 404 "No user found with that email address"), [])
    | some user =>
      let (user, resetToken) := getResetPasswordToken lib now secret user
      let s1 := save s user
      let asked : List Mail :=
        [{ recipient := user.email, template := "reset", arg := resetToken }]
      match mail with
      | Except.ok emailResult =>
        if emailResult.success then
          (s1, Result.sent (resetEmailSent env resetToken), asked)
        else
          let user := { user with resetPasswordToken := none, resetPasswordExpire := none }
          (save s1 user,
            Result.sent (fail 500 "Failed to send password reset email. Please try again."),
            asked)
      | Except.error _ =>
        let user := { user with resetPasswordToken := none, resetPasswordExpire := none }
        (save s1 user, Result.sent (fail 500 "Email could not be sent"), asked)

/-! ## OAuth bridge -/

/-- The first occurrence of `pat` in the text replaced by `rep`, as
`String.prototype.replace` does with a string pattern. -/
def replaceFirstChars (pat rep : List Char) : List Char → List Char
  | [] => if pat = [] then rep else []
  | c :: cs =>
    if pat.isPrefixOf (c :: cs) then rep ++ (c :: cs).drop pat.length
    else c :: replaceFirstChars pat rep cs

/-- `url.replace(pat, rep)` on strings. -/
def replaceFirst (pat rep url : String) : String :=
  String.mk (replaceFirstChars pat.toList rep.toList url.toList)

/-- The profile passport hands to the verify callback; `emails` and `photos`
hold the `value` of each entry. -/
structure Profile where
  id : String
  displayName : String
  emails : List String
  photos : List String
  deriving DecidableEq, Repr

/-- `let avatarUrl = profile.photos[0]?.value; if (avatarUrl) avatarUrl =
avatarUrl.replace('s96-c', 's400-c')`. -/
def highResAvatar (profile : Profile) : Option String :=
  let avatarUrl := profile.photos.head?
  if truthy avatarUrl then avatarUrl.map (replaceFirst "s96-c" "s400-c") else avatarUrl

/-- The verify callback of the Google strategy in `config/passport.js`:
the store afterwards and what is passed to `done`. Reading
`profile.emails[0].value` of an empty list throws. -/
def googleStrategy (s : Store) (now : Nat) (profile : Profile) :
    Store × Except String User :=
  match profile.emails.head? with
  | none => (s, Except.error "TypeError")
  | some email =>
    match findOne s (fun u => u.email == email || u.googleId == some profile.id) with
    | some user =>
      let user := if !truthy user.googleId then { user with googleId := some profile.id }
        else user
      let avatarUrl := highResAvatar profile
      let user := { user with
        avatar := avatarUrl, provider := "google", isEmailVerified := true }
      (save s user, Except.ok user)
    | none =>
      let avatarUrl := highResAvatar profile
      match insert s (newUser profile.displayName email none (some profile.id)
          avatarUrl "google" true now) with
      | Except.error e => (s, Except.error e)
      | Except.ok (s1, user) => (s1, Except.ok user)

/-- The `user` object both redirects of `GET /google/callback` serialize. -/
def callbackUser (user : User) : JsObj :=
  [("id", JsVal.num user._id),
   ("name", JsVal.str user.name),
   ("email", JsVal.str user.email),
   ("avatar", optStr user.avatar),
   ("dateOfBirth", optStr user.dateOfBirth),
   ("preferences", JsVal.str user.preferences),
   ("isEmailVerified", JsVal.bool user.isEmailVerified),
   ("provider", JsVal.str user.provider)]

/-- The redirect of `GET /google/callback`: the cookie set, the address the
browser is sent to and the `token` and `user` query parameters. -/
structure Redirect where
  cookie : Cookie
  target : String
  separator : String
  token : Token
  user : JsObj
  deriving DecidableEq, Repr

/-- The handler of `GET /google/callback`, after passport has set `req.user`.
`redirectUri` is `req.query.redirect_uri || req.session?.redirectUri`, already
decoded. -/
def googleCallback (env : Env) (now : Nat) (reqUser : User)
    (redirectUri : Option String) : Redirect :=
  let token := generateToken env now reqUser._id
  let options : CookieOptions :=
    { expires := now + env.JWT_COOKIE_EXPIRE * 24 * 60 * 60 * 1000,
      httpOnly := true,
      secure := env.NODE_ENV == "production",
      sameSite := "strict" }
  let cookie : Cookie := { name := "token", value := token, options := options }
  if truthy redirectUri then
    let decodedRedirectUri := redirectUri.getD ""
    let separator := if decodedRedirectUri.toList.contains (Char.ofNat 0x3F) then "&" else "?"
    { cookie := cookie, target := decodedRedirectUri, separator := separator,
      token := token, user := callbackUser reqUser }
  else
    { cookie := cookie, target := "todo-app://auth/success", separator := "?",
      token := token, user := callbackUser reqUser }

/-- The `user` object of the body of `POST /google/mobile` and
`POST /google/web`. -/
structure GoogleUser where
  id : String
  name : String
  email : String
  photo : Option String
  deriving DecidableEq, Repr

/-- The find-or-create of `POST /google/mobile` and `POST /google/web` (the
same statements in both handlers). -/
def findOrCreate (s : Store) (now : Nat) (user : GoogleUser) :
    Except String (Store × User) :=
  match findOne s (fun u => u.googleId == some user.id || u.email == user.email) with
  | some existingUser =>
    if !truthy existingUser.googleId then
      let existingUser := { existingUser with
        googleId := some user.id, provider := "google" }
      Except.ok (save s existingUser, existingUser)
    else
      Except.ok (s, existingUser)
  | none =>
    insert s (newUser user.name user.email none (some user.id) user.photo
      "google" true now)

/-- The `user` object of the responses of `POST /google/mobile` and
`POST /google/web`. -/
def googleUserView (existingUser : User) : JsObj :=
  [("id", JsVal.num existingUser._id),
   ("googleId", optStr existingUser.googleId),
   ("name", JsVal.str existingUser.name),
   ("email", JsVal.str existingUser.email),
   ("avatar", optStr existingUser.avatar),
   ("dateOfBirth", optStr existingUser.dateOfBirth),
   ("preferences", JsVal.str existingUser.preferences),
   ("isEmailVerified", JsVal.bool existingUser.isEmailVerified),
   ("provider", JsVal.str existingUser.provider),
   ("createdAt", JsVal.num existingUser.createdAt)]

/-- The success response of the two handlers: status 200, the signed token
and the `user` object, no cookie. -/
def googleResponse (env : Env) (now : Nat) (existingUser : User) : Response :=
  let token := generateToken env now existingUser._id
  { status := 200, cookie := none, success := true, message := none,
    errors := [], token := some token, user := some (googleUserView existingUser),
    resetToken := none }

structure MobileBody where
  idToken : Option String
  user : Option GoogleUser
  deriving DecidableEq, Repr

/-- `POST /google/mobile`. Every error is caught and answered with 500. -/
def googleMobile (env : Env) (s : Store) (now : Nat) (body : MobileBody) :
    Store × Response :=
  match body.user with
  | none => (s, fail 400 "ID token and user info are required")
  | some user =>
    if !truthy body.idToken then
      (s, fail 400 "ID token and user info are required")
    else
      match findOrCreate s now user with
      | Except.error _ => (s, fail 500 "Server error during Google authentication")
      | Except.ok (s1, existingUser) => (s1, googleResponse env now existingUser)

/-- `POST /google/web`. Every error is caught and answered with 500. -/
def googleWeb (lib : Lib) (env : Env) (s : Store) (now : Nat)
    (idToken : Option String) : Store × Response :=
  if !truthy idToken then
    (s, fail 400 "ID token is required")
  else
    match lib.verifyIdToken (idToken.getD "") with
    | Except.error _ => (s, fail 500 "Server error during Google authentication")
    | Except.ok payload =>
      let user : GoogleUser :=
        { id := payload.sub, name := payload.name, email := payload.email,
          photo := payload.picture }
      match findOrCreate s now user with
      | Except.error _ => (s, fail 500 "Server error during Google authentication")
      | Except.ok (s1, existingUser) => (s1, googleResponse env now existingUser)

/-! ## Invariants of the collection -/

/-- No two stored users share an email. -/
def EmailUnique (s : Store) : Prop :=
  s.users.Pairwise (fun a b => a.email ≠ b.email)

/-- The `_id` is a primary key and ids are handed out in increasing order:
no two documents share an `_id` and every stored `_id` is below `nextId`. -/
def WF (s : Store) : Prop :=
  s.users.Pairwise (fun a b => a._id ≠ b._id) ∧ ∀ u ∈ s.users, u._id < s.nextId

/-! ## A concrete instance -/

/-- A toy instance of the library functions: an address is anything with an
`@`, the digest is the salt, a `$` and the plaintext. -/
def demoLib : Lib :=
  { isEmail := fun e => e.toList.contains (Char.ofNat 0x40),
    normalizeEmail := fun e => e,
    bcryptHash := fun salt p => String.mk (salt.toList.takeWhile (fun c => c != Char.ofNat 0x24)) ++ "$" ++ p,
    bcryptCompare := fun p d =>
      (d.toList.dropWhile (fun c => c != Char.ofNat 0x24)).drop 1 == p.toList,
    sha256 := fun x => "#" ++ x,
    verifyIdToken := fun t =>
      if t == "good" then
        Except.ok { sub := "g-5", name := "Alice", email := "alice@example.com",
                    picture := some "new.png" }
      else Except.error "Wrong number of segments in token" }

def demoEnv : Env :=
  { NODE_ENV := "development", JWT_SECRET := "secret", JWT_EXPIRE := 2592000000,
    JWT_COOKIE_EXPIRE := 30 }

/-- A local account with an unverified email and a pending reset. -/
def alice : User :=
  { _id := 1, name := "Alice", email := "alice@example.com",
    password := some "salt$Passw0rd", googleId := none, avatar := some "old.png",
    dateOfBirth := none, preferences := "", isEmailVerified := false,
    provider := "local", resetPasswordToken := some "#R",
    resetPasswordExpire := some 900000, createdAt := 0 }

/-- A Google account. -/
def bob : User :=
  { _id := 2, name := "Bob", email := "bob@example.com", password := none,
    googleId := some "g-1", avatar := some "bob.png", dateOfBirth := none,
    preferences := "", isEmailVerified := true, provider := "google",
    resetPasswordToken := none, resetPasswordExpire := none, createdAt := 10 }

def demoStore : Store := { users := [alice, bob], nextId := 3 }

def carolBody : RegisterBody :=
  { name := " Carol ", email := "carol@example.com", password := "Passw0rd" }

/-- `u` is the first stored user, in store order, whose `googleId` is `id` or
whose email is `email`. -/
def FirstMatch (s : Store) (id email : String) (u : User) : Prop :=
  ∃ pre post, s.users = pre ++ u :: post ∧
    (u.googleId = some id ∨ u.email = email) ∧
    ∀ v ∈ pre, v.googleId ≠ some id ∧ v.email ≠ email

/-- An account linked to another Google identity. -/
def dana : User :=
  { _id := 4, name := "Dana", email := "dana@example.com", password := none,
    googleId := some "g-7", avatar := some "dana.png", dateOfBirth := none,
    preferences := "", isEmailVerified := true, provider := "google",
    resetPasswordToken := none, resetPasswordExpire := none, createdAt := 5 }

/-- Dana is stored before Bob. -/
def danaBobStore : Store := { users := [dana, bob], nextId := 5 }

/-- A sign-in of Alice with Google through `POST /google/mobile`. -/
def aliceMobile : MobileBody :=
  { idToken := some "id-token",
    user := some { id := "g-5", name := "Alice", email := "alice@example.com",
                   photo := some "new.png" } }

/-- The profile passport receives for the same sign-in. -/
def aliceProfile : Profile :=
  { id := "g-5", displayName := "Alice", emails := ["alice@example.com"],
    photos := ["new.png"] }

/-- Bob's profile with a 96 pixel picture. -/
def bobProfile : Profile :=
  { id := "g-1", displayName := "Bob", emails := ["bob@example.com"],
    photos := ["https://lh3.example/a=s96-c"] }

/-- A profile of an identity that is not stored. -/
def erinProfile : Profile :=
  { id := "g-8", displayName := "Erin", emails := ["erin@example.com"], photos := [] }

/-- A password with an uppercase letter, a digit and, after a line break, a
lowercase letter. -/
def twoLinePassword : String := String.mk
  [Char.ofNat 0x41, Char.ofNat 0x42, Char.ofNat 0x31, Char.ofNat 0x32, Char.ofNat 0x43,
   Char.ofNat 0x44, Char.ofNat 0x0A, Char.ofNat 0x78]

/-! ## The key of the password hasher

`bcryptjs` does not hash the password itself but a key of 72 bytes derived
from it, so two passwords with the same key have the same digests. -/

/-- The UTF-8 encoding of a character. -/
def utf8Bytes (c : Char) : List Nat :=
  if c.toNat < 0x80 then [c.toNat]
  else if c.toNat < 0x800 then [0xC0 + c.toNat / 0x40, 0x80 + c.toNat % 0x40]
  else if c.toNat < 0x10000 then
    [0xE0 + c.toNat / 0x1000, 0x80 + c.toNat / 0x40 % 0x40, 0x80 + c.toNat % 0x40]
  else
    [0xF0 + c.toNat / 0x40000, 0x80 + c.toNat / 0x1000 % 0x40,
     0x80 + c.toNat / 0x40 % 0x40, 0x80 + c.toNat % 0x40]

/-- The key `bcryptjs` derives from a password: the UTF-8 bytes of the
password followed by a zero byte, read cyclically (`offp = (offp + 1) %
data.length`, each byte masked with `0xff`) for the 18 words of 4 bytes of the
key schedule. Of a password of 72 bytes or more only the first 72 bytes are
read. -/
def bcryptKey (password : String) : List Nat :=
  let data := (password.toList.map utf8Bytes).flatten ++ [0]
  (List.range 72).map (fun i => data.getD (i % data.length) 0 % 256)

/-- A toy hasher with the key of `bcryptjs`: the digest is the key, one
character for each byte, and a plaintext is accepted when its key is the one
in the digest. The other library functions are those of `demoLib`. -/
def keyLib : Lib :=
  { demoLib with
    bcryptHash := fun _ p => String.mk ((bcryptKey p).map Char.ofNat),
    bcryptCompare := fun p d => d.toList.map Char.toNat == bcryptKey p }

/-- Two passwords of 73 characters that meet the policy and differ in the
last character only: nine times `Passw0rd`, then `A` or `B`. -/
def longOld : String :=
  String.mk ((List.replicate 9 "Passw0rd".toList).flatten ++ [Char.ofNat 0x41])

def longNew : String :=
  String.mk ((List.replicate 9 "Passw0rd".toList).flatten ++ [Char.ofNat 0x42])

/-- A local account whose password is `longOld`, with a pending reset. -/
def frank : User :=
  { _id := 7, name := "Frank", email := "frank@example.com",
    password := some (keyLib.bcryptHash "salt" longOld), googleId := none, avatar := none,
    dateOfBirth := none, preferences := "", isEmailVerified := false,
    provider := "local", resetPasswordToken := some "#R",
    resetPasswordExpire := some 900000, createdAt := 0 }

def frankStore : Store := { users := [frank], nextId := 8 }

/-! ## Names with white space the validators strip -/

/-- The name `Dave` between two no-break spaces (U+00A0). -/
def paddedName : String :=
  String.mk ([Char.ofNat 0xA0] ++ "Dave".toList ++ [Char.ofNat 0xA0])

/-- A name of one letter between two no-break spaces. -/
def shortPaddedName : String :=
  String.mk [Char.ofNat 0xA0, Char.ofNat 0x41, Char.ofNat 0xA0]

/-- A name of 50 letters followed by a no-break space. -/
def longPaddedName : String :=
  String.mk (List.replicate 50 (Char.ofNat 0x78) ++ [Char.ofNat 0xA0])

def daveBody : RegisterBody :=
  { name := paddedName, email := "dave@example.com", password := "Passw0rd" }

/-- A register request with the email of Alice. -/
def aliceAgainBody : RegisterBody :=
  { name := longPaddedName, email := "alice@example.com", password := "Passw0rd" }

/-- An environment whose `JWT_EXPIRE` is `'1'`, one millisecond. -/
def shortEnv : Env :=
  { NODE_ENV := "development", JWT_SECRET := "secret", JWT_EXPIRE := 1,
    JWT_COOKIE_EXPIRE := 30 }

/-! ## Double-precision arithmetic

JavaScript numbers are IEEE 754 doubles. The two expressions below that divide
(`Math.ceil(total / limit)` and `Math.round((completed / length) * 100)`) are
evaluated on non-negative doubles, represented exactly as `m / 2 ^ k`. -/

/-- A non-negative double, the value `m / 2 ^ k`. -/
structure Dbl where
  m : Nat
  k : Nat
  deriving DecidableEq, Repr

/-- The least `k`, counting up from the second argument for at most `fuel`
steps, with `2 ^ 52 * b ≤ a * 2 ^ k`: the scale at which `a / b` has a 53-bit
significand. -/
def findExp (a b : Nat) : Nat → Nat → Nat
  | 0, k => k
  | fuel + 1, k => if 2 ^ 52 * b ≤ a * 2 ^ k then k else findExp a b fuel (k + 1)

/-- The double nearest to the quotient `a / b` of two naturals (`0 < b`,
`a / b < 2 ^ 53`): the significand `a * 2 ^ k / b` is rounded to the nearest
integer, a tie to the even one. Zero is `0 / 2 ^ k`. -/
def fdiv (a b : Nat) : Dbl :=
  let k := findExp a b 1100 0
  let q := a * 2 ^ k / b
  let r := a * 2 ^ k % b
  let m := if 2 * r < b then q else if b < 2 * r then q + 1 else q + q % 2
  { m := m, k := k }

/-- The double nearest to the product of the double `x` and the integer `c`. -/
def fmul (x : Dbl) (c : Nat) : Dbl :=
  fdiv (x.m * c) (2 ^ x.k)

/-- `Math.round(x)`: the nearest integer, a tie to the larger one. -/
def mathRound (x : Dbl) : Nat :=
  (2 * x.m + 2 ^ x.k) / 2 ^ (x.k + 1)

/-- `Math.ceil(x)`. -/
def mathCeil (x : Dbl) : Nat :=
  (x.m + 2 ^ x.k - 1) / 2 ^ x.k

/-! ## Todo listing: paging -/

/-- `parseInt(value, 10) || fallback` for a query parameter that passed
`isInt`: an absent parameter parses to `NaN` and `0` is falsy. -/
def intOr (value : Option Nat) (fallback : Nat) : Nat :=
  match value with
  | none => fallback
  | some 0 => fallback
  | some n => n

/-- The validators of `page` and `limit` of `GET /`. -/
def pagingErrors (page limit : Option Nat) : List String :=
  (match page with
   | none => []
   | some p => if 1 ≤ p then [] else ["Page must be a positive integer"]) ++
  (match limit with
   | none => []
   | some l => if 1 ≤ l ∧ l ≤ 100 then [] else ["Limit must be between 1 and 100"])

/-- The `pagination` object of `GET /`. -/
structure Pagination where
  current : Nat
  pages : Nat
  total : Nat
  hasNext : Bool
  hasPrev : Bool
  deriving DecidableEq, Repr

/-- The pagination info of `GET /` for `total` matching documents. -/
def pagination (total : Nat) (pageQuery limitQuery : Option Nat) : Pagination :=
  let page := intOr pageQuery 1
  let limit := intOr limitQuery 25
  { current := page,
    pages := mathCeil (fdiv total limit),
    total := total,
    hasNext := decide (page < mathCeil (fdiv total limit)),
    hasPrev := decide (page > 1) }

/-! ## Users routes -/

/-- `getOrdinalSuffix(num)` for a non-negative integer. -/
def getOrdinalSuffix (num : Nat) : String :=
  let j := num % 10
  let k := num % 100
  if j = 1 ∧ k ≠ 11 then "st"
  else if j = 2 ∧ k ≠ 12 then "nd"
  else if j = 3 ∧ k ≠ 13 then "rd"
  else "th"

/-! ## Todo model (`models/Todo.js`) -/

/-- A subdocument of `subtasks`. -/
structure Subtask where
  _id : Nat
  title : String
  completed : Bool
  createdAt : Nat
  deriving DecidableEq, Repr

/-- A subdocument of `attachments`. -/
structure Attachment where
  name : String
  url : String
  size : Nat
  type : String
  uploadedAt : Nat
  deriving DecidableEq, Repr

/-- A todo document. `user` is the `_id` of the owner; dates are in
milliseconds, `none` is `null`. -/
structure Todo where
  _id : Nat
  user : Nat
  title : String
  description : Option String
  completed : Bool
  priority : String
  category : String
  dueDate : Option Nat
  reminder : Option Nat
  tags : List String
  subtasks : List Subtask
  attachments : List Attachment
  completedAt : Option Nat
  position : Nat
  createdAt : Nat
  updatedAt : Nat
  deriving DecidableEq, Repr

/-- The todo collection: the documents in insertion order and the next fresh
`_id` (also used for subdocuments). -/
structure TodoStore where
  todos : List Todo
  nextId : Nat
  deriving DecidableEq, Repr

/-- The virtual `completionPercentage`. -/
def completionPercentage (todo : Todo) : Nat :=
  if todo.subtasks.length = 0 then 0
  else
    let completedSubtasks := (todo.subtasks.filter (fun subtask => subtask.completed)).length
    mathRound (fmul (fdiv completedSubtasks todo.subtasks.length) 100)

/-- The `pre('save')` hook: `original` is the document as loaded, `todo` the
document being saved; `isModified('completed')` holds when the flag differs. -/
def preSave (now : Nat) (original todo : Todo) : Todo :=
  if todo.completed ≠ original.completed then
    if todo.completed then { todo with completedAt := some now }
    else { todo with completedAt := none }
  else todo

/-- The `pre('save')` hook on a new document: `completed` is modified when
the body sets it. -/
def preSaveNew (now : Nat) (completedSet : Bool) (todo : Todo) : Todo :=
  if completedSet then
    if todo.completed then { todo with completedAt := some now }
    else { todo with completedAt := none }
  else todo

/-! ## Todo routes (`routes/todos.js`) -/

/-- The value of a hexadecimal digit. -/
def hexDigit (c : Char) : Option Nat :=
  if Char.ofNat 0x30 ≤ c ∧ c ≤ Char.ofNat 0x39 then some (c.toNat - 0x30)
  else if Char.ofNat 0x61 ≤ c ∧ c ≤ Char.ofNat 0x66 then some (c.toNat - 0x61 + 10)
  else if Char.ofNat 0x41 ≤ c ∧ c ≤ Char.ofNat 0x46 then some (c.toNat - 0x41 + 10)
  else none

/-- The number a string of hexadecimal digits denotes. -/
def hexValue : List Char → Nat → Option Nat
  | [], acc => some acc
  | c :: cs, acc =>
    match hexDigit c with
    | none => none
    | some d => hexValue cs (acc * 16 + d)

/-- The ObjectId a route parameter casts to: the pattern
`/^[0-9a-fA-F]{24}$/` of `DELETE /:id`, which is also what the query cast
accepts. -/
def parseObjectId (param : String) : Option Nat :=
  if param.length = 24 then hexValue param.toList 0 else none

/-- A response of the todo routes; `count` is `deletedCount` or
`modifiedCount`. -/
structure TodoResponse where
  status : Nat
  success : Bool
  message : Option String
  errors : List String
  todo : Option Todo
  count : Option Nat
  deriving DecidableEq, Repr

/-- What a todo handler does with a request. -/
inductive TodoResult where
  | sent (r : TodoResponse)
  | next (error : String)
  deriving DecidableEq, Repr

/-- `res.status(code).json({ success: false, message })`. -/
def todoFail (code : Nat) (message : String) : TodoResponse :=
  { status := code, success := false, message := some message, errors := [],
    todo := none, count := none }

/-- `res.status(400).json({ success: false, message: 'Validation failed', errors })`. -/
def todoInvalid (errors : List String) : TodoResponse :=
  { status := 400, success := false, message := some "Validation failed",
    errors := errors, todo := none, count := none }

/-- `res.status(code).json({ success: true, todo })`. -/
def todoOk (code : Nat) (todo : Todo) : TodoResponse :=
  { status := code, success := true, message := none, errors := [],
    todo := some todo, count := none }

/-- `Todo.findOne({ _id, user })`. -/
def findOwn (s : TodoStore) (id user : Nat) : Option Todo :=
  s.todos.find? (fun t => t._id == id && t.user == user)

/-- The first document with the `_id` of `t` replaced by `t`. -/
def replaceTodo (t : Todo) : List Todo → List Todo
  | [] => []
  | v :: vs => if v._id = t._id then t :: vs else v :: replaceTodo t vs

/-- The paths of the schema a request body can set (the subdocument arrays
apart). A date is absent, `null` or a string. -/
structure TodoBody where
  title : Option String
  description : Option String
  completed : Option Bool
  priority : Option String
  category : Option String
  dueDate : Option (Option String)
  reminder : Option (Option String)
  tags : Option (List String)
  user : Option Nat
  completedAt : Option (Option Nat)
  position : Option Nat
  deriving DecidableEq, Repr

/-- A body that sets nothing. -/
def emptyBody : TodoBody :=
  { title := none, description := none, completed := none, priority := none,
    category := none, dueDate := none, reminder := none, tags := none, user := none,
    completedAt := none, position := none }

def isDigits (cs : List Char) : Bool := cs.all Char.isDigit

/-- The pattern `/^\d{4}-\d{2}-\d{2}T\d{2}:\d{2}:\d{2}(\.\d{3})?Z?$/`. -/
def isoPattern (value : String) : Bool :=
  let cs := value.toList
  let z := Char.ofNat 0x5A
  let dot := Char.ofNat 0x2E
  let tail := cs.drop 19
  cs.length ≥ 19 &&
  isDigits (cs.take 4) && cs.get? 4 == some (Char.ofNat 0x2D) &&
  isDigits ((cs.drop 5).take 2) && cs.get? 7 == some (Char.ofNat 0x2D) &&
  isDigits ((cs.drop 8).take 2) && cs.get? 10 == some (Char.ofNat 0x54) &&
  isDigits ((cs.drop 11).take 2) && cs.get? 13 == some (Char.ofNat 0x3A) &&
  isDigits ((cs.drop 14).take 2) && cs.get? 16 == some (Char.ofNat 0x3A) &&
  isDigits ((cs.drop 17).take 2) &&
  (tail == [] || tail == [z] ||
    (tail.length == 4 && tail.head? == some dot && isDigits (tail.drop 1)) ||
    (tail.length == 5 && tail.head? == some dot && isDigits ((tail.drop 1).take 3) &&
      tail.get? 4 == some z))

/-- The custom validator of `dueDate` and `reminder`. -/
def dateOk (value : Option (Option String)) : Bool :=
  match value with
  | none => true
  | some none => true
  | some (some v) => v == "" || isoPattern v

def priorities : List String := ["low", "medium", "high"]

def categories : List String :=
  ["personal", "work", "shopping", "health", "education", "travel", "other"]

/-- The validators the chains of `POST /` and `PUT /:id` share. -/
def fieldErrors (body : TodoBody) : List String :=
  (match body.description with
   | none => []
   | some d => if isLengthCount (trim d) ≤ 1000 then []
      else ["Description cannot be more than 1000 characters"]) ++
  (match body.priority with
   | none => []
   | some p => if priorities.contains p then [] else ["Priority must be low, medium, or high"]) ++
  (match body.category with
   | none => []
   | some c => if categories.contains c then [] else ["Invalid category"]) ++
  (if dateOk body.dueDate then [] else ["Due date must be a valid date"]) ++
  (if dateOk body.reminder then [] else ["Reminder must be a valid date"]) ++
  (match body.tags with
   | none => []
   | some tags => (tags.filter (fun tag => decide (20 < isLengthCount (trim tag)))).map
      (fun _ => "Each tag cannot be more than 20 characters"))

/-- The validation chains of `POST /`: the title is required. -/
def createErrors (body : TodoBody) : List String :=
  (if (trim (body.title.getD "")).length = 0 then ["Title is required"]
   else if isLengthCount (trim (body.title.getD "")) ≤ 200 then []
   else ["Title cannot be more than 200 characters"]) ++
  fieldErrors body

/-- The validation chains of `PUT /:id`: the title is optional. The chains
`isBoolean` of `completed` and `isArray` of `tags` hold by the types of the
fields of `TodoBody`. -/
def updateErrors (body : TodoBody) : List String :=
  (match body.title with
   | none => []
   | some title =>
     if (trim title).length = 0 then ["Title cannot be empty"]
     else if isLengthCount (trim title) ≤ 200 then []
     else ["Title cannot be more than 200 characters"]) ++
  fieldErrors body

/-- The cast of a date of the body: `null` and the empty string are `null`, a
string is parsed by `parseDate` (the `Date` constructor), and a string that
is no date is a cast error. -/
def castDate (parseDate : String → Option Nat) (value : Option String) :
    Except String (Option Nat) :=
  match value with
  | none => Except.ok none
  | some v =>
    if v == "" then Except.ok none
    else
      match parseDate v with
      | some t => Except.ok (some t)
      | none => Except.error "CastError"

/-- The update `{ $set: body }` of one document, as `findByIdAndUpdate` and
`updateMany` apply it (no `save` hook runs); `updatedAt` is set by the
`timestamps` option. -/
def applyBody (parseDate : String → Option Nat) (now : Nat) (body : TodoBody) (t : Todo) :
    Except String Todo :=
  match (match body.dueDate with
         | none => Except.ok t.dueDate
         | some v => castDate parseDate v),
        (match body.reminder with
         | none => Except.ok t.reminder
         | some v => castDate parseDate v) with
  | Except.ok dueDate, Except.ok reminder =>
    Except.ok
      { t with
        title := (body.title.map trim).getD t.title,
        description := match body.description with
          | none => t.description
          | some d => some (trim d),
        completed := body.completed.getD t.completed,
        priority := body.priority.getD t.priority,
        category := body.category.getD t.category,
        dueDate := dueDate,
        reminder := reminder,
        tags := match body.tags with
          | none => t.tags
          | some tags => tags.map trim,
        user := body.user.getD t.user,
        completedAt := body.completedAt.getD t.completedAt,
        position := body.position.getD t.position,
        updatedAt := now }
  | Except.error e, _ => Except.error e
  | _, Except.error e => Except.error e

/-- `GET /:id`, after `protect` has set `req.user`. An id that is no ObjectId
makes the query throw a cast error. -/
def getTodo (s : TodoStore) (reqUserId : Nat) (idParam : String) : TodoResult :=
  match parseObjectId idParam with
  | none => TodoResult.next "CastError"
  | some id =>
    match findOwn s id reqUserId with
    | none => TodoResult.sent (todoFail 404 "Todo not found")
    | some todo => TodoResult.sent (todoOk 200 todo)

/-- `POST /`: the dates of the body are cleaned up, `req.body.user` is set to
the caller and the document is created with the schema defaults. -/
def createTodo (parseDate : String → Option Nat) (s : TodoStore) (now reqUserId : Nat)
    (body : TodoBody) : TodoStore × TodoResult :=
  let errors := createErrors body
  if errors ≠ [] then
    (s, TodoResult.sent (todoInvalid errors))
  else
    match castDate parseDate (body.dueDate.getD none),
          castDate parseDate (body.reminder.getD none) with
    | Except.ok dueDate, Except.ok reminder =>
      let todo : Todo :=
        { _id := s.nextId,
          user := reqUserId,
          title := trim (body.title.getD ""),
          description := body.description.map trim,
          completed := body.completed.getD false,
          priority := body.priority.getD "medium",
          category := body.category.getD "personal",
          dueDate := dueDate,
          reminder := reminder,
          tags := (body.tags.getD []).map trim,
          subtasks := [],
          attachments := [],
          completedAt := body.completedAt.getD none,
          position := body.position.getD 0,
          createdAt := now,
          updatedAt := now }
      let todo := preSaveNew now body.completed.isSome todo
      ({ todos := s.todos ++ [todo], nextId := s.nextId + 1 },
        TodoResult.sent (todoOk 201 todo))
    | Except.error e, _ => (s, TodoResult.next e)
    | _, Except.error e => (s, TodoResult.next e)

/-- `PUT /:id`: the caller's document is looked up by `_id` and `user`, then
`Todo.findByIdAndUpdate(req.params.id, req.body, ...)` updates by `_id`. -/
def updateTodo (parseDate : String → Option Nat) (s : TodoStore) (now reqUserId : Nat)
    (idParam : String) (body : TodoBody) : TodoStore × TodoResult :=
  let errors := updateErrors body
  if errors ≠ [] then
    (s, TodoResult.sent (todoInvalid errors))
  else
    match parseObjectId idParam with
    | none => (s, TodoResult.next "CastError")
    | some id =>
      match findOwn s id reqUserId with
      | none => (s, TodoResult.sent (todoFail 404 "Todo not found"))
      | some _ =>
        match s.todos.find? (fun t => t._id == id) with
        | none => (s, TodoResult.next "TypeError")
        | some stored =>
          match applyBody parseDate now body stored with
          | Except.error e => (s, TodoResult.next e)
          | Except.ok todo =>
            ({ s with todos := replaceTodo todo s.todos }, TodoResult.sent (todoOk 200 todo))

/-- `DELETE /clear-all`. -/
def clearAll (s : TodoStore) (reqUserId : Nat) : TodoStore × TodoResult :=
  let deletedCount := (s.todos.filter (fun t => t.user == reqUserId)).length
  ({ s with todos := s.todos.filter (fun t => !(t.user == reqUserId)) },
    TodoResult.sent
      { status := 200, success := true,
        message := some (toString deletedCount ++ " todos cleared"), errors := [],
        todo := none, count := some deletedCount })

/-- `DELETE /:id`. -/
def deleteTodo (s : TodoStore) (reqUserId : Nat) (idParam : String) :
    TodoStore × TodoResult :=
  match parseObjectId idParam with
  | none => (s, TodoResult.sent (todoFail 400 "Invalid todo ID format"))
  | some id =>
    match findOwn s id reqUserId with
    | none => (s, TodoResult.sent (todoFail 404 "Todo not found"))
    | some todo =>
      ({ s with todos := s.todos.eraseP (fun t => t._id == todo._id) },
        TodoResult.sent
          { status := 200, success := true, message := some "Todo deleted successfully",
            errors := [], todo := none, count := none })

/-- `todo.save()`: the `pre('save')` hook runs, `updatedAt` is set and the
stored document with this `_id` is replaced. -/
def saveTodo (s : TodoStore) (now : Nat) (original todo : Todo) : TodoStore × Todo :=
  let saved := { preSave now original todo with updatedAt := now }
  ({ s with todos := replaceTodo saved s.todos }, saved)

/-- `PATCH /:id/toggle`. -/
def toggleTodo (s : TodoStore) (now reqUserId : Nat) (idParam : String) :
    TodoStore × TodoResult :=
  match parseObjectId idParam with
  | none => (s, TodoResult.next "CastError")
  | some id =>
    match findOwn s id reqUserId with
    | none => (s, TodoResult.sent (todoFail 404 "Todo not found"))
    | some todo =>
      let (s1, saved) := saveTodo s now todo { todo with completed := !todo.completed }
      (s1, TodoResult.sent (todoOk 200 saved))

/-- The title chain of the subtask routes; `required` is false for the
optional title of the update. -/
def subtaskTitleErrors (required : Bool) (title : Option String) : List String :=
  match title with
  | none => if required then ["Subtask title is required"] else []
  | some t =>
    if (trim t).length = 0 then
      [if required then "Subtask title is required" else "Subtask title cannot be empty"]
    else if isLengthCount (trim t) ≤ 100 then []
    else ["Subtask title cannot be more than 100 characters"]

/-- `POST /:id/subtasks`. -/
def addSubtask (s : TodoStore) (now reqUserId : Nat) (idParam : String)
    (title : Option String) : TodoStore × TodoResult :=
  let errors := subtaskTitleErrors true title
  if errors ≠ [] then
    (s, TodoResult.sent (todoInvalid errors))
  else
    match parseObjectId idParam with
    | none => (s, TodoResult.next "CastError")
    | some id =>
      match findOwn s id reqUserId with
      | none => (s, TodoResult.sent (todoFail 404 "Todo not found"))
      | some todo =>
        let subtask : Subtask :=
          { _id := s.nextId, title := trim (title.getD ""), completed := false,
            createdAt := now }
        let (s1, saved) := saveTodo { s with nextId := s.nextId + 1 } now todo
          { todo with subtasks := todo.subtasks ++ [subtask] }
        (s1, TodoResult.sent (todoOk 201 saved))

/-- `todo.subtasks.id(subtaskId)`: `null` when the id is no ObjectId. -/
def subtaskById (todo : Todo) (subtaskParam : String) : Option Subtask :=
  match parseObjectId subtaskParam with
  | none => none
  | some sid => todo.subtasks.find? (fun x => x._id == sid)

/-- `PUT /:id/subtasks/:subtaskId`. -/
def updateSubtask (s : TodoStore) (now reqUserId : Nat) (idParam subtaskParam : String)
    (title : Option String) (completed : Option Bool) : TodoStore × TodoResult :=
  let errors := subtaskTitleErrors false title
  if errors ≠ [] then
    (s, TodoResult.sent (todoInvalid errors))
  else
    match parseObjectId idParam with
    | none => (s, TodoResult.next "CastError")
    | some id =>
      match findOwn s id reqUserId with
      | none => (s, TodoResult.sent (todoFail 404 "Todo not found"))
      | some todo =>
        match subtaskById todo subtaskParam with
        | none => (s, TodoResult.sent (todoFail 404 "Subtask not found"))
        | some subtask =>
          let changed : Subtask :=
            { subtask with
              title := (title.map trim).getD subtask.title,
              completed := completed.getD subtask.completed }
          let (s1, saved) := saveTodo s now todo
            { todo with subtasks :=
                (todo.subtasks.map (fun x => if x._id = subtask._id then changed else x)) }
          (s1, TodoResult.sent (todoOk 200 saved))

/-- `DELETE /:id/subtasks/:subtaskId`. -/
def deleteSubtask (s : TodoStore) (now reqUserId : Nat) (idParam subtaskParam : String) :
    TodoStore × TodoResult :=
  match parseObjectId idParam with
  | none => (s, TodoResult.next "CastError")
  | some id =>
    match findOwn s id reqUserId with
    | none => (s, TodoResult.sent (todoFail 404 "Todo not found"))
    | some todo =>
      match subtaskById todo subtaskParam with
      | none => (s, TodoResult.sent (todoFail 404 "Subtask not found"))
      | some subtask =>
        let (s1, saved) := saveTodo s now todo
          { todo with subtasks := todo.subtasks.filter (fun x => !(x._id == subtask._id)) }
        (s1, TodoResult.sent (todoOk 200 saved))

/-- The ObjectIds a `todoIds` array casts to; one element that is no ObjectId
makes the query throw. -/
def castIds : List String → Option (List Nat)
  | [] => some []
  | p :: ps =>
    match parseObjectId p, castIds ps with
    | some id, some ids => some (id :: ids)
    | _, _ => none

/-- Every document that satisfies `sel` updated with `body`; the first cast
error aborts the update. -/
def updateWhere (parseDate : String → Option Nat) (now : Nat) (body : TodoBody)
    (sel : Todo → Bool) : List Todo → Except String (List Todo)
  | [] => Except.ok []
  | t :: ts =>
    match (if sel t then applyBody parseDate now body t else Except.ok t),
          updateWhere parseDate now body sel ts with
    | Except.ok t1, Except.ok ts1 => Except.ok (t1 :: ts1)
    | Except.error e, _ => Except.error e
    | _, Except.error e => Except.error e

/-- `PATCH /bulk`: `Todo.updateMany({ _id: { $in: todoIds }, user }, updates)`.
`updates` is `none` when the body carries no object. -/
def bulkUpdate (parseDate : String → Option Nat) (s : TodoStore) (now reqUserId : Nat)
    (todoIds : List String) (updates : Option TodoBody) : TodoStore × TodoResult :=
  let errors :=
    (if 1 ≤ todoIds.length then [] else ["Todo IDs must be a non-empty array"]) ++
    (if updates.isSome then [] else ["Updates must be an object"])
  if errors ≠ [] then
    (s, TodoResult.sent (todoInvalid errors))
  else
    match castIds todoIds with
    | none => (s, TodoResult.next "CastError")
    | some ids =>
      let sel := fun (t : Todo) => ids.contains t._id && t.user == reqUserId
      match updateWhere parseDate now (updates.getD emptyBody) sel s.todos with
      | Except.error e => (s, TodoResult.next e)
      | Except.ok todos =>
        let modifiedCount := (s.todos.filter sel).length
        ({ s with todos := todos },
          TodoResult.sent
            { status := 200, success := true,
              message := some (toString modifiedCount ++ " todos updated successfully"),
              errors := [], todo := none, count := some modifiedCount })

/-- The handler registered for `DELETE /bulk`:
`Todo.deleteMany({ _id: { $in: todoIds }, user })`. -/
def bulkDelete (s : TodoStore) (reqUserId : Nat) (todoIds : List String) :
    TodoStore × TodoResult :=
  if ¬ 1 ≤ todoIds.length then
    (s, TodoResult.sent (todoInvalid ["Todo IDs must be a non-empty array"]))
  else
    match castIds todoIds with
    | none => (s, TodoResult.next "CastError")
    | some ids =>
      let sel := fun (t : Todo) => ids.contains t._id && t.user == reqUserId
      let deletedCount := (s.todos.filter sel).length
      ({ s with todos := s.todos.filter (fun t => !sel t) },
        TodoResult.sent
          { status := 200, success := true,
            message := some (toString deletedCount ++ " todos deleted successfully"),
            errors := [], todo := none, count := some deletedCount })

/-! ### The router

Express tries the routes of a router in the order they were registered and
runs the first whose method and path match; none of the handlers above passes
the request on. -/

/-- A segment of a route path: a literal or a parameter. -/
inductive Seg where
  | lit (s : String)
  | param (name : String)
  deriving DecidableEq, Repr

/-- The handlers of `routes/todos.js`. -/
inductive Handler where
  | list | get | create | update | clearAll | delete | toggle | addSubtask
  | updateSubtask | deleteSubtask | bulkUpdate | bulkDelete | stats
  deriving DecidableEq, Repr

def lower (s : String) : String := String.mk (s.toList.map Char.toLower)

/-- The parameters a path binds when it matches a pattern: literals match
without regard to case, a parameter matches any non-empty segment. -/
def matchPath : List Seg → List String → Option (List (String × String))
  | [], [] => some []
  | Seg.lit l :: ps, x :: xs =>
    if lower l == lower x then matchPath ps xs else none
  | Seg.param name :: ps, x :: xs =>
    if x == "" then none
    else (matchPath ps xs).map (fun bound => (name, x) :: bound)
  | _, _ => none

/-- The routes of `routes/todos.js` in registration order. -/
def todoRoutes : List (String × List Seg × Handler) :=
  [("GET", [], Handler.list),
   ("GET", [Seg.param "id"], Handler.get),
   ("POST", [], Handler.create),
   ("PUT", [Seg.param "id"], Handler.update),
   ("DELETE", [Seg.lit "clear-all"], Handler.clearAll),
   ("DELETE", [Seg.param "id"], Handler.delete),
   ("PATCH", [Seg.param "id", Seg.lit "toggle"], Handler.toggle),
   ("POST", [Seg.param "id", Seg.lit "subtasks"], Handler.addSubtask),
   ("PUT", [Seg.param "id", Seg.lit "subtasks", Seg.param "subtaskId"],
      Handler.updateSubtask),
   ("DELETE", [Seg.param "id", Seg.lit "subtasks", Seg.param "subtaskId"],
      Handler.deleteSubtask),
   ("PATCH", [Seg.lit "bulk"], Handler.bulkUpdate),
   ("DELETE", [Seg.lit "bulk"], Handler.bulkDelete),
   ("GET", [Seg.lit "stats", Seg.lit "overview"], Handler.stats)]

/-- The first route that matches the method and the path (the segments after
`/api/todos`), with the parameters it binds. -/
def dispatch (method : String) (path : List String) :
    List (String × List Seg × Handler) → Option (Handler × List (String × String))
  | [] => none
  | (m, pattern, h) :: rest =>
    if m == method then
      match matchPath pattern path with
      | some bound => some (h, bound)
      | none => dispatch method path rest
    else dispatch method path rest

/-- The value a path bound to a parameter. -/
def paramOf (name : String) (bound : List (String × String)) : String :=
  ((bound.find? (fun p => p.1 == name)).map (fun p => p.2)).getD ""

/-- A `DELETE` request below `/api/todos`, after `protect`: the handler the
router dispatches to is run; a path no route matches falls through to the
404 handler of `server.js`. -/
def deleteRequest (s : TodoStore) (now reqUserId : Nat) (path : List String)
    (todoIds : List String) : TodoStore × TodoResult :=
  match dispatch "DELETE" path todoRoutes with
  | some (Handler.clearAll, _) => clearAll s reqUserId
  | some (Handler.delete, bound) => deleteTodo s reqUserId (paramOf "id" bound)
  | some (Handler.deleteSubtask, bound) =>
    deleteSubtask s now reqUserId (paramOf "id" bound) (paramOf "subtaskId" bound)
  | some (Handler.bulkDelete, _) => bulkDelete s reqUserId todoIds
  | _ => (s, TodoResult.sent (todoFail 404 "Route not found"))

/-! ## Account deletion (`routes/users.js`) -/

/-- `DELETE /account`, after `protect`: the handler's one statement,
`User.findByIdAndDelete(req.user.id)`, removes the user document; the todo
collection is not touched. -/
def deleteAccount (users : Store) (todos : TodoStore) (reqUserId : Nat) :
    Store × TodoStore × Response :=
  ({ users with users := users.users.eraseP (fun u => u._id == reqUserId) },
   todos,
   { status := 200, cookie := none, success := true,
     message := some "Account deleted successfully", errors := [], token := none,
     user := none, resetToken := none })

/-! ## Concrete todos -/

/-- A toy `Date` parser that knows one instant. -/
def demoParseDate (value : String) : Option Nat :=
  if value == "2026-01-01T00:00:00Z" then some 1767225600000 else none

/-- A pending todo of Alice (user 1). -/
def groceries : Todo :=
  { _id := 1, user := 1, title := "Buy milk", description := none, completed := false,
    priority := "medium", category := "shopping", dueDate := none, reminder := none,
    tags := [], subtasks := [], attachments := [], completedAt := none, position := 0,
    createdAt := 0, updatedAt := 0 }

/-- A todo of Bob (user 2) with three subtasks, two of them completed. -/
def report : Todo :=
  { _id := 2, user := 2, title := "Write report", description := some "Q3 numbers",
    completed := false, priority := "high", category := "work", dueDate := none,
    reminder := none, tags := ["q3"],
    subtasks :=
      [{ _id := 3, title := "Collect data", completed := true, createdAt := 0 },
       { _id := 4, title := "Draft", completed := true, createdAt := 0 },
       { _id := 5, title := "Review", completed := false, createdAt := 0 }],
    attachments := [], completedAt := none, position := 1, createdAt := 0, updatedAt := 0 }

def demoTodos : TodoStore := { todos := [groceries, report], nextId := 10 }

/-- The route parameters that denote the ids 1 and 2. -/
def idOne : String := "000000000000000000000001"

def idTwo : String := "000000000000000000000002"

/-- A todo with 201 subtasks, all but the last completed. -/
def longTodo : Todo :=
  { groceries with
    _id := 6,
    subtasks := (List.range 201).map (fun i =>
      { _id := 100 + i, title := "step", completed := decide (i < 200), createdAt := 0 }) }

/-- A production environment. -/
def prodEnv : Env :=
  { NODE_ENV := "production", JWT_SECRET := "secret", JWT_EXPIRE := 2592000000,
    JWT_COOKIE_EXPIRE := 30 }

/-! ## Lemmas on the collection -/

theorem isLengthCount_le (x : String) : isLengthCount x ≤ x.length :=
  List.length_filter_le _ _

theorem ne_empty_of_isLengthCount (x : String) (h : 1 ≤ isLengthCount x) :
    x.length ≠ 0 := by
  have := isLengthCount_le x
  omega

/-- The name chain of `POST /register` strips the white space of JavaScript:
one letter between two no-break spaces is too short a name, `Dave` between
two no-break spaces is stored as `Dave`, and 50 letters followed by a no-break
space are a valid name. A variation selector does not count for `isLength`. -/
theorem register_name_chain_examples :
    trim shortPaddedName = "A" ∧
    registerErrors demoLib
        { name := shortPaddedName, email := "erin@example.com", password := "Passw0rd" } =
      ["Name must be between 2 and 50 characters"] ∧
    trim paddedName = "Dave" ∧
    registerErrors demoLib daveBody = [] ∧
    longPaddedName.length = 51 ∧
    registerErrors demoLib aliceAgainBody = [] ∧
    isLengthCount (String.mk [Char.ofNat 0x41, Char.ofNat 0xFE0F]) = 1 := by
  decide

/-- A token issued with `JWT_EXPIRE='1'` (one millisecond) is expired at the
moment it is issued, and one issued with `JWT_EXPIRE='3600'` expires three
seconds later. -/
theorem short_lifetime_examples :
    verifyToken shortEnv 5000 (generateToken shortEnv 5000 1) = none ∧
    (generateToken { shortEnv with JWT_EXPIRE := 3600 } 5000 1).exp = 5 + 3 ∧
    (generateToken demoEnv 5000 1).exp = 5 + 30 * 24 * 60 * 60 := by
  decide

theorem find_none_of_forall (l : List User) (q : User → Bool)
    (h : ∀ u ∈ l, q u = false) : l.find? q = none := by
  rw [List.find?_eq_none]
  intro x hx
  simp [h x hx]

theorem insert_fresh (s : Store) (mk : Nat → User)
    (h : ∀ u ∈ s.users, u.email ≠ (mk s.nextId).email) :
    insert s mk =
      Except.ok ({ users := s.users ++ [mk s.nextId], nextId := s.nextId + 1 },
        mk s.nextId) := by
  unfold insert
  have hany : s.users.any (fun v => v.email == (mk s.nextId).email) = false := by
    rw [List.any_eq_false]
    intro x hx
    simpa using h x hx
  simp only [hany]
  rfl

theorem register_valid (lib : Lib) (env : Env) (s : Store) (now : Nat) (salt : String)
    (welcome : Except String MailResult) (body : RegisterBody)
    (hvalid : registerErrors lib body = [])
    (hfree : ∀ u ∈ s.users, u.email ≠ lib.normalizeEmail body.email) :
    register lib env s now salt welcome body =
      ({ users := s.users ++
          [newUser (trim body.name) (lib.normalizeEmail body.email)
            (some (hashPassword lib salt body.password)) none none "local" false now
            s.nextId],
         nextId := s.nextId + 1 },
       Result.sent (sendTokenResponse env now
          (newUser (trim body.name) (lib.normalizeEmail body.email)
            (some (hashPassword lib salt body.password)) none none "local" false now
            s.nextId) 201),
       [{ recipient := lib.normalizeEmail body.email, template := "welcome",
          arg := trim body.name }]) := by
  have hfind : findOne s (fun u => u.email == lib.normalizeEmail body.email) = none := by
    unfold findOne
    apply find_none_of_forall
    intro u hu
    simpa using hfree u hu
  have hins := insert_fresh s
    (newUser (trim body.name) (lib.normalizeEmail body.email)
      (some (hashPassword lib salt body.password)) none none "local" false now)
    (by intro u hu; simpa [newUser] using hfree u hu)
  unfold register
  simp only [hvalid, hfind, hins, ne_eq, not_true_eq_false, if_false]
  cases welcome <;> rfl

/-- C11: for every valid register request with an unused email, whatever the
welcome email does (it resolves to a success, resolves to a failure result, or
throws), the user is created and persisted at the end of the collection and
the response is 201 with a session token issued for the new user. -/
theorem register_ignores_welcome_email (lib : Lib) (env : Env) (s : Store) (now : Nat)
    (salt : String) (welcome : Except String MailResult) (body : RegisterBody)
    (hvalid : registerErrors lib body = [])
    (hfree : ∀ u ∈ s.users, u.email ≠ lib.normalizeEmail body.email) :
    ∃ user r,
      register lib env s now salt welcome body =
        ({ users := s.users ++ [user], nextId := s.nextId + 1 }, Result.sent r,
          [{ recipient := user.email, template := "welcome", arg := user.name }]) ∧
      user.email = lib.normalizeEmail body.email ∧
      user._id = s.nextId ∧
      r.status = 201 ∧
      r.token = some (generateToken env now user._id) ∧
      register lib env s now salt (Except.ok (sendWelcomeEmail (Except.ok "id"))) body =
        register lib env s now salt welcome body ∧
      register lib env s now salt (Except.ok (sendWelcomeEmail (Except.error "down"))) body =
        register lib env s now salt welcome body ∧
      register lib env s now salt (Except.error "thrown") body =
        register lib env s now salt welcome body := by
  refine ⟨_, _, register_valid lib env s now salt welcome body hvalid hfree,
    rfl, rfl, rfl, rfl, ?_, ?_, ?_⟩ <;>
  simp only [register_valid lib env s now salt _ body hvalid hfree]

theorem register_ignores_welcome_email_witness :
    registerErrors demoLib daveBody = [] ∧
    (∀ u ∈ demoStore.users, u.email ≠ demoLib.normalizeEmail daveBody.email) ∧
    ∃ user r,
      register demoLib demoEnv demoStore 5000 "salt" (Except.error "smtp") daveBody =
        ({ users := demoStore.users ++ [user], nextId := demoStore.nextId + 1 },
          Result.sent r, [{ recipient := user.email, template := "welcome", arg := user.name }]) ∧
      user.email = demoLib.normalizeEmail daveBody.email ∧
      user._id = demoStore.nextId ∧
      r.status = 201 ∧
      r.token = some (generateToken demoEnv 5000 user._id) ∧
      register demoLib demoEnv demoStore 5000 "salt"
          (Except.ok (sendWelcomeEmail (Except.ok "id"))) daveBody =
        register demoLib demoEnv demoStore 5000 "salt" (Except.error "smtp") daveBody ∧
      register demoLib demoEnv demoStore 5000 "salt"
          (Except.ok (sendWelcomeEmail (Except.error "down"))) daveBody =
        register demoLib demoEnv demoStore 5000 "salt" (Except.error "smtp") daveBody ∧
      register demoLib demoEnv demoStore 5000 "salt" (Except.error "thrown") daveBody =
        register demoLib demoEnv demoStore 5000 "salt" (Except.error "smtp") daveBody :=
  ⟨by decide, by decide,
    register_ignores_welcome_email demoLib demoEnv demoStore 5000 "salt"
      (Except.error "smtp") daveBody (by decide) (by decide)⟩

theorem login_valid_of_register_valid (lib : Lib) (body : RegisterBody)
    (hvalid : registerErrors lib body = []) :
    loginErrors lib { email := body.email, password := body.password } = [] := by
  unfold registerErrors passwordErrors at hvalid
  simp only [List.append_eq_nil, ite_eq_left_iff, reduceCtorEq, imp_false,
    not_not] at hvalid
  obtain ⟨⟨_, hmail⟩, hlen, _⟩ := hvalid
  unfold loginErrors
  have hne : body.password.length ≠ 0 :=
    ne_empty_of_isLengthCount body.password (by omega)
  simp [hmail, hne]

theorem find_append_singleton (l : List User) (q : User → Bool) (u : User)
    (h : ∀ v ∈ l, q v = false) (hu : q u = true) :
    (l ++ [u]).find? q = some u := by
  rw [List.find?_append, find_none_of_forall l q h]
  simp [hu]

theorem verifyToken_generateToken (env : Env) (issued now : Nat) (id : Nat)
    (h : now / 1000 < issued / 1000 + env.JWT_EXPIRE / 1000) :
    verifyToken env now (generateToken env issued id) = some id := by
  simp [verifyToken, generateToken, h]

/-- C12: for every valid (name, email, password) whose normalized email no
stored user has, with a hasher that verifies the digest it produced and a
configured token lifetime of at least one second (`JWT_EXPIRE` denotes 1000
milliseconds or more), register followed by login with the same email and
password answers 200 with a session token that embeds the id of the registered
user and that the verifier accepts at the time of the login and at any time
before the token expires. -/
theorem register_then_login (lib : Lib) (env : Env) (s : Store) (t1 t2 : Nat)
    (salt : String) (welcome : Except String MailResult) (body : RegisterBody)
    (hvalid : registerErrors lib body = [])
    (hfree : ∀ u ∈ s.users, u.email ≠ lib.normalizeEmail body.email)
    (hhash : lib.bcryptCompare body.password (lib.bcryptHash salt body.password) = true)
    (hexp : 1000 ≤ env.JWT_EXPIRE) :
    ∃ s1 user r1 r2 token,
      (register lib env s t1 salt welcome body).1 = s1 ∧
      (register lib env s t1 salt welcome body).2.1 = Result.sent r1 ∧
      user ∈ s1.users ∧ r1.user = some (tokenResponseUser user) ∧
      login lib env s1 t2 { email := body.email, password := body.password } =
        (s1, Result.sent r2) ∧
      r2.status = 200 ∧
      r2.token = some token ∧
      token.id = user._id ∧
      verifyToken env t2 token = some user._id ∧
      ∀ t, t / 1000 < t2 / 1000 + env.JWT_EXPIRE / 1000 →
        verifyToken env t token = some user._id := by
  have hreg := register_valid lib env s t1 salt welcome body hvalid hfree
  have hlogin := login_valid_of_register_valid lib body hvalid
  generalize hu : newUser (trim body.name) (lib.normalizeEmail body.email)
    (some (hashPassword lib salt body.password)) none none "local" false t1 s.nextId = user
    at hreg
  have hemail : user.email = lib.normalizeEmail body.email := by
    rw [← hu]; rfl
  have hpw : user.password = some (hashPassword lib salt body.password) := by
    rw [← hu]; rfl
  refine ⟨_, user, _, sendTokenResponse env t2 user 200, generateToken env t2 user._id,
    congrArg Prod.fst hreg, congrArg (fun x => x.2.1) hreg, ?_, rfl, ?_, rfl, rfl, rfl,
    ?_, ?_⟩
  · simp
  · unfold login
    have hfind : findOne { users := s.users ++ [user], nextId := s.nextId + 1 }
        (fun u => u.email == lib.normalizeEmail body.email) = some user := by
      unfold findOne
      apply find_append_singleton
      · intro v hv
        simpa using hfree v hv
      · simp [hemail]
    have hmatch : matchPassword lib user body.password = true := by
      simp [matchPassword, hpw, hashPassword, hhash]
    simp only [hlogin, hfind, hmatch, ne_eq, not_true_eq_false, if_false, Bool.not_true]
    rfl
  · exact verifyToken_generateToken env t2 t2 _ (by omega)
  · intro t ht
    exact verifyToken_generateToken env t2 t _ ht

theorem register_then_login_witness :
    registerErrors demoLib daveBody = [] ∧
    (∀ u ∈ demoStore.users, u.email ≠ demoLib.normalizeEmail daveBody.email) ∧
    demoLib.bcryptCompare daveBody.password
      (demoLib.bcryptHash "salt" daveBody.password) = true ∧
    1000 ≤ demoEnv.JWT_EXPIRE ∧
    ∃ s1 user r1 r2 token,
      (register demoLib demoEnv demoStore 5000 "salt" (Except.error "smtp") daveBody).1 =
        s1 ∧
      (register demoLib demoEnv demoStore 5000 "salt" (Except.error "smtp") daveBody).2.1 =
        Result.sent r1 ∧
      user ∈ s1.users ∧ r1.user = some (tokenResponseUser user) ∧
      login demoLib demoEnv s1 9000
          { email := daveBody.email, password := daveBody.password } =
        (s1, Result.sent r2) ∧
      r2.status = 200 ∧
      r2.token = some token ∧
      token.id = user._id ∧
      verifyToken demoEnv 9000 token = some user._id ∧
      ∀ t, t / 1000 < 9000 / 1000 + demoEnv.JWT_EXPIRE / 1000 →
        verifyToken demoEnv t token = some user._id :=
  ⟨by decide, by decide, by decide, by decide,
    register_then_login demoLib demoEnv demoStore 5000 9000 "salt" (Except.error "smtp")
      daveBody (by decide) (by decide) (by decide) (by decide)⟩

theorem find_replaceById (q : User → Bool) (u v : User) (hid : v._id = u._id)
    (hq : q v = true) :
    ∀ l : List User, l.find? q = some u → (replaceById v l).find? q = some v
  | [], h => by simp at h
  | w :: ws, h => by
    unfold replaceById
    by_cases hw : w._id = v._id
    · simp [hw, hq]
    · simp only [hw, if_false]
      by_cases hqw : q w = true
      · rw [List.find?_cons_of_pos _ hqw] at h
        have : w = u := Option.some.inj h
        exact absurd (by rw [this, hid]) hw
      · rw [List.find?_cons_of_neg _ hqw] at h
        rw [List.find?_cons_of_neg _ hqw]
        exact find_replaceById q u v hid hq ws h

theorem toNat_ofNat_byte (n : Nat) (h : n < 256) : (Char.ofNat n).toNat = n := by
  have hv : n.isValidChar := Or.inl (by omega)
  simp only [Char.ofNat, hv, dite_true, Char.toNat, Char.ofNatAux]
  rfl

theorem bcryptKey_byte (p : String) : ∀ b ∈ bcryptKey p, b < 256 := by
  intro b hb
  unfold bcryptKey at hb
  simp only [List.mem_map, List.mem_range] at hb
  obtain ⟨i, _, rfl⟩ := hb
  exact Nat.mod_lt _ (by decide)

theorem keyLib_compare (salt p q : String) :
    keyLib.bcryptCompare p (keyLib.bcryptHash salt q) = true ↔
      bcryptKey p = bcryptKey q := by
  show ((String.mk ((bcryptKey q).map Char.ofNat)).toList.map Char.toNat == bcryptKey p) = true ↔
    bcryptKey p = bcryptKey q
  have h : (String.mk ((bcryptKey q).map Char.ofNat)).toList.map Char.toNat = bcryptKey q := by
    show ((bcryptKey q).map Char.ofNat).map Char.toNat = bcryptKey q
    rw [List.map_map]
    conv_rhs => rw [← List.map_id (bcryptKey q)]
    apply List.map_congr_left
    intro b hb
    exact toNat_ofNat_byte b (bcryptKey_byte q b hb)
  rw [h, beq_iff_eq]
  exact eq_comm

/-- C13 (counterexample): `longOld` and `longNew` are different passwords that
meet the policy and agree on their first 72 bytes. Frank logs in with
`longOld`; his password is then reset to `longNew` with the pending token, which
answers 200; afterwards login with the old password `longOld` still answers 200
with a session token for Frank, not 401. -/
theorem login_after_reset_counterexample :
    longOld ≠ longNew ∧
    bcryptKey longOld = bcryptKey longNew ∧
    passwordErrors "Password must be at least 6 characters long"
      "Password must contain at least one uppercase letter, one lowercase letter, and one number"
      longNew = [] ∧
    login keyLib demoEnv frankStore 500000 { email := "frank@example.com", password := longOld } =
      (frankStore, Result.sent (sendTokenResponse demoEnv 500000 frank 200)) ∧
    ∃ s1 u1,
      resetPassword keyLib demoEnv frankStore 600000 "pepper" "R" longNew =
        (s1, Result.sent (sendTokenResponse demoEnv 600000 u1 200)) ∧
      u1._id = frank._id ∧
      u1.password = some (keyLib.bcryptHash "pepper" longNew) ∧
      login keyLib demoEnv s1 700000 { email := "frank@example.com", password := longOld } =
        (s1, Result.sent (sendTokenResponse demoEnv 700000 u1 200)) ∧
      (sendTokenResponse demoEnv 700000 u1 200).status = 200 ∧
      (sendTokenResponse demoEnv 700000 u1 200).token =
        some (generateToken demoEnv 700000 frank._id) := by
  refine ⟨by decide, by decide, by decide, by decide, _, _, rfl, ?_, ?_, ?_, ?_, ?_⟩ <;>
    decide

/-- C13: after a successful reset of the password of user `u` to `newPassword`
(the token hashes to a pending, unexpired reset of `u` and the password meets
the policy), with a hasher that accepts every plaintext that has the bcrypt
key of the hashed one, login with the email of `u` and `newPassword` answers
200 with a token for `u`; login with a non-empty password `old` fails with 401
'Invalid credentials' when the key of `old` differs from the key of
`newPassword` (and `old` is no collision: the hasher accepts it for the digest
of `newPassword` only if the keys are equal), and answers 200 with a token for
`u` when the keys are equal. -/
theorem login_after_reset (lib : Lib) (env : Env) (s : Store) (now t : Nat)
    (salt resettoken newPassword old email : String) (u : User)
    (hpolicy : passwordErrors "Password must be at least 6 characters long"
      "Password must contain at least one uppercase letter, one lowercase letter, and one number"
      newPassword = [])
    (hpending : findOne s (pendingReset (lib.sha256 resettoken) now) = some u)
    (hmail : lib.isEmail email = true)
    (hnorm : lib.normalizeEmail email = u.email)
    (hfirst : findOne s (fun v => v.email == u.email) = some u)
    (hfun : ∀ salt p q, bcryptKey p = bcryptKey q →
      lib.bcryptCompare p (lib.bcryptHash salt q) = true)
    (hnocoll : lib.bcryptCompare old (lib.bcryptHash salt newPassword) = true →
      bcryptKey old = bcryptKey newPassword)
    (hnonempty : old ≠ "") :
    ∃ s1 r u1,
      resetPassword lib env s now salt resettoken newPassword = (s1, Result.sent r) ∧
      r.status = 200 ∧
      u1._id = u._id ∧
      login lib env s1 t { email := email, password := newPassword } =
        (s1, Result.sent (sendTokenResponse env t u1 200)) ∧
      (bcryptKey old ≠ bcryptKey newPassword →
        login lib env s1 t { email := email, password := old } =
          (s1, Result.sent (fail 401 "Invalid credentials"))) ∧
      (bcryptKey old = bcryptKey newPassword →
        login lib env s1 t { email := email, password := old } =
          (s1, Result.sent (sendTokenResponse env t u1 200))) := by
  generalize hu1 : ({ u with
      password := some (hashPassword lib salt newPassword),
      resetPasswordToken := none,
      resetPasswordExpire := none } : User) = u1
  have hid : u1._id = u._id := by rw [← hu1]
  have hem : u1.email = u.email := by rw [← hu1]
  have hpw : u1.password = some (lib.bcryptHash salt newPassword) := by rw [← hu1]; rfl
  have hreset : resetPassword lib env s now salt resettoken newPassword =
      (save s u1, Result.sent (sendTokenResponse env now u1 200)) := by
    unfold resetPassword
    simp only [hpolicy, hpending, ne_eq, not_true_eq_false, if_false, hu1]
  have hfind : findOne (save s u1) (fun v => v.email == lib.normalizeEmail email) =
      some u1 := by
    rw [hnorm]
    unfold findOne save
    exact find_replaceById _ u u1 hid (by simp [hem]) s.users hfirst
  have hlen : 6 ≤ isLengthCount newPassword := by
    unfold passwordErrors at hpolicy
    simp only [List.append_eq_nil, ite_eq_left_iff, reduceCtorEq, imp_false,
      not_not] at hpolicy
    exact hpolicy.1
  have herrOld : loginErrors lib { email := email, password := old } = [] := by
    have : old.length ≠ 0 := by
      intro h0
      apply hnonempty
      exact String.ext (List.length_eq_zero.mp h0)
    simp [loginErrors, hmail, this]
  have hmatch : ∀ p, matchPassword lib u1 p =
      lib.bcryptCompare p (lib.bcryptHash salt newPassword) := by
    intro p
    unfold matchPassword
    rw [hpw]
  refine ⟨save s u1, _, u1, hreset, rfl, hid, ?_, ?_, ?_⟩
  · have herr : loginErrors lib { email := email, password := newPassword } = [] := by
      have : newPassword.length ≠ 0 :=
        ne_empty_of_isLengthCount newPassword (by omega)
      simp [loginErrors, hmail, this]
    have hyes : matchPassword lib u1 newPassword = true := by
      rw [hmatch]
      exact hfun salt newPassword newPassword rfl
    unfold login
    simp only [herr, hfind, hyes, ne_eq, not_true_eq_false, if_false, Bool.not_true]
    rfl
  · intro hdiff
    have hno : matchPassword lib u1 old = false := by
      rw [hmatch]
      cases hc : lib.bcryptCompare old (lib.bcryptHash salt newPassword)
      · rfl
      · exact absurd (hnocoll hc) hdiff
    unfold login
    simp only [herrOld, hfind, hno, ne_eq, not_true_eq_false, if_false, Bool.not_false, if_true]
  · intro hsame
    have hyes : matchPassword lib u1 old = true := by
      rw [hmatch]
      exact hfun salt old newPassword hsame
    unfold login
    simp only [herrOld, hfind, hyes, ne_eq, not_true_eq_false, if_false, Bool.not_true]
    rfl


theorem dropWhile_takeWhile_append (f : Char → Bool) (x : Char) (r : List Char)
    (hx : f x = false) :
    ∀ l : List Char, (l.takeWhile f ++ x :: r).dropWhile f = x :: r
  | [] => by simp [List.dropWhile, hx]
  | c :: cs => by
    by_cases hc : f c = true
    · simp only [List.takeWhile_cons, hc, if_true, List.cons_append, List.dropWhile_cons]
      exact dropWhile_takeWhile_append f x r hx cs
    · simp only [List.takeWhile_cons, hc, Bool.false_eq_true, if_false, List.nil_append,
        List.dropWhile_cons, hx]

theorem demoLib_compare (salt p q : String) :
    demoLib.bcryptCompare p (demoLib.bcryptHash salt q) = (q.toList == p.toList) := by
  show ((((String.mk (salt.toList.takeWhile (fun c => c != Char.ofNat 0x24)) ++ "$" ++
      q).toList.dropWhile (fun c => c != Char.ofNat 0x24)).drop 1) == p.toList) =
      (q.toList == p.toList)
  have h : (String.mk (salt.toList.takeWhile (fun c => c != Char.ofNat 0x24)) ++ "$" ++ q).toList =
      salt.toList.takeWhile (fun c => c != Char.ofNat 0x24) ++ Char.ofNat 0x24 :: q.toList := by
    simp [String.toList, String.data_append]
  rw [h, dropWhile_takeWhile_append _ _ _ (by decide)]
  rfl

theorem demoLib_correct (salt p : String) :
    demoLib.bcryptCompare p (demoLib.bcryptHash salt p) = true := by
  rw [demoLib_compare]; simp

theorem demoLib_sound (salt p q : String)
    (h : demoLib.bcryptCompare p (demoLib.bcryptHash salt q) = true) : p = q := by
  rw [demoLib_compare] at h
  have : q.toList = p.toList := by simpa using h
  exact (String.ext this).symm

theorem login_after_reset_witness :
    passwordErrors "Password must be at least 6 characters long"
      "Password must contain at least one uppercase letter, one lowercase letter, and one number"
      "NewPassw1" = [] ∧
    findOne demoStore (pendingReset (keyLib.sha256 "R") 600000) = some alice ∧
    keyLib.isEmail "alice@example.com" = true ∧
    keyLib.normalizeEmail "alice@example.com" = alice.email ∧
    findOne demoStore (fun v => v.email == alice.email) = some alice ∧
    (∀ salt p q, bcryptKey p = bcryptKey q →
      keyLib.bcryptCompare p (keyLib.bcryptHash salt q) = true) ∧
    (keyLib.bcryptCompare "Passw0rd" (keyLib.bcryptHash "pepper" "NewPassw1") = true →
      bcryptKey "Passw0rd" = bcryptKey "NewPassw1") ∧
    "Passw0rd" ≠ "" ∧
    bcryptKey "Passw0rd" ≠ bcryptKey "NewPassw1" ∧
    ∃ s1 r u1,
      resetPassword keyLib demoEnv demoStore 600000 "pepper" "R" "NewPassw1" =
        (s1, Result.sent r) ∧
      r.status = 200 ∧
      u1._id = alice._id ∧
      login keyLib demoEnv s1 700000
          { email := "alice@example.com", password := "NewPassw1" } =
        (s1, Result.sent (sendTokenResponse demoEnv 700000 u1 200)) ∧
      login keyLib demoEnv s1 700000 { email := "alice@example.com", password := "Passw0rd" } =
        (s1, Result.sent (fail 401 "Invalid credentials")) :=
  have h := login_after_reset keyLib demoEnv demoStore 600000 700000 "pepper" "R" "NewPassw1"
    "Passw0rd" "alice@example.com" alice (by decide) (by decide) (by decide) (by decide)
    (by decide) (fun salt p q => (keyLib_compare salt p q).mpr)
    (keyLib_compare "pepper" "Passw0rd" "NewPassw1").mp (by decide)
  have hdiff : bcryptKey "Passw0rd" ≠ bcryptKey "NewPassw1" := by decide
  ⟨by decide, by decide, by decide, by decide, by decide,
    fun salt p q => (keyLib_compare salt p q).mpr,
    (keyLib_compare "pepper" "Passw0rd" "NewPassw1").mp, by decide, hdiff,
    h.imp (fun _ h1 => h1.imp (fun _ h2 => h2.imp (fun _ h3 =>
      ⟨h3.1, h3.2.1, h3.2.2.1, h3.2.2.2.1, h3.2.2.2.2.1 hdiff⟩)))⟩

theorem length_replaceById (u : User) : ∀ l : List User, (replaceById u l).length = l.length
  | [] => rfl
  | v :: vs => by
    unfold replaceById
    split
    · rfl
    · simp [length_replaceById u vs]

theorem find_of_firstMatch (s : Store) (id email : String) (u : User) (q : User → Bool)
    (hq : ∀ v, q v = true ↔ (v.googleId = some id ∨ v.email = email))
    (h : FirstMatch s id email u) : s.users.find? q = some u := by
  obtain ⟨pre, post, hs, hu, hpre⟩ := h
  rw [List.find?_eq_some]
  refine ⟨(hq u).mpr hu, pre, post, hs, ?_⟩
  intro a ha
  have := hpre a ha
  have hqa : ¬ q a = true := by
    rw [hq a]
    rintro (h1 | h2)
    · exact this.1 h1
    · exact this.2 h2
  simpa using hqa

theorem find_none_of_noMatch (s : Store) (id email : String) (q : User → Bool)
    (hq : ∀ v, q v = true ↔ (v.googleId = some id ∨ v.email = email))
    (h : ∀ v ∈ s.users, v.googleId ≠ some id ∧ v.email ≠ email) :
    s.users.find? q = none := by
  apply find_none_of_forall
  intro v hv
  have := h v hv
  cases hqv : q v
  · rfl
  · rcases (hq v).mp hqv with h1 | h2
    · exact absurd h1 this.1
    · exact absurd h2 this.2

theorem findOrCreate_found (s : Store) (now : Nat) (g : GoogleUser) (u : User)
    (h : findOne s (fun v => v.googleId == some g.id || v.email == g.email) = some u) :
    ∃ s1 u1, findOrCreate s now g = Except.ok (s1, u1) ∧ u1._id = u._id ∧
      u1.email = u.email ∧ s1.users.length = s.users.length ∧ s1.nextId = s.nextId ∧
      s1 = (if truthy u.googleId then s else save s u1) ∧
      u1 = (if truthy u.googleId then u
        else { u with googleId := some g.id, provider := "google" }) := by
  unfold findOrCreate
  simp only [h]
  by_cases ht : truthy u.googleId = true
  · simp only [ht, Bool.not_true, Bool.false_eq_true, if_false, if_true]
    exact ⟨_, _, rfl, rfl, rfl, rfl, rfl, rfl, rfl⟩
  · simp only [ht, Bool.not_false, Bool.false_eq_true, if_true, if_false]
    exact ⟨_, _, rfl, rfl, rfl, length_replaceById _ _, rfl, rfl, rfl⟩

theorem findOrCreate_created (s : Store) (now : Nat) (g : GoogleUser)
    (h : findOne s (fun v => v.googleId == some g.id || v.email == g.email) = none) :
    findOrCreate s now g =
      Except.ok
        ({ users := s.users ++
            [newUser g.name g.email none (some g.id) g.photo "google" true now s.nextId],
           nextId := s.nextId + 1 },
         newUser g.name g.email none (some g.id) g.photo "google" true now s.nextId) := by
  unfold findOrCreate
  simp only [h]
  apply insert_fresh
  intro u hu
  unfold findOne at h
  rw [List.find?_eq_none] at h
  have := h u hu
  simp only [Bool.or_eq_true, beq_iff_eq, not_or] at this
  exact this.2

theorem googleStrategy_found (s : Store) (now : Nat) (p : Profile) (e : String) (u : User)
    (he : p.emails.head? = some e)
    (h : findOne s (fun v => v.email == e || v.googleId == some p.id) = some u) :
    ∃ u1, googleStrategy s now p = (save s u1, Except.ok u1) ∧ u1._id = u._id ∧
      u1.email = u.email ∧ u1.avatar = highResAvatar p ∧ u1.isEmailVerified = true ∧
      u1.provider = "google" ∧
      u1.googleId = (if truthy u.googleId then u.googleId else some p.id) := by
  unfold googleStrategy
  simp only [he, h]
  by_cases ht : truthy u.googleId = true
  · simp only [ht, Bool.not_true, Bool.false_eq_true, if_false, if_true]
    exact ⟨_, rfl, rfl, rfl, rfl, rfl, rfl, rfl⟩
  · simp only [ht, Bool.not_false, Bool.false_eq_true, if_true, if_false]
    exact ⟨_, rfl, rfl, rfl, rfl, rfl, rfl, rfl⟩

theorem googleStrategy_created (s : Store) (now : Nat) (p : Profile) (e : String)
    (he : p.emails.head? = some e)
    (h : findOne s (fun v => v.email == e || v.googleId == some p.id) = none) :
    googleStrategy s now p =
      ({ users := s.users ++
          [newUser p.displayName e none (some p.id) (highResAvatar p) "google" true now
            s.nextId],
         nextId := s.nextId + 1 },
       Except.ok (newUser p.displayName e none (some p.id) (highResAvatar p) "google" true
          now s.nextId)) := by
  unfold googleStrategy
  simp only [he, h]
  rw [insert_fresh]
  intro u hu
  unfold findOne at h
  rw [List.find?_eq_none] at h
  have := h u hu
  simp only [Bool.or_eq_true, beq_iff_eq, not_or] at this
  exact this.1

/-- C14 (counterexample): Bob holds the external id `g-1` and Dana, stored
before him, holds the email of the profile; both `/google/mobile`-`/google/web`
find-or-create and the passport strategy resolve Dana, not Bob. -/
theorem oauth_precedence_counterexample :
    bob ∈ danaBobStore.users ∧ bob.googleId = some "g-1" ∧
    dana.googleId ≠ some "g-1" ∧ dana._id ≠ bob._id ∧
    findOrCreate danaBobStore 0
        { id := "g-1", name := "Bob", email := "dana@example.com", photo := none } =
      Except.ok (danaBobStore, dana) ∧
    ∃ s1 u1,
      googleStrategy danaBobStore 0
          { id := "g-1", displayName := "Bob", emails := ["dana@example.com"],
            photos := [] } = (s1, Except.ok u1) ∧
      u1._id = dana._id ∧ u1.googleId = some "g-7" := by
  refine ⟨by decide, rfl, by decide, by decide, rfl, _, _, rfl, rfl, rfl⟩

/-- C14 (amended): OAuth resolve is keyed by external id or email without
precedence between the two. At each entry point the user resolved is the first
stored user whose googleId is the external id or whose email is the profile's
email (so the user with the external id is resolved when no user stored before
it has the email); no user is added then. When no stored user has the external
id or the email, a new user with that id and email, provider google and a
verified email is appended. -/
theorem oauth_resolve_first_match (s : Store) (now : Nat) (g : GoogleUser) (p : Profile)
    (e : String) (he : p.emails.head? = some e) :
    (∀ u, FirstMatch s g.id g.email u →
      ∃ s1 u1, findOrCreate s now g = Except.ok (s1, u1) ∧ u1._id = u._id ∧
        u1.email = u.email ∧ s1.users.length = s.users.length) ∧
    ((∀ v ∈ s.users, v.googleId ≠ some g.id ∧ v.email ≠ g.email) →
      ∃ u1, findOrCreate s now g =
          Except.ok ({ users := s.users ++ [u1], nextId := s.nextId + 1 }, u1) ∧
        u1.googleId = some g.id ∧ u1.email = g.email ∧ u1.provider = "google" ∧
        u1.isEmailVerified = true) ∧
    (∀ u, FirstMatch s p.id e u →
      ∃ s1 u1, googleStrategy s now p = (s1, Except.ok u1) ∧ u1._id = u._id ∧
        u1.email = u.email ∧ s1.users.length = s.users.length) ∧
    ((∀ v ∈ s.users, v.googleId ≠ some p.id ∧ v.email ≠ e) →
      ∃ u1, googleStrategy s now p =
          ({ users := s.users ++ [u1], nextId := s.nextId + 1 }, Except.ok u1) ∧
        u1.googleId = some p.id ∧ u1.email = e ∧ u1.provider = "google" ∧
        u1.isEmailVerified = true) := by
  refine ⟨?_, ?_, ?_, ?_⟩
  · intro u hu
    have hfind := find_of_firstMatch s g.id g.email u
      (fun v => v.googleId == some g.id || v.email == g.email) (by intro v; simp) hu
    obtain ⟨s1, u1, h1, h2, h3, h4, _⟩ := findOrCreate_found s now g u hfind
    exact ⟨s1, u1, h1, h2, h3, h4⟩
  · intro hno
    have hfind := find_none_of_noMatch s g.id g.email
      (fun v => v.googleId == some g.id || v.email == g.email) (by intro v; simp) hno
    exact ⟨_, findOrCreate_created s now g hfind, rfl, rfl, rfl, rfl⟩
  · intro u hu
    have hfind := find_of_firstMatch s p.id e u
      (fun v => v.email == e || v.googleId == some p.id)
      (by intro v; simp [or_comm]) hu
    obtain ⟨u1, h1, h2, h3, _⟩ := googleStrategy_found s now p e u he hfind
    exact ⟨_, u1, h1, h2, h3, length_replaceById _ _⟩
  · intro hno
    have hfind := find_none_of_noMatch s p.id e
      (fun v => v.email == e || v.googleId == some p.id)
      (by intro v; simp [or_comm]) hno
    exact ⟨_, googleStrategy_created s now p e he hfind, rfl, rfl, rfl, rfl⟩

theorem oauth_resolve_first_match_witness :
    bobProfile.emails.head? = some "bob@example.com" ∧
    erinProfile.emails.head? = some "erin@example.com" ∧
    FirstMatch danaBobStore "g-1" "bob@example.com" bob ∧
    (∀ v ∈ danaBobStore.users, v.googleId ≠ some "g-8" ∧ v.email ≠ "erin@example.com") ∧
    (∃ s1 u1,
      findOrCreate danaBobStore 0
        { id := "g-1", name := "Bob", email := "bob@example.com", photo := none } =
        Except.ok (s1, u1) ∧
      u1._id = bob._id ∧ u1.email = bob.email ∧
      s1.users.length = danaBobStore.users.length) ∧
    (∃ s1 u1,
      googleStrategy danaBobStore 0 bobProfile = (s1, Except.ok u1) ∧
      u1._id = bob._id ∧ u1.email = bob.email ∧
      s1.users.length = danaBobStore.users.length) ∧
    (∃ u1,
      findOrCreate danaBobStore 0
        { id := "g-8", name := "Erin", email := "erin@example.com", photo := none } =
        Except.ok ({ users := danaBobStore.users ++ [u1],
                     nextId := danaBobStore.nextId + 1 }, u1) ∧
      u1.googleId = some "g-8" ∧ u1.email = "erin@example.com" ∧
      u1.provider = "google" ∧ u1.isEmailVerified = true) ∧
    (∃ u1,
      googleStrategy danaBobStore 0 erinProfile =
        ({ users := danaBobStore.users ++ [u1], nextId := danaBobStore.nextId + 1 },
          Except.ok u1) ∧
      u1.googleId = some "g-8" ∧ u1.email = "erin@example.com" ∧
      u1.provider = "google" ∧ u1.isEmailVerified = true) :=
  have hfm : FirstMatch danaBobStore "g-1" "bob@example.com" bob :=
    ⟨[dana], [], rfl, Or.inl rfl, by decide⟩
  have hno : ∀ v ∈ danaBobStore.users,
      v.googleId ≠ some "g-8" ∧ v.email ≠ "erin@example.com" := by decide
  have h := oauth_resolve_first_match danaBobStore 0
    { id := "g-1", name := "Bob", email := "bob@example.com", photo := none }
    bobProfile "bob@example.com" rfl
  have k := oauth_resolve_first_match danaBobStore 0
    { id := "g-8", name := "Erin", email := "erin@example.com", photo := none }
    erinProfile "erin@example.com" rfl
  ⟨rfl, rfl, hfm, hno, h.1 bob hfm, h.2.2.1 bob hfm, k.2.1 hno, k.2.2.2 hno⟩

/-- C15 (the code at the failing input): Alice is a local account with an
unverified email and nobody holds the external id `g-5`. Linking through
`/google/mobile` and through `/google/web` adds no user and sets her googleId,
but leaves `isEmailVerified` false; the passport strategy on the same sign-in
sets it to true. -/
theorem google_link_leaves_email_unverified :
    alice.provider = "local" ∧ alice.googleId = none ∧ alice.isEmailVerified = false ∧
    (∀ v ∈ demoStore.users, v.googleId ≠ some "g-5") ∧
    (googleMobile demoEnv demoStore 0 aliceMobile).1.users =
      [{ alice with googleId := some "g-5", provider := "google" }, bob] ∧
    (googleMobile demoEnv demoStore 0 aliceMobile).2.status = 200 ∧
    ((googleMobile demoEnv demoStore 0 aliceMobile).1.users.map
      (fun v => (v.email, v.isEmailVerified))) =
      [("alice@example.com", false), ("bob@example.com", true)] ∧
    (googleWeb demoLib demoEnv demoStore 0 (some "good")).1.users =
      [{ alice with googleId := some "g-5", provider := "google" }, bob] ∧
    (googleWeb demoLib demoEnv demoStore 0 (some "good")).2.status = 200 ∧
    (googleStrategy demoStore 0 aliceProfile).1.users =
      [{ alice with googleId := some "g-5", avatar := some "new.png",
                    provider := "google", isEmailVerified := true }, bob] := by
  refine ⟨rfl, rfl, rfl, by decide, by decide, by decide, by decide, by decide,
    by decide, by decide⟩

theorem replaceFirstChars_absent (pat rep : List Char) (hpat : pat ≠ []) :
    ∀ l : List Char, ¬ pat <:+: l → replaceFirstChars pat rep l = l
  | [], _ => by simp [replaceFirstChars, hpat]
  | c :: cs, h => by
    unfold replaceFirstChars
    have hpre : pat.isPrefixOf (c :: cs) = false := by
      cases hp : pat.isPrefixOf (c :: cs)
      · rfl
      · exact absurd (List.isPrefixOf_iff_prefix.mp hp).isInfix h
    have hcs : ¬ pat <:+: cs := fun hin => h (hin.trans (List.suffix_cons c cs).isInfix)
    simp only [hpre, Bool.false_eq_true, if_false]
    rw [replaceFirstChars_absent pat rep hpat cs hcs]

theorem highResAvatar_eq (p : Profile) :
    highResAvatar p = p.photos.head?.map (replaceFirst "s96-c" "s400-c") := by
  unfold highResAvatar
  cases h : p.photos.head? with
  | none => simp [truthy]
  | some url =>
    by_cases hu : url = ""
    · subst hu
      simp only [truthy, bne_self_eq_false, Bool.false_eq_true, if_false, Option.map_some']
      rfl
    · simp [truthy, hu]

theorem findById_replaceById (u : User) :
    ∀ l : List User, (∃ v ∈ l, v._id = u._id) →
      (replaceById u l).find? (fun v => v._id == u._id) = some u
  | [], h => by simp at h
  | w :: ws, h => by
    unfold replaceById
    by_cases hw : w._id = u._id
    · simp [hw]
    · simp only [hw, if_false]
      rw [List.find?_cons_of_neg _ (by simpa using hw)]
      apply findById_replaceById u ws
      obtain ⟨v, hv, hid⟩ := h
      rcases List.mem_cons.mp hv with rfl | hv
      · exact absurd hid hw
      · exact ⟨v, hv, hid⟩

/-- C16 (counterexample): Bob signs in through the passport strategy with the
picture `https://lh3.example/a=s96-c`; the avatar stored afterwards is
`https://lh3.example/a=s400-c`, not the URL the profile carried. Through
`/google/mobile` with the picture `new.png` his stored avatar stays `bob.png`. -/
theorem avatar_refresh_counterexample :
    bobProfile.photos.head? = some "https://lh3.example/a=s96-c" ∧
    (googleStrategy demoStore 0 bobProfile).2.map (fun u => (u._id, u.avatar)) =
      Except.ok (2, some "https://lh3.example/a=s400-c") ∧
    (findById (googleStrategy demoStore 0 bobProfile).1 2).map (fun u => u.avatar) =
      some (some "https://lh3.example/a=s400-c") ∧
    (findById (googleMobile demoEnv demoStore 0
        { idToken := some "id-token",
          user := some { id := "g-1", name := "Bob", email := "bob@example.com",
                         photo := some "new.png" } }).1 2).map (fun u => u.avatar) =
      some (some "bob.png") := by
  refine ⟨rfl, rfl, by decide, by decide⟩

/-- C16 (amended): on every resolve through the passport Google strategy that
matches an existing account, whatever avatar was stored before, the account's
stored avatar afterwards is the first photo URL of the profile with the first
occurrence of `s96-c` replaced by `s400-c` (no avatar when the profile has no
photo); it equals the URL the profile carried when that URL does not contain
`s96-c`. -/
theorem passport_refreshes_avatar (s : Store) (now : Nat) (p : Profile) (e : String)
    (u : User) (he : p.emails.head? = some e) (hu : FirstMatch s p.id e u) :
    ∃ s1 u1, googleStrategy s now p = (s1, Except.ok u1) ∧
      s1.users.length = s.users.length ∧
      u1._id = u._id ∧
      findById s1 u._id = some u1 ∧
      u1.avatar = p.photos.head?.map (replaceFirst "s96-c" "s400-c") ∧
      ∀ url, p.photos.head? = some url → ¬ "s96-c".toList <:+: url.toList →
        u1.avatar = some url := by
  have hfind := find_of_firstMatch s p.id e u
    (fun v => v.email == e || v.googleId == some p.id) (by intro v; simp [or_comm]) hu
  obtain ⟨u1, h1, h2, _, h4, _⟩ := googleStrategy_found s now p e u he hfind
  have hav : u1.avatar = p.photos.head?.map (replaceFirst "s96-c" "s400-c") := by
    rw [h4, highResAvatar_eq]
  refine ⟨save s u1, u1, h1, length_replaceById _ _, h2, ?_, hav, ?_⟩
  · unfold findById save
    rw [← h2]
    apply findById_replaceById
    exact ⟨u, List.mem_of_find?_eq_some hfind, h2.symm⟩
  · intro url hurl hno
    rw [hav, hurl]
    simp only [Option.map_some', replaceFirst]
    rw [replaceFirstChars_absent _ _ (by decide) _ hno]
    rfl

theorem passport_refreshes_avatar_witness :
    aliceProfile.emails.head? = some "alice@example.com" ∧
    FirstMatch demoStore "g-5" "alice@example.com" alice ∧
    ∃ s1 u1, googleStrategy demoStore 0 aliceProfile = (s1, Except.ok u1) ∧
      s1.users.length = demoStore.users.length ∧
      u1._id = alice._id ∧
      findById s1 alice._id = some u1 ∧
      u1.avatar = aliceProfile.photos.head?.map (replaceFirst "s96-c" "s400-c") ∧
      ∀ url, aliceProfile.photos.head? = some url → ¬ "s96-c".toList <:+: url.toList →
        u1.avatar = some url :=
  have hfm : FirstMatch demoStore "g-5" "alice@example.com" alice :=
    ⟨[], [bob], rfl, Or.inr rfl, by decide⟩
  ⟨rfl, hfm, passport_refreshes_avatar demoStore 0 aliceProfile "alice@example.com" alice
    rfl hfm⟩

theorem find_after_findOrCreate (s : Store) (now : Nat) (g : GoogleUser) :
    ∃ s1 u1, findOrCreate s now g = Except.ok (s1, u1) ∧
      findOne s1 (fun v => v.googleId == some g.id || v.email == g.email) = some u1 := by
  cases hfind : findOne s (fun v => v.googleId == some g.id || v.email == g.email) with
  | none =>
    refine ⟨_, _, findOrCreate_created s now g hfind, ?_⟩
    unfold findOne at hfind ⊢
    apply find_append_singleton
    · intro v hv
      rw [List.find?_eq_none] at hfind
      simpa using hfind v hv
    · simp [newUser]
  | some u =>
    obtain ⟨s1, u1, h1, h2, h3, _, _, h6, h7⟩ := findOrCreate_found s now g u hfind
    refine ⟨s1, u1, h1, ?_⟩
    by_cases ht : truthy u.googleId = true
    · simp only [ht, if_true] at h6 h7
      rw [h6, h7]
      exact hfind
    · simp only [ht, Bool.false_eq_true, if_false] at h6 h7
      rw [h6]
      unfold findOne save
      unfold findOne at hfind
      apply find_replaceById _ u u1 h2 _ s.users hfind
      rw [h7]
      simp

theorem find_after_googleStrategy (s : Store) (now : Nat) (p : Profile) (e : String)
    (he : p.emails.head? = some e) :
    ∃ s1 u1, googleStrategy s now p = (s1, Except.ok u1) ∧
      findOne s1 (fun v => v.email == e || v.googleId == some p.id) = some u1 := by
  cases hfind : findOne s (fun v => v.email == e || v.googleId == some p.id) with
  | none =>
    refine ⟨_, _, googleStrategy_created s now p e he hfind, ?_⟩
    unfold findOne at hfind ⊢
    apply find_append_singleton
    · intro v hv
      rw [List.find?_eq_none] at hfind
      simpa using hfind v hv
    · simp [newUser]
  | some u =>
    obtain ⟨u1, h1, h2, h3, _, _, _, h7⟩ := googleStrategy_found s now p e u he hfind
    refine ⟨_, u1, h1, ?_⟩
    unfold findOne save
    unfold findOne at hfind
    apply find_replaceById _ u u1 h2 _ s.users hfind
    have hq := List.find?_some hfind
    simp only [Bool.or_eq_true, beq_iff_eq] at hq ⊢
    rcases hq with hq | hq
    · exact Or.inl (h3.trans hq)
    · right
      rw [h7]
      split
      · exact hq
      · rfl

theorem replaceById_append (u v : User) (pre post : List User)
    (hpre : ∀ a ∈ pre, a._id ≠ u._id) (hv : v._id = u._id) :
    replaceById u (pre ++ v :: post) = pre ++ u :: post := by
  induction pre with
  | nil => simp [replaceById, hv]
  | cons a as ih =>
    have ha : a._id ≠ u._id := hpre a (List.mem_cons_self a as)
    have := ih (fun b hb => hpre b (List.mem_cons_of_mem a hb))
    simp [replaceById, ha, this]

theorem replaceById_idem (u : User) :
    ∀ l : List User, replaceById u (replaceById u l) = replaceById u l
  | [] => rfl
  | v :: vs => by
    by_cases h : v._id = u._id
    · simp [replaceById, h]
    · simp [replaceById, h, replaceById_idem u vs]

theorem replaceById_self (u : User) :
    ∀ l : List User, u ∈ l → l.Pairwise (fun a b => a._id ≠ b._id) → replaceById u l = l
  | [], h, _ => by simp at h
  | v :: vs, h, hp => by
    rw [List.pairwise_cons] at hp
    unfold replaceById
    by_cases hv : v._id = u._id
    · rcases List.mem_cons.mp h with rfl | hmem
      · simp
      · exact absurd hv (hp.1 u hmem)
    · rcases List.mem_cons.mp h with rfl | hmem
      · exact absurd rfl hv
      · simp [hv, replaceById_self u vs hmem hp.2]

theorem findOrCreate_first (s : Store) (now : Nat) (g : GoogleUser) :
    ∃ s1 u1, findOrCreate s now g = Except.ok (s1, u1) ∧
      findOne s1 (fun v => v.googleId == some g.id || v.email == g.email) = some u1 ∧
      (truthy u1.googleId = true ∨ (u1.googleId = some g.id ∧ u1.provider = "google")) ∧
      (WF s → replaceById u1 s1.users = s1.users) := by
  cases hfind : findOne s (fun v => v.googleId == some g.id || v.email == g.email) with
  | none =>
    refine ⟨_, _, findOrCreate_created s now g hfind, ?_, Or.inr ⟨rfl, rfl⟩, ?_⟩
    · unfold findOne at hfind ⊢
      apply find_append_singleton
      · intro v hv
        rw [List.find?_eq_none] at hfind
        simpa using hfind v hv
      · simp [newUser]
    · intro hwf
      apply replaceById_append _ _ s.users [] _ rfl
      intro a ha
      have := hwf.2 a ha
      simp only [newUser]
      omega
  | some u =>
    obtain ⟨s1, u1, h1, h2, _, _, _, h6, h7⟩ := findOrCreate_found s now g u hfind
    by_cases ht : truthy u.googleId = true
    · simp only [ht, if_true] at h6 h7
      subst h6 h7
      refine ⟨_, _, h1, hfind, Or.inl ht, ?_⟩
      intro hwf
      exact replaceById_self _ _ (List.mem_of_find?_eq_some hfind) hwf.1
    · simp only [ht, Bool.false_eq_true, if_false] at h6 h7
      refine ⟨s1, u1, h1, ?_, Or.inr ?_, ?_⟩
      · rw [h6]
        unfold findOne save
        unfold findOne at hfind
        apply find_replaceById _ u u1 h2 _ s.users hfind
        rw [h7]
        simp
      · rw [h7]
        exact ⟨rfl, rfl⟩
      · intro _
        rw [h6]
        exact replaceById_idem u1 s.users

/-- C17: OAuth resolve is an idempotent find-or-create. For every store and
external identity (id and email), at the find-or-create of `/google/mobile`
and `/google/web` and at the passport strategy (profile with an email), the
first resolve returns a user that is stored afterwards and is the one the
lookup of the identity finds; a second resolve of the same identity (whatever
name and picture it carries then) returns a stored user with the same `_id`
and email, and the number of stored users after the second call equals the
number after the first. The find-or-create of the two handlers returns the
very same user record the second time and, in a store whose `_id` is a primary
key, leaves the store as the first call left it; the passport strategy sets
the avatar of the second profile on that user. -/
theorem oauth_resolve_idempotent (s : Store) (t1 t2 : Nat) (g1 g2 : GoogleUser)
    (p1 p2 : Profile) (e : String)
    (hg : g2.id = g1.id) (hge : g2.email = g1.email)
    (hp : p2.id = p1.id) (he1 : p1.emails.head? = some e)
    (he2 : p2.emails.head? = some e) :
    (∃ s1 u1 s2 u2,
      findOrCreate s t1 g1 = Except.ok (s1, u1) ∧
      findOrCreate s1 t2 g2 = Except.ok (s2, u2) ∧
      u2._id = u1._id ∧ s2.users.length = s1.users.length ∧
      u1 ∈ s1.users ∧ (u1.googleId = some g1.id ∨ u1.email = g1.email) ∧
      findOne s1 (fun v => v.googleId == some g1.id || v.email == g1.email) = some u1 ∧
      u2 = u1 ∧ u2 ∈ s2.users ∧ s2.nextId = s1.nextId ∧
      (WF s → s2 = s1)) ∧
    (∃ s1 u1 s2 u2,
      googleStrategy s t1 p1 = (s1, Except.ok u1) ∧
      googleStrategy s1 t2 p2 = (s2, Except.ok u2) ∧
      u2._id = u1._id ∧ s2.users.length = s1.users.length ∧
      u1 ∈ s1.users ∧ (u1.email = e ∨ u1.googleId = some p1.id) ∧
      findOne s1 (fun v => v.email == e || v.googleId == some p1.id) = some u1 ∧
      u2.email = u1.email ∧ u2.avatar = highResAvatar p2 ∧ u2 ∈ s2.users ∧
      s2.nextId = s1.nextId) := by
  constructor
  · obtain ⟨s1, u1, h1, hfind, hlinked, hfix⟩ := findOrCreate_first s t1 g1
    have hmem : u1 ∈ s1.users := List.mem_of_find?_eq_some hfind
    have hq : u1.googleId = some g1.id ∨ u1.email = g1.email := by
      have := List.find?_some hfind
      simpa using this
    have hfind2 := hfind
    rw [← hg, ← hge] at hfind2
    obtain ⟨s2, u2, k1, k2, _, k4, k5, k6, k7⟩ := findOrCreate_found s1 t2 g2 u1 hfind2
    have hsame : u2 = u1 := by
      rw [k7]
      by_cases ht : truthy u1.googleId = true
      · simp [ht]
      · rcases hlinked with hl | ⟨hl1, hl2⟩
        · exact absurd hl ht
        · simp only [ht, Bool.false_eq_true, if_false, hg]
          cases u1
          simp only at hl1 hl2
          simp [hl1, hl2]
    have hs2 : WF s → s2 = s1 := by
      intro hwf
      rw [k6]
      by_cases ht : truthy u1.googleId = true
      · simp [ht]
      · simp only [ht, Bool.false_eq_true, if_false, hsame]
        unfold save
        rw [hfix hwf]
    have hmem2 : u2 ∈ s2.users := by
      rw [k6]
      by_cases ht : truthy u1.googleId = true
      · simp only [ht, if_true, hsame]
        exact hmem
      · simp only [ht, Bool.false_eq_true, if_false]
        unfold save
        exact List.mem_of_find?_eq_some
          (findById_replaceById u2 s1.users ⟨u1, hmem, k2.symm⟩)
    exact ⟨s1, u1, s2, u2, h1, k1, k2, k4, hmem, hq, hfind, hsame, hmem2, k5, hs2⟩
  · obtain ⟨s1, u1, h1, hfind⟩ := find_after_googleStrategy s t1 p1 e he1
    have hmem : u1 ∈ s1.users := List.mem_of_find?_eq_some hfind
    have hq : u1.email = e ∨ u1.googleId = some p1.id := by
      have := List.find?_some hfind
      simpa using this
    have hfind2 := hfind
    rw [← hp] at hfind2
    obtain ⟨u2, k1, k2, k3, k4, _⟩ := googleStrategy_found s1 t2 p2 e u1 he2 hfind2
    refine ⟨s1, u1, _, u2, h1, k1, k2, length_replaceById _ _, hmem, hq, hfind, k3, k4,
      ?_, rfl⟩
    exact List.mem_of_find?_eq_some
      (findById_replaceById u2 s1.users ⟨u1, hmem, k2.symm⟩)

theorem oauth_resolve_idempotent_witness :
    aliceProfile.emails.head? = some "alice@example.com" ∧
    WF demoStore ∧
    (∃ s1 u1 s2 u2,
      findOrCreate demoStore 0
        { id := "g-8", name := "Erin", email := "erin@example.com", photo := none } =
        Except.ok (s1, u1) ∧
      findOrCreate s1 9
        { id := "g-8", name := "Erin", email := "erin@example.com",
          photo := some "erin.png" } = Except.ok (s2, u2) ∧
      u2._id = u1._id ∧ s2.users.length = s1.users.length ∧
      u1 ∈ s1.users ∧ (u1.googleId = some "g-8" ∨ u1.email = "erin@example.com") ∧
      u2 = u1 ∧ u2 ∈ s2.users ∧ s2 = s1) ∧
    (∃ s1 u1 s2 u2,
      googleStrategy demoStore 0 aliceProfile = (s1, Except.ok u1) ∧
      googleStrategy s1 9 { aliceProfile with photos := ["newer.png"] } =
        (s2, Except.ok u2) ∧
      u2._id = u1._id ∧ s2.users.length = s1.users.length ∧
      u1 ∈ s1.users ∧ u2 ∈ s2.users ∧ u2.avatar = some "newer.png") :=
  have hwf : WF demoStore := by
    unfold WF
    decide
  have h := oauth_resolve_idempotent demoStore 0 9
    { id := "g-8", name := "Erin", email := "erin@example.com", photo := none }
    { id := "g-8", name := "Erin", email := "erin@example.com", photo := some "erin.png" }
    aliceProfile { aliceProfile with photos := ["newer.png"] } "alice@example.com"
    rfl rfl rfl rfl rfl
  ⟨rfl, hwf,
    h.1.imp (fun _ h1 => h1.imp (fun _ h2 => h2.imp (fun _ h3 => h3.imp (fun _ h4 =>
      ⟨h4.1, h4.2.1, h4.2.2.1, h4.2.2.2.1, h4.2.2.2.2.1, h4.2.2.2.2.2.1,
        h4.2.2.2.2.2.2.2.1, h4.2.2.2.2.2.2.2.2.1, h4.2.2.2.2.2.2.2.2.2.2 hwf⟩)))),
    h.2.imp (fun _ h1 => h1.imp (fun _ h2 => h2.imp (fun _ h3 => h3.imp (fun _ h4 =>
      ⟨h4.1, h4.2.1, h4.2.2.1, h4.2.2.2.1, h4.2.2.2.2.1, h4.2.2.2.2.2.2.2.2.2.1,
        h4.2.2.2.2.2.2.2.2.1.trans (by decide)⟩))))⟩

theorem pairwise_swap_middle {β : Type} (f : User → β) (u v : User) (pre post : List User)
    (h : (pre ++ u :: post).Pairwise (fun a b => f a ≠ f b))
    (hv : ∀ a ∈ pre ++ post, f a ≠ f v) :
    (pre ++ v :: post).Pairwise (fun a b => f a ≠ f b) := by
  rw [List.pairwise_append, List.pairwise_cons] at h ⊢
  obtain ⟨h1, ⟨_, h3⟩, h4⟩ := h
  refine ⟨h1, ⟨?_, h3⟩, ?_⟩
  · intro b hb
    exact fun hvb => hv b (List.mem_append_right pre hb) hvb.symm
  · intro a ha b hb
    rcases List.mem_cons.mp hb with rfl | hb
    · exact hv a (List.mem_append_left post ha)
    · exact h4 a ha b (List.mem_cons_of_mem u hb)

theorem inv_append (s : Store) (u : User) (hem : EmailUnique s) (hwf : WF s)
    (hfresh : ∀ v ∈ s.users, v.email ≠ u.email) (hid : u._id = s.nextId) :
    EmailUnique { users := s.users ++ [u], nextId := s.nextId + 1 } ∧
    WF { users := s.users ++ [u], nextId := s.nextId + 1 } := by
  unfold EmailUnique WF at *
  obtain ⟨hids, hlt⟩ := hwf
  refine ⟨?_, ?_, ?_⟩
  · rw [List.pairwise_append]
    refine ⟨hem, List.pairwise_singleton _ _, ?_⟩
    intro a ha b hb
    rw [List.mem_singleton.mp hb]
    exact hfresh a ha
  · rw [List.pairwise_append]
    refine ⟨hids, List.pairwise_singleton _ _, ?_⟩
    intro a ha b hb
    rw [List.mem_singleton.mp hb, hid]
    exact Nat.ne_of_lt (hlt a ha)
  · intro v hv
    rcases List.mem_append.mp hv with hv | hv
    · exact Nat.lt_succ_of_lt (hlt v hv)
    · rw [List.mem_singleton.mp hv, hid]
      exact Nat.lt_succ_self _

theorem inv_insert (s s1 : Store) (mk : Nat → User) (u : User)
    (hem : EmailUnique s) (hwf : WF s) (hmk : (mk s.nextId)._id = s.nextId)
    (h : insert s mk = Except.ok (s1, u)) : EmailUnique s1 ∧ WF s1 := by
  unfold insert at h
  by_cases hany : s.users.any (fun v => v.email == (mk s.nextId).email) = true
  · simp [hany] at h
  · simp only [hany, Bool.false_eq_true, if_false, Except.ok.injEq, Prod.mk.injEq] at h
    rw [← h.1]
    apply inv_append s (mk s.nextId) hem hwf _ hmk
    intro v hv hve
    apply hany
    rw [List.any_eq_true]
    exact ⟨v, hv, by simp [hve]⟩

theorem inv_save (s : Store) (u v : User) (hem : EmailUnique s) (hwf : WF s)
    (hu : u ∈ s.users) (hid : v._id = u._id) (hmail : v.email = u.email) :
    EmailUnique (save s v) ∧ WF (save s v) := by
  obtain ⟨pre, post, hs⟩ := List.append_of_mem hu
  unfold EmailUnique WF at *
  obtain ⟨hids, hlt⟩ := hwf
  rw [hs] at hem hids
  have hpre : ∀ a ∈ pre, a._id ≠ v._id := by
    intro a ha
    rw [hid]
    exact (List.pairwise_append.mp hids).2.2 a ha u (List.mem_cons_self u post)
  have hsave : (save s v).users = pre ++ v :: post := by
    show replaceById v s.users = _
    rw [hs]
    exact replaceById_append v u pre post hpre hid.symm
  have hothers : ∀ {β : Type} (f : User → β), f v = f u →
      (pre ++ u :: post).Pairwise (fun a b => f a ≠ f b) → ∀ a ∈ pre ++ post, f a ≠ f v := by
    intro β f hf hp a ha
    rw [hf]
    rw [List.pairwise_append, List.pairwise_cons] at hp
    rcases List.mem_append.mp ha with ha | ha
    · exact hp.2.2 a ha u (List.mem_cons_self u post)
    · exact fun h => hp.2.1.1 a ha h.symm
  rw [hsave]
  refine ⟨pairwise_swap_middle _ u v pre post hem (hothers _ hmail hem),
    pairwise_swap_middle _ u v pre post hids (hothers _ hid hids), ?_⟩
  intro a ha
  show a._id < s.nextId
  rcases List.mem_append.mp ha with ha | ha
  · exact hlt a (by rw [hs]; exact List.mem_append_left _ ha)
  · rcases List.mem_cons.mp ha with rfl | ha
    · rw [hid]; exact hlt u hu
    · exact hlt a (by rw [hs]; exact List.mem_append_right _ (List.mem_cons_of_mem u ha))

theorem inv_findByIdAndUpdate (s s1 : Store) (id : Nat) (name email : Option String)
    (r : Option User) (hem : EmailUnique s) (hwf : WF s)
    (h : findByIdAndUpdate s id name email = Except.ok (s1, r)) :
    EmailUnique s1 ∧ WF s1 := by
  unfold findByIdAndUpdate at h
  cases hfind : findById s id with
  | none =>
    simp only [hfind, Except.ok.injEq, Prod.mk.injEq] at h
    rw [← h.1]
    exact ⟨hem, hwf⟩
  | some u =>
    simp only [hfind] at h
    obtain ⟨u1, hu1⟩ : ∃ u1 : User,
        u1 = { u with name := name.getD u.name, email := email.getD u.email } := ⟨_, rfl⟩
    have hid : u1._id = u._id := by rw [hu1]
    have hmail : u1.email = email.getD u.email := by rw [hu1]
    by_cases hany : ((s.users.eraseP (fun v => v._id == id)).any
        (fun v => v.email == email.getD u.email)) = true
    · simp [hany] at h
    · simp only [hany, Bool.false_eq_true, if_false, Except.ok.injEq, Prod.mk.injEq] at h
      rw [← hmail] at hany
      rw [← h.1, ← hu1]
      unfold findById at hfind
      obtain ⟨hpu, pre, post, hs, hpre⟩ := List.find?_eq_some.mp hfind
      have huid : u._id = id := by simpa using hpu
      have hpre2 : ∀ a ∈ pre, a._id ≠ u1._id := by
        intro a ha
        rw [hid, huid]
        simpa using hpre a ha
      have herase : s.users.eraseP (fun v => v._id == id) = pre ++ post := by
        have hcons : List.eraseP (fun v => v._id == id) (u :: post) = post := by
          simp [List.eraseP_cons, huid]
        rw [hs, List.eraseP_append_right _ (by intro b hb; simpa using hpre b hb), hcons]
      have hfresh : ∀ a ∈ pre ++ post, a.email ≠ u1.email := by
        intro a ha hae
        apply hany
        rw [List.any_eq_true]
        exact ⟨a, by rw [herase]; exact ha, by simp [hae]⟩
      have hsave : (save s u1).users = pre ++ u1 :: post := by
        show replaceById u1 s.users = _
        rw [hs]
        exact replaceById_append u1 u pre post hpre2 hid.symm
      unfold EmailUnique WF at *
      obtain ⟨hids, hlt⟩ := hwf
      rw [hsave]
      rw [hs] at hem hids
      refine ⟨pairwise_swap_middle _ u u1 pre post hem hfresh,
        pairwise_swap_middle _ u u1 pre post hids ?_, ?_⟩
      · intro a ha
        rw [hid]
        rw [List.pairwise_append, List.pairwise_cons] at hids
        rcases List.mem_append.mp ha with ha | ha
        · exact hids.2.2 a ha u (List.mem_cons_self u post)
        · exact fun h => hids.2.1.1 a ha h.symm
      · intro a ha
        show a._id < s.nextId
        rcases List.mem_append.mp ha with ha | ha
        · exact hlt a (by rw [hs]; exact List.mem_append_left _ ha)
        · rcases List.mem_cons.mp ha with rfl | ha
          · rw [hid]
            exact hlt u (by rw [hs]; exact List.mem_append_right _ (List.mem_cons_self u post))
          · exact hlt a (by rw [hs]; exact List.mem_append_right _ (List.mem_cons_of_mem u ha))

theorem inv_register (lib : Lib) (env : Env) (s : Store) (now : Nat) (salt : String)
    (welcome : Except String MailResult) (body : RegisterBody)
    (hem : EmailUnique s) (hwf : WF s) :
    EmailUnique (register lib env s now salt welcome body).1 ∧
    WF (register lib env s now salt welcome body).1 := by
  unfold register
  simp only
  split
  · exact ⟨hem, hwf⟩
  · split
    · exact ⟨hem, hwf⟩
    · split
      · exact ⟨hem, hwf⟩
      · rename_i s1 user hins
        split <;> exact inv_insert s s1 _ user hem hwf rfl hins

theorem inv_updateDetails (lib : Lib) (s : Store) (reqUserId : Nat) (body : DetailsBody)
    (hem : EmailUnique s) (hwf : WF s) :
    EmailUnique (updateDetails lib s reqUserId body).1 ∧
    WF (updateDetails lib s reqUserId body).1 := by
  unfold updateDetails
  simp only
  split
  · exact ⟨hem, hwf⟩
  · split
    · exact ⟨hem, hwf⟩
    · exact ⟨hem, hwf⟩
    · rename_i s1 user hupd
      exact inv_findByIdAndUpdate s s1 _ _ _ _ hem hwf hupd

theorem inv_findOrCreate (s s1 : Store) (now : Nat) (g : GoogleUser) (u1 : User)
    (hem : EmailUnique s) (hwf : WF s)
    (h : findOrCreate s now g = Except.ok (s1, u1)) : EmailUnique s1 ∧ WF s1 := by
  cases hfind : findOne s (fun v => v.googleId == some g.id || v.email == g.email) with
  | none =>
    unfold findOrCreate at h
    simp only [hfind] at h
    exact inv_insert s s1 _ u1 hem hwf rfl h
  | some u =>
    obtain ⟨s2, u2, k1, k2, k3, _, _, k6, _⟩ := findOrCreate_found s now g u hfind
    rw [k1] at h
    simp only [Except.ok.injEq, Prod.mk.injEq] at h
    rw [← h.1, k6]
    split
    · exact ⟨hem, hwf⟩
    · exact inv_save s u u2 hem hwf (List.mem_of_find?_eq_some hfind) k2 k3

theorem inv_googleStrategy (s : Store) (now : Nat) (p : Profile)
    (hem : EmailUnique s) (hwf : WF s) :
    EmailUnique (googleStrategy s now p).1 ∧ WF (googleStrategy s now p).1 := by
  cases he : p.emails.head? with
  | none =>
    unfold googleStrategy
    simp only [he]
    exact ⟨hem, hwf⟩
  | some e =>
    cases hfind : findOne s (fun v => v.email == e || v.googleId == some p.id) with
    | none =>
      rw [googleStrategy_created s now p e he hfind]
      apply inv_append s _ hem hwf _ rfl
      intro v hv
      unfold findOne at hfind
      rw [List.find?_eq_none] at hfind
      have := hfind v hv
      simp only [Bool.or_eq_true, beq_iff_eq, not_or] at this
      exact this.1
    | some u =>
      obtain ⟨u1, k1, k2, k3, _⟩ := googleStrategy_found s now p e u he hfind
      rw [k1]
      exact inv_save s u u1 hem hwf (List.mem_of_find?_eq_some hfind) k2 k3

theorem inv_googleMobile (env : Env) (s : Store) (now : Nat) (body : MobileBody)
    (hem : EmailUnique s) (hwf : WF s) :
    EmailUnique (googleMobile env s now body).1 ∧ WF (googleMobile env s now body).1 := by
  unfold googleMobile
  split
  · exact ⟨hem, hwf⟩
  · split
    · exact ⟨hem, hwf⟩
    · split
      · exact ⟨hem, hwf⟩
      · rename_i s1 u1 h
        exact inv_findOrCreate s s1 now _ u1 hem hwf h

theorem inv_googleWeb (lib : Lib) (env : Env) (s : Store) (now : Nat)
    (idToken : Option String) (hem : EmailUnique s) (hwf : WF s) :
    EmailUnique (googleWeb lib env s now idToken).1 ∧
    WF (googleWeb lib env s now idToken).1 := by
  unfold googleWeb
  split
  · exact ⟨hem, hwf⟩
  · split
    · exact ⟨hem, hwf⟩
    · simp only
      split
      · exact ⟨hem, hwf⟩
      · rename_i s1 u1 h
        exact inv_findOrCreate s s1 now _ u1 hem hwf h

/-- C18: email uniqueness is an invariant of the user store. Starting from a
store in which no two users share an email (and in which `_id` is a primary
key), register, update-details, the passport Google strategy, `/google/mobile`
and `/google/web` each end, for every request, in a store in which no two users
share an email (and `_id` is still a primary key). -/
theorem email_uniqueness_invariant (lib : Lib) (env : Env) (s : Store) (now : Nat)
    (salt : String) (welcome : Except String MailResult) (registerBody : RegisterBody)
    (reqUserId : Nat) (detailsBody : DetailsBody) (profile : Profile)
    (mobileBody : MobileBody) (idToken : Option String)
    (hem : EmailUnique s) (hwf : WF s) :
    (EmailUnique (register lib env s now salt welcome registerBody).1 ∧
      WF (register lib env s now salt welcome registerBody).1) ∧
    (EmailUnique (updateDetails lib s reqUserId detailsBody).1 ∧
      WF (updateDetails lib s reqUserId detailsBody).1) ∧
    (EmailUnique (googleStrategy s now profile).1 ∧ WF (googleStrategy s now profile).1) ∧
    (EmailUnique (googleMobile env s now mobileBody).1 ∧
      WF (googleMobile env s now mobileBody).1) ∧
    (EmailUnique (googleWeb lib env s now idToken).1 ∧
      WF (googleWeb lib env s now idToken).1) :=
  ⟨inv_register lib env s now salt welcome registerBody hem hwf,
   inv_updateDetails lib s reqUserId detailsBody hem hwf,
   inv_googleStrategy s now profile hem hwf,
   inv_googleMobile env s now mobileBody hem hwf,
   inv_googleWeb lib env s now idToken hem hwf⟩

theorem email_uniqueness_invariant_witness :
    EmailUnique demoStore ∧ WF demoStore ∧
    (updateDetails demoLib demoStore 1
        { name := none, email := some "bob@example.com" }).2 =
      Result.next "E11000 duplicate key error" ∧
    (updateDetails demoLib demoStore 1
        { name := none, email := some "al@example.com" }).1.users.map (fun u => u.email) =
      ["al@example.com", "bob@example.com"] ∧
    (EmailUnique (register demoLib demoEnv demoStore 0 "salt" (Except.error "smtp")
        carolBody).1 ∧
      WF (register demoLib demoEnv demoStore 0 "salt" (Except.error "smtp") carolBody).1) ∧
    (EmailUnique (updateDetails demoLib demoStore 1
        { name := none, email := some "al@example.com" }).1 ∧
      WF (updateDetails demoLib demoStore 1
        { name := none, email := some "al@example.com" }).1) ∧
    (EmailUnique (googleStrategy demoStore 0 erinProfile).1 ∧
      WF (googleStrategy demoStore 0 erinProfile).1) ∧
    (EmailUnique (googleMobile demoEnv demoStore 0 aliceMobile).1 ∧
      WF (googleMobile demoEnv demoStore 0 aliceMobile).1) ∧
    (EmailUnique (googleWeb demoLib demoEnv demoStore 0 (some "good")).1 ∧
      WF (googleWeb demoLib demoEnv demoStore 0 (some "good")).1) :=
  have hem : EmailUnique demoStore := by unfold EmailUnique; decide
  have hwf : WF demoStore := by unfold WF; decide
  ⟨hem, hwf, by decide, by decide,
    email_uniqueness_invariant demoLib demoEnv demoStore 0 "salt" (Except.error "smtp")
      carolBody 1 { name := none, email := some "al@example.com" } erinProfile aliceMobile
      (some "good") hem hwf⟩

/-- C19 (counterexample): with `NODE_ENV` set to `development` the cookie of
`sendTokenResponse` and the cookie of the Google callback are not secure. -/
theorem cookie_secure_counterexample :
    demoEnv.NODE_ENV = "development" ∧
    (sendTokenResponse demoEnv 0 alice 200).cookie.map (fun c => c.options.secure) =
      some false ∧
    (googleCallback demoEnv 0 bob none).cookie.options.secure = false := by
  refine ⟨rfl, by decide, by decide⟩

/-- C19 (amended): every response that issues a session token to a browser
(`sendTokenResponse` and the Google callback) sets the cookie `token`, holding
the issued token, HTTP-only and same-site strict for every configuration of
the environment, and secure exactly when `NODE_ENV` is `production`. -/
theorem token_cookie_attributes (env : Env) (now : Nat) (user : User) (statusCode : Nat)
    (redirectUri : Option String) :
    (∃ c, (sendTokenResponse env now user statusCode).cookie = some c ∧
      c.name = "token" ∧ c.value = generateToken env now user._id ∧
      c.options.httpOnly = true ∧ c.options.sameSite = "strict" ∧
      (c.options.secure = true ↔ env.NODE_ENV = "production")) ∧
    ((googleCallback env now user redirectUri).cookie.name = "token" ∧
      (googleCallback env now user redirectUri).cookie.value =
        generateToken env now user._id ∧
      (googleCallback env now user redirectUri).cookie.options.httpOnly = true ∧
      (googleCallback env now user redirectUri).cookie.options.sameSite = "strict" ∧
      ((googleCallback env now user redirectUri).cookie.options.secure = true ↔
        env.NODE_ENV = "production")) := by
  constructor
  · exact ⟨_, rfl, rfl, rfl, rfl, rfl, by simp [cookieOptions]⟩
  · unfold googleCallback
    split <;> simp

/-- C20: the password hash is never serialized outward. The `user` object of
`sendTokenResponse`, `/me`, `/updatedetails`, the Google callback redirect,
`/google/mobile` and `/google/web` is built from a fixed list of fields that
contains none of `password`, `resetPasswordToken`, `resetPasswordExpire`, and
each of these responses is the same whatever the record stores in those three
fields. -/
theorem responses_omit_credentials (env : Env) (now statusCode : Nat) (u : User)
    (redirectUri : Option String) (password token : Option String) (expire : Option Nat) :
    (tokenResponseUser u).map Prod.fst =
      ["id", "name", "email", "avatar", "dateOfBirth", "preferences", "isEmailVerified",
       "provider"] ∧
    (meUser u).map Prod.fst =
      ["id", "name", "email", "avatar", "dateOfBirth", "preferences", "isEmailVerified",
       "provider", "createdAt"] ∧
    (detailsUser u).map Prod.fst =
      ["id", "name", "email", "avatar", "preferences", "isEmailVerified", "provider"] ∧
    (callbackUser u).map Prod.fst =
      ["id", "name", "email", "avatar", "dateOfBirth", "preferences", "isEmailVerified",
       "provider"] ∧
    (googleUserView u).map Prod.fst =
      ["id", "googleId", "name", "email", "avatar", "dateOfBirth", "preferences",
       "isEmailVerified", "provider", "createdAt"] ∧
    (∀ view ∈ [tokenResponseUser u, meUser u, detailsUser u, callbackUser u,
        googleUserView u],
      ∀ k ∈ ["password", "resetPasswordToken", "resetPasswordExpire"],
        k ∉ view.map Prod.fst) ∧
    (sendTokenResponse env now u statusCode).user = some (tokenResponseUser u) ∧
    (googleCallback env now u redirectUri).user = callbackUser u ∧
    (googleResponse env now u).user = some (googleUserView u) ∧
    sendTokenResponse env now
        { u with password := password, resetPasswordToken := token,
                 resetPasswordExpire := expire } statusCode =
      sendTokenResponse env now u statusCode ∧
    userResponse (meUser
        { u with password := password, resetPasswordToken := token,
                 resetPasswordExpire := expire }) = userResponse (meUser u) ∧
    userResponse (detailsUser
        { u with password := password, resetPasswordToken := token,
                 resetPasswordExpire := expire }) = userResponse (detailsUser u) ∧
    googleCallback env now
        { u with password := password, resetPasswordToken := token,
                 resetPasswordExpire := expire } redirectUri =
      googleCallback env now u redirectUri ∧
    googleResponse env now
        { u with password := password, resetPasswordToken := token,
                 resetPasswordExpire := expire } =
      googleResponse env now u := by
  refine ⟨rfl, rfl, rfl, rfl, rfl, ?_, rfl, ?_, rfl, rfl, rfl, rfl, rfl, rfl⟩
  · intro view hview k hk
    simp only [List.mem_cons, List.mem_singleton, List.not_mem_nil, or_false] at hview hk
    rcases hview with rfl | rfl | rfl | rfl | rfl <;> rcases hk with rfl | rfl | rfl <;>
      simp [tokenResponseUser, meUser, detailsUser, callbackUser, googleUserView]
  · unfold googleCallback
    split <;> rfl

/-- C1: for every store and every validated login request, login with an
email that no user has and login with an existing email whose password does
not match produce the same response, 401 'Invalid credentials', which carries
no token and no cookie, and leave the store as it was. -/
theorem login_failures_uniform (lib : Lib) (env : Env) (s : Store) (now : Nat)
    (b1 b2 : LoginBody) (u : User)
    (hv1 : loginErrors lib b1 = []) (hv2 : loginErrors lib b2 = [])
    (hunknown : ∀ v ∈ s.users, v.email ≠ lib.normalizeEmail b1.email)
    (hknown : findOne s (fun v => v.email == lib.normalizeEmail b2.email) = some u)
    (hwrong : matchPassword lib u b2.password = false) :
    login lib env s now b1 = (s, Result.sent (fail 401 "Invalid credentials")) ∧
    login lib env s now b2 = (s, Result.sent (fail 401 "Invalid credentials")) ∧
    (fail 401 "Invalid credentials").status = 401 ∧
    (fail 401 "Invalid credentials").message = some "Invalid credentials" ∧
    (fail 401 "Invalid credentials").token = none ∧
    (fail 401 "Invalid credentials").cookie = none := by
  have hnone : findOne s (fun v => v.email == lib.normalizeEmail b1.email) = none := by
    unfold findOne
    apply find_none_of_forall
    intro v hv
    simpa using hunknown v hv
  refine ⟨?_, ?_, rfl, rfl, rfl, rfl⟩
  · unfold login
    simp only [hv1, hnone, ne_eq, not_true_eq_false, if_false]
  · unfold login
    simp only [hv2, hknown, hwrong, ne_eq, not_true_eq_false, if_false, Bool.not_false,
      if_true]

theorem login_failures_uniform_witness :
    loginErrors demoLib { email := "nobody@example.com", password := "Passw0rd" } = [] ∧
    loginErrors demoLib { email := "alice@example.com", password := "Wrong0ne" } = [] ∧
    (∀ v ∈ demoStore.users, v.email ≠ demoLib.normalizeEmail "nobody@example.com") ∧
    findOne demoStore (fun v => v.email == demoLib.normalizeEmail "alice@example.com") =
      some alice ∧
    matchPassword demoLib alice "Wrong0ne" = false ∧
    login demoLib demoEnv demoStore 0
        { email := "nobody@example.com", password := "Passw0rd" } =
      (demoStore, Result.sent (fail 401 "Invalid credentials")) ∧
    login demoLib demoEnv demoStore 0
        { email := "alice@example.com", password := "Wrong0ne" } =
      (demoStore, Result.sent (fail 401 "Invalid credentials")) ∧
    (fail 401 "Invalid credentials").status = 401 ∧
    (fail 401 "Invalid credentials").message = some "Invalid credentials" ∧
    (fail 401 "Invalid credentials").token = none ∧
    (fail 401 "Invalid credentials").cookie = none :=
  ⟨by decide, by decide, by decide, by decide, by decide,
    login_failures_uniform demoLib demoEnv demoStore 0
      { email := "nobody@example.com", password := "Passw0rd" }
      { email := "alice@example.com", password := "Wrong0ne" } alice
      (by decide) (by decide) (by decide) (by decide) (by decide)⟩

/-- C2 (the code at the failing input): the provider rejects the ID token
`forged`. `/google/web` answers 500 and leaves the store as it was, but
`/google/mobile` never verifies the token: with Bob's id and email in the body
it answers 200 with a session token for Bob, and with an identity that is not
stored it creates a user. -/
theorem google_mobile_accepts_unverified_token :
    demoLib.verifyIdToken "forged" = Except.error "Wrong number of segments in token" ∧
    googleWeb demoLib demoEnv demoStore 0 (some "forged") =
      (demoStore, fail 500 "Server error during Google authentication") ∧
    (googleMobile demoEnv demoStore 0
        { idToken := some "forged",
          user := some { id := "g-1", name := "Bob", email := "bob@example.com",
                         photo := none } }).2.status = 200 ∧
    (googleMobile demoEnv demoStore 0
        { idToken := some "forged",
          user := some { id := "g-1", name := "Bob", email := "bob@example.com",
                         photo := none } }).2.token = some (generateToken demoEnv 0 bob._id) ∧
    (googleMobile demoEnv demoStore 0
        { idToken := some "forged",
          user := some { id := "g-8", name := "Erin", email := "erin@example.com",
                         photo := none } }).1.users.map (fun v => v.email) =
      ["alice@example.com", "bob@example.com", "erin@example.com"] := by
  refine ⟨rfl, by decide, by decide, by decide, by decide⟩

theorem pendingReset_mono (hashed : String) (now1 now2 : Nat) (v : User)
    (hle : now1 ≤ now2) (h : pendingReset hashed now2 v = true) :
    pendingReset hashed now1 v = true := by
  unfold pendingReset at h ⊢
  cases he : v.resetPasswordExpire with
  | none => simp [he] at h
  | some e =>
    simp only [he, Bool.and_eq_true, beq_iff_eq, decide_eq_true_eq] at h ⊢
    exact ⟨h.1, by omega⟩

theorem mem_save_of_wf (s : Store) (u u1 : User) (hwf : WF s) (hu : u ∈ s.users)
    (hid : u1._id = u._id) :
    ∀ v ∈ (save s u1).users, v = u1 ∨ (v ∈ s.users ∧ v ≠ u) := by
  obtain ⟨pre, post, hs⟩ := List.append_of_mem hu
  have hids := hwf.1
  rw [hs, List.pairwise_append, List.pairwise_cons] at hids
  have hpre : ∀ a ∈ pre, a._id ≠ u1._id := by
    intro a ha
    rw [hid]
    exact hids.2.2 a ha u (List.mem_cons_self u post)
  have hsave : (save s u1).users = pre ++ u1 :: post := by
    show replaceById u1 s.users = _
    rw [hs]
    exact replaceById_append u1 u pre post hpre hid.symm
  intro v hv
  rw [hsave] at hv
  rcases List.mem_append.mp hv with hv | hv
  · right
    refine ⟨by rw [hs]; exact List.mem_append_left _ hv, ?_⟩
    rintro rfl
    exact hids.2.2 v hv v (List.mem_cons_self v post) rfl
  · rcases List.mem_cons.mp hv with rfl | hv
    · exact Or.inl rfl
    · right
      refine ⟨by rw [hs]; exact List.mem_append_right _ (List.mem_cons_of_mem u hv), ?_⟩
      rintro rfl
      exact hids.2.1.1 v hv rfl

theorem resetPassword_found (lib : Lib) (env : Env) (s : Store) (now : Nat)
    (salt resettoken password : String) (u : User)
    (hpolicy : passwordErrors "Password must be at least 6 characters long"
      "Password must contain at least one uppercase letter, one lowercase letter, and one number"
      password = [])
    (hfind : findOne s (pendingReset (lib.sha256 resettoken) now) = some u) :
    resetPassword lib env s now salt resettoken password =
      (save s { u with
          password := some (hashPassword lib salt password),
          resetPasswordToken := none,
          resetPasswordExpire := none },
       Result.sent (sendTokenResponse env now { u with
          password := some (hashPassword lib salt password),
          resetPasswordToken := none,
          resetPasswordExpire := none } 200)) := by
  unfold resetPassword
  simp only [hpolicy, hfind, ne_eq, not_true_eq_false, if_false]

theorem resetPassword_notFound (lib : Lib) (env : Env) (s : Store) (now : Nat)
    (salt resettoken password : String)
    (hpolicy : passwordErrors "Password must be at least 6 characters long"
      "Password must contain at least one uppercase letter, one lowercase letter, and one number"
      password = [])
    (hnone : ∀ v ∈ s.users, pendingReset (lib.sha256 resettoken) now v = false) :
    resetPassword lib env s now salt resettoken password =
      (s, Result.sent (fail 400 "Invalid or expired reset token")) := by
  have hfind : findOne s (pendingReset (lib.sha256 resettoken) now) = none :=
    find_none_of_forall _ _ hnone
  unfold resetPassword
  simp only [hpolicy, hfind, ne_eq, not_true_eq_false, if_false]

/-- C3: a reset token is single-use. In a store (with `_id` a primary key) in
which exactly one user `u` holds a pending reset whose stored token is the
SHA-256 hash of `R` and whose expiry is later than `now1`, the first
`PUT /resetpassword/R` with a policy-compliant password answers 200, and a
second one with the same `R`, any policy-compliant password and any time
`now2` not before `now1` answers 400 'Invalid or expired reset token' and
changes nothing. -/
theorem reset_token_single_use (lib : Lib) (env : Env) (s : Store) (now1 now2 : Nat)
    (salt1 salt2 R password1 password2 : String) (u : User)
    (hwf : WF s)
    (hp1 : passwordErrors "Password must be at least 6 characters long"
      "Password must contain at least one uppercase letter, one lowercase letter, and one number"
      password1 = [])
    (hp2 : passwordErrors "Password must be at least 6 characters long"
      "Password must contain at least one uppercase letter, one lowercase letter, and one number"
      password2 = [])
    (hu : u ∈ s.users) (hpending : pendingReset (lib.sha256 R) now1 u = true)
    (honly : ∀ v ∈ s.users, pendingReset (lib.sha256 R) now1 v = true → v = u)
    (hlater : now1 ≤ now2) :
    ∃ s1 r,
      resetPassword lib env s now1 salt1 R password1 = (s1, Result.sent r) ∧
      r.status = 200 ∧ r.token = some (generateToken env now1 u._id) ∧
      resetPassword lib env s1 now2 salt2 R password2 =
        (s1, Result.sent (fail 400 "Invalid or expired reset token")) := by
  have hfind : findOne s (pendingReset (lib.sha256 R) now1) = some u := by
    unfold findOne
    cases hf : s.users.find? (pendingReset (lib.sha256 R) now1) with
    | none =>
      rw [List.find?_eq_none] at hf
      exact absurd hpending (hf u hu)
    | some v =>
      rw [honly v (List.mem_of_find?_eq_some hf) (List.find?_some hf)]
  refine ⟨_, _, resetPassword_found lib env s now1 salt1 R password1 u hp1 hfind, rfl, rfl, ?_⟩
  apply resetPassword_notFound lib env _ now2 salt2 R password2 hp2
  intro v hv
  rcases mem_save_of_wf s u
      { u with
        password := some (hashPassword lib salt1 password1),
        resetPasswordToken := none,
        resetPasswordExpire := none } hwf hu rfl v hv with hv1 | ⟨hvs, hne⟩
  · rw [hv1]
    simp [pendingReset]
  · cases hpv : pendingReset (lib.sha256 R) now2 v
    · rfl
    · exact absurd (honly v hvs (pendingReset_mono _ now1 now2 v hlater hpv)) hne

theorem reset_token_single_use_witness :
    WF demoStore ∧
    passwordErrors "Password must be at least 6 characters long"
      "Password must contain at least one uppercase letter, one lowercase letter, and one number"
      "NewPassw1" = [] ∧
    passwordErrors "Password must be at least 6 characters long"
      "Password must contain at least one uppercase letter, one lowercase letter, and one number"
      "Another2x" = [] ∧
    alice ∈ demoStore.users ∧ pendingReset (demoLib.sha256 "R") 600000 alice = true ∧
    (∀ v ∈ demoStore.users, pendingReset (demoLib.sha256 "R") 600000 v = true → v = alice) ∧
    600000 ≤ 600001 ∧
    ∃ s1 r,
      resetPassword demoLib demoEnv demoStore 600000 "pepper" "R" "NewPassw1" =
        (s1, Result.sent r) ∧
      r.status = 200 ∧ r.token = some (generateToken demoEnv 600000 alice._id) ∧
      resetPassword demoLib demoEnv s1 600001 "pepper" "R" "Another2x" =
        (s1, Result.sent (fail 400 "Invalid or expired reset token")) :=
  have hwf : WF demoStore := by unfold WF; decide
  ⟨hwf, by decide, by decide, by decide, by decide, by decide, by decide,
    reset_token_single_use demoLib demoEnv demoStore 600000 600001 "pepper" "pepper" "R"
      "NewPassw1" "Another2x" alice hwf (by decide) (by decide) (by decide) (by decide)
      (by decide) (by decide)⟩

theorem not_pending_of_expired (hashed : String) (now : Nat) (v : User)
    (h : v.resetPasswordToken = some hashed →
      ∀ e, v.resetPasswordExpire = some e → e ≤ now) :
    pendingReset hashed now v = false := by
  unfold pendingReset
  by_cases ht : v.resetPasswordToken = some hashed
  · cases he : v.resetPasswordExpire with
    | none => simp
    | some e =>
      have := h ht e he
      simp only [Bool.and_eq_false_imp, beq_iff_eq, decide_eq_false_iff_not]
      intro _
      omega
  · simp [ht]

/-- C4: for every raw secret `R` and time `now`, if every user whose stored
resetPasswordToken equals hash(`R`) has a resetPasswordExpire not later than
`now`, `PUT /resetpassword/R` answers 400 without a token and leaves the store,
with the stored hashes and passwords, exactly as it was; for a policy-compliant
password the response is 'Invalid or expired reset token'. -/
theorem expired_reset_rejected (lib : Lib) (env : Env) (s : Store) (now : Nat)
    (salt R password : String)
    (hexpired : ∀ v ∈ s.users, v.resetPasswordToken = some (lib.sha256 R) →
      ∀ e, v.resetPasswordExpire = some e → e ≤ now) :
    (resetPassword lib env s now salt R password).1 = s ∧
    (∃ r, (resetPassword lib env s now salt R password).2 = Result.sent r ∧
      r.status = 400 ∧ r.success = false ∧ r.token = none ∧ r.cookie = none) ∧
    (passwordErrors "Password must be at least 6 characters long"
        "Password must contain at least one uppercase letter, one lowercase letter, and one number"
        password = [] →
      resetPassword lib env s now salt R password =
        (s, Result.sent (fail 400 "Invalid or expired reset token"))) := by
  have hnone : ∀ v ∈ s.users, pendingReset (lib.sha256 R) now v = false :=
    fun v hv => not_pending_of_expired _ now v (hexpired v hv)
  have hfind : findOne s (pendingReset (lib.sha256 R) now) = none :=
    find_none_of_forall _ _ hnone
  refine ⟨?_, ?_, fun hp => resetPassword_notFound lib env s now salt R password hp hnone⟩
  · unfold resetPassword
    simp only [hfind]
    split <;> rfl
  · unfold resetPassword
    simp only [hfind]
    split
    · exact ⟨_, rfl, rfl, rfl, rfl, rfl⟩
    · exact ⟨_, rfl, rfl, rfl, rfl, rfl⟩

theorem expired_reset_rejected_witness :
    (∀ v ∈ demoStore.users, v.resetPasswordToken = some (demoLib.sha256 "R") →
      ∀ e, v.resetPasswordExpire = some e → e ≤ 900000) ∧
    alice.resetPasswordToken = some (demoLib.sha256 "R") ∧
    (resetPassword demoLib demoEnv demoStore 900000 "pepper" "R" "NewPassw1").1 =
      demoStore ∧
    (∃ r, (resetPassword demoLib demoEnv demoStore 900000 "pepper" "R" "NewPassw1").2 =
        Result.sent r ∧
      r.status = 400 ∧ r.success = false ∧ r.token = none ∧ r.cookie = none) ∧
    (passwordErrors "Password must be at least 6 characters long"
        "Password must contain at least one uppercase letter, one lowercase letter, and one number"
        "NewPassw1" = [] →
      resetPassword demoLib demoEnv demoStore 900000 "pepper" "R" "NewPassw1" =
        (demoStore, Result.sent (fail 400 "Invalid or expired reset token"))) :=
  have h : ∀ v ∈ demoStore.users, v.resetPasswordToken = some (demoLib.sha256 "R") →
      ∀ e, v.resetPasswordExpire = some e → e ≤ 900000 := by
    intro v hv ht e he
    simp only [demoStore, List.mem_cons, List.mem_singleton, List.not_mem_nil, or_false] at hv
    rcases hv with rfl | rfl
    · simp only [alice, Option.some.injEq] at he
      omega
    · simp [bob] at he
  ⟨h, rfl, expired_reset_rejected demoLib demoEnv demoStore 900000 "pepper" "R" "NewPassw1" h⟩

/-- C5: for every raw secret `R` and policy-compliant new password, if `u` is
the stored user the query finds (its resetPasswordToken equals hash(`R`) and
its resetPasswordExpire is strictly later than `now`), `PUT /resetpassword/R`
stores the hash of the new password on that user (the new password verifies
against it), clears resetPasswordToken and resetPasswordExpire on that user,
and answers 200 with a session token freshly issued for that user. -/
theorem reset_success (lib : Lib) (env : Env) (s : Store) (now : Nat)
    (salt R password : String) (u : User)
    (hpolicy : passwordErrors "Password must be at least 6 characters long"
      "Password must contain at least one uppercase letter, one lowercase letter, and one number"
      password = [])
    (hfind : findOne s (pendingReset (lib.sha256 R) now) = some u)
    (hcorrect : lib.bcryptCompare password (lib.bcryptHash salt password) = true) :
    u.resetPasswordToken = some (lib.sha256 R) ∧
    (∃ e, u.resetPasswordExpire = some e ∧ now < e) ∧
    ∃ s1 r u1,
      resetPassword lib env s now salt R password = (s1, Result.sent r) ∧
      findById s1 u._id = some u1 ∧
      u1 = { u with password := some (lib.bcryptHash salt password),
                    resetPasswordToken := none, resetPasswordExpire := none } ∧
      matchPassword lib u1 password = true ∧
      r.status = 200 ∧ r.success = true ∧
      r.token = some (generateToken env now u._id) ∧
      r.cookie.map (fun c => c.value) = some (generateToken env now u._id) ∧
      r.user = some (tokenResponseUser u1) := by
  have hp := List.find?_some hfind
  have hmem := List.mem_of_find?_eq_some hfind
  unfold pendingReset at hp
  refine ⟨?_, ?_, _, _, _, resetPassword_found lib env s now salt R password u hpolicy hfind,
    ?_, rfl, ?_, rfl, rfl, rfl, rfl, rfl⟩
  · simp only [Bool.and_eq_true, beq_iff_eq] at hp
    exact hp.1
  · cases he : u.resetPasswordExpire with
    | none => simp [he] at hp
    | some e =>
      simp only [he, Bool.and_eq_true, beq_iff_eq, decide_eq_true_eq] at hp
      exact ⟨e, rfl, hp.2⟩
  · unfold findById save
    exact findById_replaceById
      { u with password := some (hashPassword lib salt password),
               resetPasswordToken := none, resetPasswordExpire := none }
      s.users ⟨u, hmem, rfl⟩
  · simp [matchPassword, hashPassword, hcorrect]

theorem reset_success_witness :
    passwordErrors "Password must be at least 6 characters long"
      "Password must contain at least one uppercase letter, one lowercase letter, and one number"
      "NewPassw1" = [] ∧
    findOne demoStore (pendingReset (demoLib.sha256 "R") 600000) = some alice ∧
    demoLib.bcryptCompare "NewPassw1" (demoLib.bcryptHash "pepper" "NewPassw1") = true ∧
    alice.resetPasswordToken = some (demoLib.sha256 "R") ∧
    (∃ e, alice.resetPasswordExpire = some e ∧ 600000 < e) ∧
    ∃ s1 r u1,
      resetPassword demoLib demoEnv demoStore 600000 "pepper" "R" "NewPassw1" =
        (s1, Result.sent r) ∧
      findById s1 alice._id = some u1 ∧
      u1 = { alice with password := some (demoLib.bcryptHash "pepper" "NewPassw1"),
                        resetPasswordToken := none, resetPasswordExpire := none } ∧
      matchPassword demoLib u1 "NewPassw1" = true ∧
      r.status = 200 ∧ r.success = true ∧
      r.token = some (generateToken demoEnv 600000 alice._id) ∧
      r.cookie.map (fun c => c.value) = some (generateToken demoEnv 600000 alice._id) ∧
      r.user = some (tokenResponseUser u1) :=
  ⟨by decide, by decide, by decide,
    reset_success demoLib demoEnv demoStore 600000 "pepper" "R" "NewPassw1" alice
      (by decide) (by decide) (by decide)⟩

/-- C7: `PUT /resetpassword/:resettoken` surfaces no distinction between a
wrong secret and an expired one. For every policy-compliant password, the
outcome (store, status and body) for a secret `R1` whose hash no user stores
equals the outcome for a secret `R2` whose hash is stored but whose expiry has
passed: 400 'Invalid or expired reset token', store unchanged. -/
theorem reset_failure_uniform (lib : Lib) (env : Env) (s : Store) (now : Nat)
    (salt1 salt2 R1 R2 password : String) (u : User)
    (hpolicy : passwordErrors "Password must be at least 6 characters long"
      "Password must contain at least one uppercase letter, one lowercase letter, and one number"
      password = [])
    (hwrong : ∀ v ∈ s.users, v.resetPasswordToken ≠ some (lib.sha256 R1))
    (_hstored : u ∈ s.users ∧ u.resetPasswordToken = some (lib.sha256 R2))
    (hexpired : ∀ v ∈ s.users, v.resetPasswordToken = some (lib.sha256 R2) →
      ∀ e, v.resetPasswordExpire = some e → e ≤ now) :
    resetPassword lib env s now salt1 R1 password =
      resetPassword lib env s now salt2 R2 password ∧
    resetPassword lib env s now salt1 R1 password =
      (s, Result.sent (fail 400 "Invalid or expired reset token")) := by
  have h1 : resetPassword lib env s now salt1 R1 password =
      (s, Result.sent (fail 400 "Invalid or expired reset token")) := by
    apply resetPassword_notFound lib env s now salt1 R1 password hpolicy
    intro v hv
    apply not_pending_of_expired
    intro ht
    exact absurd ht (hwrong v hv)
  have h2 : resetPassword lib env s now salt2 R2 password =
      (s, Result.sent (fail 400 "Invalid or expired reset token")) := by
    apply resetPassword_notFound lib env s now salt2 R2 password hpolicy
    intro v hv
    exact not_pending_of_expired _ now v (hexpired v hv)
  exact ⟨h1.trans h2.symm, h1⟩

theorem reset_failure_uniform_witness :
    passwordErrors "Password must be at least 6 characters long"
      "Password must contain at least one uppercase letter, one lowercase letter, and one number"
      "NewPassw1" = [] ∧
    (∀ v ∈ demoStore.users, v.resetPasswordToken ≠ some (demoLib.sha256 "guess")) ∧
    (alice ∈ demoStore.users ∧ alice.resetPasswordToken = some (demoLib.sha256 "R")) ∧
    resetPassword demoLib demoEnv demoStore 900000 "pepper" "guess" "NewPassw1" =
      resetPassword demoLib demoEnv demoStore 900000 "pepper" "R" "NewPassw1" ∧
    resetPassword demoLib demoEnv demoStore 900000 "pepper" "guess" "NewPassw1" =
      (demoStore, Result.sent (fail 400 "Invalid or expired reset token")) :=
  have h : ∀ v ∈ demoStore.users, v.resetPasswordToken = some (demoLib.sha256 "R") →
      ∀ e, v.resetPasswordExpire = some e → e ≤ 900000 := by
    intro v hv ht e he
    simp only [demoStore, List.mem_cons, List.mem_singleton, List.not_mem_nil, or_false] at hv
    rcases hv with rfl | rfl
    · simp only [alice, Option.some.injEq] at he
      omega
    · simp [bob] at he
  ⟨by decide, by decide, ⟨by decide, rfl⟩,
    reset_failure_uniform demoLib demoEnv demoStore 900000 "pepper" "pepper" "guess" "R"
      "NewPassw1" alice (by decide) (by decide) ⟨by decide, rfl⟩ h⟩

theorem exists_id_replaceById (u : User) :
    ∀ l : List User, (∃ v ∈ l, v._id = u._id) → ∃ v ∈ replaceById u l, v._id = u._id
  | [], h => by simp at h
  | w :: ws, h => by
    unfold replaceById
    by_cases hw : w._id = u._id
    · simp only [hw, if_true]
      exact ⟨u, List.mem_cons_self u ws, rfl⟩
    · simp only [hw, if_false]
      obtain ⟨v, hv, hid⟩ := h
      rcases List.mem_cons.mp hv with rfl | hv
      · exact absurd hid hw
      · obtain ⟨x, hx, hxid⟩ := exists_id_replaceById u ws ⟨v, hv, hid⟩
        exact ⟨x, List.mem_cons_of_mem w hx, hxid⟩

/-- C6: for every existing user, whenever the delivery of the reset email
fails after the token was generated (`sendPasswordResetEmail` resolves to
`success: false` or throws), `POST /forgotpassword` answers 500 without the
raw token, and the persisted user record ends as it was before the request
with resetPasswordToken and resetPasswordExpire both cleared: no pending reset
remains. -/
theorem forgot_password_rollback (lib : Lib) (env : Env) (s : Store) (now : Nat)
    (secret email : String) (mail : Except String MailResult) (u : User)
    (hemail : lib.isEmail email = true)
    (hfind : findOne s (fun v => v.email == lib.normalizeEmail email) = some u)
    (hfail : ∀ r, mail = Except.ok r → r.success = false) :
    ∃ s2 r,
      (forgotPassword lib env s now secret mail email).1 = s2 ∧
      (forgotPassword lib env s now secret mail email).2.1 = Result.sent r ∧
      r.status = 500 ∧ r.success = false ∧ r.resetToken = none ∧ r.token = none ∧
      s2.users.length = s.users.length ∧
      findById s2 u._id =
        some { u with resetPasswordToken := none, resetPasswordExpire := none } := by
  have hmem := List.mem_of_find?_eq_some hfind
  have hstored : findById
      (save (save s { u with
          resetPasswordToken := some (lib.sha256 secret),
          resetPasswordExpire := some (now + resetWindow) })
        { u with resetPasswordToken := none, resetPasswordExpire := none }) u._id =
      some { u with resetPasswordToken := none, resetPasswordExpire := none } := by
    unfold findById save
    apply findById_replaceById
      { u with resetPasswordToken := none, resetPasswordExpire := none }
    exact exists_id_replaceById
      { u with resetPasswordToken := some (lib.sha256 secret),
               resetPasswordExpire := some (now + resetWindow) }
      s.users ⟨u, hmem, rfl⟩
  have hlen : (save (save s { u with
          resetPasswordToken := some (lib.sha256 secret),
          resetPasswordExpire := some (now + resetWindow) })
        { u with resetPasswordToken := none, resetPasswordExpire := none }).users.length =
      s.users.length := by
    unfold save
    simp only [length_replaceById]
  unfold forgotPassword
  simp only [hemail, hfind, getResetPasswordToken, Bool.not_true, Bool.false_eq_true,
    if_false]
  cases mail with
  | error e => exact ⟨_, _, rfl, rfl, rfl, rfl, rfl, rfl, hlen, hstored⟩
  | ok r0 =>
    have h0 : r0.success = false := hfail r0 rfl
    simp only [h0, Bool.false_eq_true, if_false]
    exact ⟨_, _, rfl, rfl, rfl, rfl, rfl, rfl, hlen, hstored⟩

theorem forgot_password_rollback_witness :
    demoLib.isEmail "bob@example.com" = true ∧
    findOne demoStore (fun v => v.email == demoLib.normalizeEmail "bob@example.com") =
      some bob ∧
    (∀ r, (Except.ok (sendPasswordResetEmail (Except.error "smtp down")) :
        Except String MailResult) = Except.ok r → r.success = false) ∧
    ∃ s2 r,
      (forgotPassword demoLib demoEnv demoStore 0 "S"
        (Except.ok (sendPasswordResetEmail (Except.error "smtp down")))
        "bob@example.com").1 = s2 ∧
      (forgotPassword demoLib demoEnv demoStore 0 "S"
        (Except.ok (sendPasswordResetEmail (Except.error "smtp down")))
        "bob@example.com").2.1 = Result.sent r ∧
      r.status = 500 ∧ r.success = false ∧ r.resetToken = none ∧ r.token = none ∧
      s2.users.length = demoStore.users.length ∧
      findById s2 bob._id =
        some { bob with resetPasswordToken := none, resetPasswordExpire := none } :=
  have h : ∀ r, (Except.ok (sendPasswordResetEmail (Except.error "smtp down")) :
      Except String MailResult) = Except.ok r → r.success = false := by
    intro r hr
    rw [← Except.ok.inj hr]
    rfl
  ⟨by decide, by decide, h,
    forgot_password_rollback demoLib demoEnv demoStore 0 "S" "bob@example.com"
      (Except.ok (sendPasswordResetEmail (Except.error "smtp down"))) bob
      (by decide) (by decide) h⟩

/-- C8: for every authenticated user and every request to
`PUT /updatepassword` whose currentPassword does not verify against the stored
hash, the store (the password hash and every other field of every user) is
unchanged and the response carries no token and no cookie (401 'Password is
incorrect' once the request passes validation), so every later login behaves
as before the request and a login with the old password still succeeds. -/
theorem wrong_current_password_changes_nothing (lib : Lib) (env : Env) (s : Store)
    (now : Nat) (salt : String) (reqUserId : Nat) (body : PasswordBody) (u : User)
    (hu : findById s reqUserId = some u)
    (hwrong : matchPassword lib u body.currentPassword = false) :
    (updatePassword lib env s now salt reqUserId body).1 = s ∧
    (∃ r, (updatePassword lib env s now salt reqUserId body).2 = Result.sent r ∧
      r.success = false ∧ r.token = none ∧ r.cookie = none) ∧
    (updatePasswordErrors body = [] →
      (updatePassword lib env s now salt reqUserId body).2 =
        Result.sent (fail 401 "Password is incorrect")) ∧
    (∀ t b, login lib env (updatePassword lib env s now salt reqUserId body).1 t b =
      login lib env s t b) ∧
    (∀ t email old, lib.isEmail email = true → old ≠ "" →
      findOne s (fun v => v.email == lib.normalizeEmail email) = some u →
      matchPassword lib u old = true →
      login lib env (updatePassword lib env s now salt reqUserId body).1 t
          { email := email, password := old } =
        (s, Result.sent (sendTokenResponse env t u 200))) := by
  have hstore : (updatePassword lib env s now salt reqUserId body).1 = s := by
    unfold updatePassword
    simp only [hu, hwrong, Bool.not_false, if_true]
    split <;> rfl
  refine ⟨hstore, ?_, ?_, ?_, ?_⟩
  · unfold updatePassword
    simp only [hu, hwrong, Bool.not_false, if_true]
    split
    · exact ⟨_, rfl, rfl, rfl, rfl⟩
    · exact ⟨_, rfl, rfl, rfl, rfl⟩
  · intro hv
    unfold updatePassword
    simp only [hv, hu, hwrong, ne_eq, not_true_eq_false, if_false, Bool.not_false, if_true]
  · intro t b
    rw [hstore]
  · intro t email old hmail hne hfind hmatch
    rw [hstore]
    have hlen : old.length ≠ 0 := fun h0 => hne (String.ext (List.length_eq_zero.mp h0))
    have herr : loginErrors lib { email := email, password := old } = [] := by
      simp [loginErrors, hmail, hlen]
    unfold login
    simp only [herr, hfind, hmatch, ne_eq, not_true_eq_false, if_false, Bool.not_true]
    rfl

theorem wrong_current_password_changes_nothing_witness :
    findById demoStore 1 = some alice ∧
    matchPassword demoLib alice "Wrong0ne" = false ∧
    (updatePassword demoLib demoEnv demoStore 0 "pepper" 1
      { currentPassword := "Wrong0ne", newPassword := "NewPassw1" }).1 = demoStore ∧
    (updatePassword demoLib demoEnv demoStore 0 "pepper" 1
      { currentPassword := "Wrong0ne", newPassword := "NewPassw1" }).2 =
        Result.sent (fail 401 "Password is incorrect") ∧
    login demoLib demoEnv
      (updatePassword demoLib demoEnv demoStore 0 "pepper" 1
        { currentPassword := "Wrong0ne", newPassword := "NewPassw1" }).1 5000
      { email := "alice@example.com", password := "Passw0rd" } =
        (demoStore, Result.sent (sendTokenResponse demoEnv 5000 alice 200)) :=
  have h := wrong_current_password_changes_nothing demoLib demoEnv demoStore 0 "pepper" 1
    { currentPassword := "Wrong0ne", newPassword := "NewPassw1" } alice
    (by decide) (by decide)
  ⟨by decide, by decide, h.1, h.2.2.1 (by decide),
    h.2.2.2.2 5000 "alice@example.com" "Passw0rd" (by decide) (by decide) (by decide)
      (by decide)⟩

/-- C9: for every validated register request whose normalized email is
already held by some user, register answers 400 'User already exists with this
email' without a token, leaves the store unchanged (no user is created) and
asks for no welcome email. -/
theorem register_duplicate_email (lib : Lib) (env : Env) (s : Store) (now : Nat)
    (salt : String) (welcome : Except String MailResult) (body : RegisterBody) (u : User)
    (hvalid : registerErrors lib body = [])
    (hu : u ∈ s.users) (hdup : u.email = lib.normalizeEmail body.email) :
    register lib env s now salt welcome body =
      (s, Result.sent (fail 400 "User already exists with this email"), []) ∧
    (fail 400 "User already exists with this email").status = 400 ∧
    (fail 400 "User already exists with this email").token = none ∧
    (fail 400 "User already exists with this email").cookie = none := by
  refine ⟨?_, rfl, rfl, rfl⟩
  cases hfind : findOne s (fun v => v.email == lib.normalizeEmail body.email) with
  | none =>
    unfold findOne at hfind
    rw [List.find?_eq_none] at hfind
    exact absurd (by simp [hdup]) (hfind u hu)
  | some v =>
    unfold register
    simp only [hvalid, hfind, ne_eq, not_true_eq_false, if_false]

theorem register_duplicate_email_witness :
    registerErrors demoLib aliceAgainBody = [] ∧
    alice ∈ demoStore.users ∧
    alice.email = demoLib.normalizeEmail aliceAgainBody.email ∧
    register demoLib demoEnv demoStore 0 "salt" (Except.error "smtp") aliceAgainBody =
      (demoStore, Result.sent (fail 400 "User already exists with this email"), []) ∧
    (fail 400 "User already exists with this email").status = 400 ∧
    (fail 400 "User already exists with this email").token = none ∧
    (fail 400 "User already exists with this email").cookie = none :=
  ⟨by decide, by decide, by decide,
    register_duplicate_email demoLib demoEnv demoStore 0 "salt" (Except.error "smtp")
      aliceAgainBody alice (by decide) (by decide) (by decide)⟩

/-- C10 (the code at the failing input): the password `AB12CD`, a line feed,
`x` has 8 characters, a lowercase letter, an uppercase letter and a digit, yet
the pattern of the three validators rejects it, because `.` does not cross
the line feed: register, updatepassword and resetpassword answer 400 with the
'must contain' message and leave the store as it was. -/
theorem password_policy_rejects_two_line_password :
    twoLinePassword.length = 8 ∧
    twoLinePassword.toList.any Char.isLower = true ∧
    twoLinePassword.toList.any Char.isUpper = true ∧
    twoLinePassword.toList.any Char.isDigit = true ∧
    matchesPolicy twoLinePassword = false ∧
    register demoLib demoEnv demoStore 0 "salt" (Except.error "smtp")
        { name := "Carol", email := "carol@example.com", password := twoLinePassword } =
      (demoStore, Result.sent (validationFailed "Validation failed"
        ["Password must contain at least one uppercase letter, one lowercase letter, and one number"]),
        []) ∧
    updatePassword demoLib demoEnv demoStore 0 "salt" 1
        { currentPassword := "Passw0rd", newPassword := twoLinePassword } =
      (demoStore, Result.sent (validationFailed "Validation failed"
        ["New password must contain at least one uppercase letter, one lowercase letter, and one number"])) ∧
    resetPassword demoLib demoEnv demoStore 600000 "salt" "R" twoLinePassword =
      (demoStore, Result.sent (validationFailed "Password validation failed"
        ["Password must contain at least one uppercase letter, one lowercase letter, and one number"])) := by
  refine ⟨by decide, by decide, by decide, by decide, by decide, by decide, by decide,
    by decide⟩

/-! ## Lemmas on double rounding -/

theorem findExp_ge (a b K : Nat) :
    ∀ fuel start, start ≤ K → K ≤ start + fuel →
      (∀ j, start ≤ j → j < K → ¬ 2 ^ 52 * b ≤ a * 2 ^ j) →
      K ≤ findExp a b fuel start
  | 0, start, _, h2, _ => by
    unfold findExp
    omega
  | fuel + 1, start, h1, h2, h3 => by
    unfold findExp
    split
    · rename_i hc
      by_contra hlt
      exact h3 start (Nat.le_refl _) (by omega) hc
    · rename_i hc
      by_cases hK : start = K
      · subst hK
        have := findExp_ge a b (start + 1) fuel (start + 1) (Nat.le_refl _) (by omega)
          (fun j hj1 hj2 => by omega)
        omega
      · exact findExp_ge a b K fuel (start + 1) (by omega) (by omega)
          (fun j hj1 hj2 => h3 j (by omega) hj2)

theorem fdiv_k_ge (a b K : Nat) (hK : K ≤ 1100)
    (h : ∀ j, j < K → a * 2 ^ j < 2 ^ 52 * b) : K ≤ (fdiv a b).k := by
  show K ≤ findExp a b 1100 0
  apply findExp_ge a b K 1100 0 (Nat.zero_le _) (by omega)
  intro j _ hj
  exact Nat.not_le.mpr (h j hj)

theorem fdiv_spec (a b : Nat) (hb : 0 < b) :
    2 * ((fdiv a b).m * b) ≤ 2 * (a * 2 ^ (fdiv a b).k) + b ∧
    2 * (a * 2 ^ (fdiv a b).k) ≤ 2 * ((fdiv a b).m * b) + b := by
  generalize hk : (fdiv a b).k = k
  have hkdef : k = findExp a b 1100 0 := by rw [← hk]; rfl
  have hm : (fdiv a b).m =
      if 2 * (a * 2 ^ k % b) < b then a * 2 ^ k / b
      else if b < 2 * (a * 2 ^ k % b) then a * 2 ^ k / b + 1
      else a * 2 ^ k / b + a * 2 ^ k / b % 2 := by
    rw [hkdef]; rfl
  rw [hm]
  generalize hA : a * 2 ^ k = A
  have hdiv : b * (A / b) + A % b = A := Nat.div_add_mod A b
  have hlt : A % b < b := Nat.mod_lt A hb
  generalize hq : A / b = q at hdiv ⊢
  generalize hr : A % b = r at hdiv hlt ⊢
  have hqb : q * b = b * q := Nat.mul_comm q b
  have hq1 : (q + 1) * b = b * q + b := by rw [Nat.add_mul, Nat.one_mul, hqb]
  split
  · rw [hqb]; omega
  · split
    · rw [hq1]; omega
    · have hcases : q % 2 = 0 ∨ q % 2 = 1 := by omega
      rcases hcases with h0 | h1
      · rw [h0, Nat.add_zero, hqb]; omega
      · rw [h1, hq1]; omega

theorem mathCeil_fdiv (a b : Nat) (hb1 : 1 ≤ b) (hb2 : b ≤ 100) (ha : a < 2 ^ 47) :
    mathCeil (fdiv a b) = (a + b - 1) / b := by
  have hk : 6 ≤ (fdiv a b).k := by
    apply fdiv_k_ge a b 6 (by omega)
    intro j hj
    have h2 : 2 ^ j ≤ 2 ^ 5 := Nat.pow_le_pow_right (by omega) (by omega)
    calc a * 2 ^ j ≤ a * 2 ^ 5 := Nat.mul_le_mul_left a h2
      _ < 2 ^ 52 * 1 := by omega
      _ ≤ 2 ^ 52 * b := Nat.mul_le_mul_left _ hb1
  obtain ⟨h1, h2⟩ := fdiv_spec a b (by omega)
  have hp : 2 ^ 6 ≤ 2 ^ (fdiv a b).k := Nat.pow_le_pow_right (by omega) hk
  unfold mathCeil
  generalize (fdiv a b).m = m at h1 h2 ⊢
  generalize 2 ^ (fdiv a b).k = p at h1 h2 hp ⊢
  have hdiv : b * ((a + b - 1) / b) + (a + b - 1) % b = a + b - 1 := Nat.div_add_mod _ _
  have hmod : (a + b - 1) % b < b := Nat.mod_lt _ (by omega)
  generalize (a + b - 1) / b = N at hdiv ⊢
  generalize (a + b - 1) % b = r at hdiv hmod
  have hNa : a ≤ b * N := by omega
  have hNb : b * N + 1 ≤ a + b := by omega
  have hpb : b < 2 * p := by omega
  apply Nat.div_eq_of_lt_le
  · -- N * p ≤ m + p - 1
    by_contra hcon
    have hle : m + p ≤ N * p := by omega
    have e1 : (m + p) * b ≤ N * p * b := Nat.mul_le_mul_right b hle
    have e2 : (b * N + 1) * p ≤ (a + b) * p := Nat.mul_le_mul_right p hNb
    nlinarith [e1, e2, h1, h2, hpb]
  · -- m + p - 1 < (N + 1) * p
    by_contra hcon
    have hge : N * p + 1 ≤ m := by
      have : (N + 1) * p = N * p + p := by ring
      omega
    have e1 : (N * p + 1) * b ≤ m * b := Nat.mul_le_mul_right b hge
    have e2 : a * p ≤ b * N * p := Nat.mul_le_mul_right p hNa
    nlinarith [e1, e2, h1, h2, hpb]

theorem intOr_pos (n fallback : Nat) (h : 1 ≤ n) : intOr (some n) fallback = n := by
  cases n with
  | zero => omega
  | succ k => rfl

theorem ceil_div_eq (a b : Nat) (hb : 1 ≤ b) :
    Nat.ceil ((a : ℚ) / (b : ℚ)) = (a + b - 1) / b := by
  have hdiv : b * ((a + b - 1) / b) + (a + b - 1) % b = a + b - 1 := Nat.div_add_mod _ _
  have hmod : (a + b - 1) % b < b := Nat.mod_lt _ (by omega)
  generalize (a + b - 1) / b = N at hdiv ⊢
  generalize (a + b - 1) % b = r at hdiv hmod
  have hNa : a ≤ b * N := by omega
  have hNb : b * N + 1 ≤ a + b := by omega
  have hbq : (0 : ℚ) < (b : ℚ) := by exact_mod_cast hb
  apply le_antisymm
  · rw [Nat.ceil_le, div_le_iff₀ hbq]
    exact_mod_cast (by rw [Nat.mul_comm]; exact hNa : a ≤ N * b)
  · cases N with
    | zero => exact Nat.zero_le _
    | succ M =>
      rw [Nat.succ_le_iff, Nat.lt_ceil, lt_div_iff₀ hbq]
      have : M * b < a := by
        have : b * (M + 1) = M * b + b := by ring
        omega
      exact_mod_cast this

/-- C29: in the todo listing, for every number of matching documents `total`
(below `2 ^ 47`), every `page` of at least 1 and every `limit` between 1 and
100, `pagination.pages` is the ceiling of `total / limit`, `hasPrev` holds
exactly when `page > 1` and `hasNext` exactly when `page * limit < total`;
an absent `page` counts as 1 and an absent `limit` as 25. -/
theorem pagination_correct (total page limit : Nat) (hp : 1 ≤ page) (hl1 : 1 ≤ limit)
    (hl2 : limit ≤ 100) (ht : total < 2 ^ 47) :
    pagingErrors (some page) (some limit) = [] ∧
    (pagination total (some page) (some limit)).current = page ∧
    (pagination total (some page) (some limit)).total = total ∧
    (pagination total (some page) (some limit)).pages =
      Nat.ceil ((total : ℚ) / (limit : ℚ)) ∧
    ((pagination total (some page) (some limit)).hasPrev = true ↔ 1 < page) ∧
    ((pagination total (some page) (some limit)).hasNext = true ↔ page * limit < total) ∧
    pagination total none (some limit) = pagination total (some 1) (some limit) ∧
    pagination total (some page) none = pagination total (some page) (some 25) ∧
    pagination total none none = pagination total (some 1) (some 25) := by
  have hpages : mathCeil (fdiv total limit) = (total + limit - 1) / limit :=
    mathCeil_fdiv total limit hl1 hl2 ht
  have hpage := intOr_pos page 1 hp
  have hlimit := intOr_pos limit 25 hl1
  refine ⟨?_, ?_, rfl, ?_, ?_, ?_, rfl, rfl, rfl⟩
  · simp [pagingErrors, hp, hl1, hl2]
  · simp only [pagination, hpage]
  · simp only [pagination, hlimit, hpages]
    exact (ceil_div_eq total limit hl1).symm
  · simp only [pagination, hpage, decide_eq_true_eq, gt_iff_lt]
  · simp only [pagination, hpage, hlimit, hpages, decide_eq_true_eq]
    have hdiv : limit * ((total + limit - 1) / limit) + (total + limit - 1) % limit =
        total + limit - 1 := Nat.div_add_mod _ _
    have hmod : (total + limit - 1) % limit < limit := Nat.mod_lt _ (by omega)
    generalize (total + limit - 1) / limit = N at hdiv ⊢
    generalize (total + limit - 1) % limit = r at hdiv hmod
    have hdiv2 : limit * N + r + 1 = total + limit := by omega
    constructor
    · intro h
      have e : (page + 1) * limit ≤ N * limit := Nat.mul_le_mul_right limit h
      nlinarith [e, hdiv2, hmod]
    · intro h
      by_contra hcon
      have hle : N ≤ page := by omega
      have e : N * limit ≤ page * limit := Nat.mul_le_mul_right limit hle
      nlinarith [e, hdiv2, hmod]

theorem pagination_correct_witness :
    1 ≤ 3 ∧ 1 ≤ 25 ∧ 25 ≤ 100 ∧ 51 < 2 ^ 47 ∧
    pagingErrors (some 3) (some 25) = [] ∧
    (pagination 51 (some 3) (some 25)).current = 3 ∧
    (pagination 51 (some 3) (some 25)).total = 51 ∧
    (pagination 51 (some 3) (some 25)).pages = Nat.ceil (((51 : Nat) : ℚ) / ((25 : Nat) : ℚ)) ∧
    ((pagination 51 (some 3) (some 25)).hasPrev = true ↔ 1 < 3) ∧
    ((pagination 51 (some 3) (some 25)).hasNext = true ↔ 3 * 25 < 51) ∧
    pagination 51 none (some 25) = pagination 51 (some 1) (some 25) ∧
    pagination 51 (some 3) none = pagination 51 (some 3) (some 25) ∧
    pagination 51 none none = pagination 51 (some 1) (some 25) :=
  ⟨by decide, by decide, by decide, by decide,
    pagination_correct 51 3 25 (by decide) (by decide) (by decide) (by decide)⟩

theorem fdiv_le_one (c n : Nat) (hn : 0 < n) (hc : c ≤ n) :
    (fdiv c n).m ≤ 2 ^ (fdiv c n).k := by
  obtain ⟨h1, _⟩ := fdiv_spec c n hn
  generalize (fdiv c n).m = m at h1 ⊢
  generalize 2 ^ (fdiv c n).k = p at h1 ⊢
  by_contra hcon
  have hge : p + 1 ≤ m := by omega
  have e1 : (p + 1) * n ≤ m * n := Nat.mul_le_mul_right n hge
  have e2 : c * p ≤ n * p := Nat.mul_le_mul_right p hc
  nlinarith [e1, e2, h1, hn]

theorem fdiv_k_ge_52 (c n : Nat) (hn : 0 < n) (hc : c ≤ n) : 52 ≤ (fdiv c n).k := by
  apply fdiv_k_ge c n 52 (by omega)
  intro j hj
  have h2 : 2 ^ j ≤ 2 ^ 51 := Nat.pow_le_pow_right (by omega) (by omega)
  calc c * 2 ^ j ≤ n * 2 ^ 51 := Nat.mul_le_mul hc h2
    _ < n * 2 ^ 52 := Nat.mul_lt_mul_of_pos_left (by omega) hn
    _ = 2 ^ 52 * n := Nat.mul_comm _ _

theorem fmul_k_ge_46 (x : Dbl) (hx : x.m ≤ 2 ^ x.k) : 46 ≤ (fmul x 100).k := by
  apply fdiv_k_ge (x.m * 100) (2 ^ x.k) 46 (by omega)
  intro j hj
  have h2 : 2 ^ j ≤ 2 ^ 45 := Nat.pow_le_pow_right (by omega) (by omega)
  have hpos : 0 < 2 ^ x.k := Nat.two_pow_pos _
  calc x.m * 100 * 2 ^ j ≤ 2 ^ x.k * 100 * 2 ^ 45 :=
        Nat.mul_le_mul (Nat.mul_le_mul_right 100 hx) h2
    _ = 2 ^ x.k * (100 * 2 ^ 45) := Nat.mul_assoc _ _ _
    _ < 2 ^ x.k * 2 ^ 52 := Nat.mul_lt_mul_of_pos_left (by omega) hpos
    _ = 2 ^ 52 * 2 ^ x.k := Nat.mul_comm _ _

/-- The facts the percentage lemmas use about the two roundings of
`(c / n) * 100`. -/
theorem percent_facts (c n : Nat) (hn : 0 < n) (hc : c ≤ n) :
    ∃ m p m2 p2,
      mathRound (fmul (fdiv c n) 100) = (2 * m2 + p2) / (2 * p2) ∧
      2 ^ 52 ≤ p ∧ 2 ^ 46 ≤ p2 ∧ m ≤ p ∧
      2 * (m * n) ≤ 2 * (c * p) + n ∧ 2 * (c * p) ≤ 2 * (m * n) + n ∧
      2 * (m2 * p) ≤ 2 * (m * 100 * p2) + p ∧ 2 * (m * 100 * p2) ≤ 2 * (m2 * p) + p := by
  have hx := fdiv_le_one c n hn hc
  have hk := fdiv_k_ge_52 c n hn hc
  have hk2 := fmul_k_ge_46 (fdiv c n) hx
  obtain ⟨s1, s2⟩ := fdiv_spec c n hn
  have hpos : 0 < 2 ^ (fdiv c n).k := Nat.two_pow_pos _
  obtain ⟨t1, t2⟩ := fdiv_spec ((fdiv c n).m * 100) (2 ^ (fdiv c n).k) hpos
  refine ⟨(fdiv c n).m, 2 ^ (fdiv c n).k, (fmul (fdiv c n) 100).m,
    2 ^ (fmul (fdiv c n) 100).k, ?_, Nat.pow_le_pow_right (by omega) hk,
    Nat.pow_le_pow_right (by omega) hk2, hx, s1, s2, t1, t2⟩
  unfold mathRound
  rw [Nat.pow_succ, Nat.mul_comm (2 ^ _) 2]

theorem percent_le (c n : Nat) (hn : 0 < n) (hc : c ≤ n) :
    mathRound (fmul (fdiv c n) 100) ≤ 100 := by
  obtain ⟨m, p, m2, p2, hr, hp, hp2, hm, _, _, t1, _⟩ := percent_facts c n hn hc
  rw [hr]
  have hm2 : m2 ≤ 100 * p2 := by
    by_contra hcon
    have hge : 100 * p2 + 1 ≤ m2 := by omega
    have e1 : (100 * p2 + 1) * p ≤ m2 * p := Nat.mul_le_mul_right p hge
    have e2 : m * (100 * p2) ≤ p * (100 * p2) := Nat.mul_le_mul_right _ hm
    nlinarith [e1, e2, t1, hp]
  apply Nat.le_of_lt_succ
  rw [Nat.div_lt_iff_lt_mul (by omega)]
  omega

theorem percent_eq_100_iff (c n : Nat) (hn : 0 < n) (hc : c ≤ n) (hsmall : n < 2 ^ 40)
    (hne : 199 * n ≠ 200 * c) :
    mathRound (fmul (fdiv c n) 100) = 100 ↔ 199 * n ≤ 200 * c := by
  have hle := percent_le c n hn hc
  obtain ⟨m, p, m2, p2, hr, hp, hp2, hm, s1, s2, t1, t2⟩ := percent_facts c n hn hc
  rw [hr] at hle ⊢
  have hround : (2 * m2 + p2) / (2 * p2) = 100 ↔ 199 * p2 ≤ 2 * m2 := by
    constructor
    · intro h
      have := Nat.div_mul_le_self (2 * m2 + p2) (2 * p2)
      rw [h] at this
      omega
    · intro h
      apply Nat.le_antisymm hle
      rw [Nat.le_div_iff_mul_le (by omega)]
      omega
  rw [hround]
  clear hround hle hr
  -- 64 * n ≤ 2 ^ 46 and 3200 * n < 2 ^ 52
  have hnp : 64 * (n * p) ≤ p * p2 := by
    have a1 : 64 * n ≤ p2 := by omega
    have a2 : 64 * n * p ≤ p2 * p := Nat.mul_le_mul_right p a1
    linarith [a2]
  have hnp2 : 32 * (100 * (n * p2)) ≤ p * p2 := by
    have a1 : 3200 * n ≤ p := by omega
    have a2 : 3200 * n * p2 ≤ p * p2 := Nat.mul_le_mul_right p2 a1
    linarith [a2]
  have hpp : 0 < p * p2 := Nat.mul_pos (by omega) (by omega)
  constructor
  · intro H
    by_contra hcon
    have hlt : 200 * c + 1 ≤ 199 * n := by omega
    have f1 : 199 * p2 * p ≤ 2 * m2 * p := Nat.mul_le_mul_right p H
    have f2 : (199 * (p * p2)) * n ≤ (200 * (m * p2) + p) * n :=
      Nat.mul_le_mul_right n (by linarith [f1, t1])
    have f3 : (2 * (m * n)) * (100 * p2) ≤ (2 * (c * p) + n) * (100 * p2) :=
      Nat.mul_le_mul_right _ s1
    have f4 : (200 * c + 1) * (p * p2) ≤ 199 * n * (p * p2) :=
      Nat.mul_le_mul_right _ hlt
    linarith [f2, f3, f4, hnp, hnp2, hpp]
  · intro H
    by_contra hcon
    have hlt : 2 * m2 + 1 ≤ 199 * p2 := by omega
    have hstrict : 199 * n + 1 ≤ 200 * c := by omega
    have g1 : (2 * m2 + 1) * p ≤ 199 * p2 * p := Nat.mul_le_mul_right p hlt
    have g2 : (200 * (m * p2)) * n ≤ (199 * (p * p2)) * n :=
      Nat.mul_le_mul_right n (by linarith [g1, t2])
    have g3 : (2 * (c * p)) * (100 * p2) ≤ (2 * (m * n) + n) * (100 * p2) :=
      Nat.mul_le_mul_right _ s2
    have g4 : (199 * n + 1) * (p * p2) ≤ 200 * c * (p * p2) :=
      Nat.mul_le_mul_right _ hstrict
    linarith [g2, g3, g4, hnp, hnp2, hpp]

theorem findExp_scale (t a b : Nat) (ht : 0 < t) :
    ∀ fuel start, findExp (t * a) (t * b) fuel start = findExp a b fuel start
  | 0, _ => rfl
  | fuel + 1, start => by
    unfold findExp
    have hiff : 2 ^ 52 * (t * b) ≤ t * a * 2 ^ start ↔ 2 ^ 52 * b ≤ a * 2 ^ start := by
      rw [show 2 ^ 52 * (t * b) = t * (2 ^ 52 * b) by ring,
        show t * a * 2 ^ start = t * (a * 2 ^ start) by ring]
      exact ⟨fun h => Nat.le_of_mul_le_mul_left h ht, fun h => Nat.mul_le_mul_left t h⟩
    by_cases h : 2 ^ 52 * b ≤ a * 2 ^ start
    · rw [if_pos h, if_pos (hiff.mpr h)]
    · rw [if_neg h, if_neg (fun h2 => h (hiff.mp h2))]
      exact findExp_scale t a b ht fuel (start + 1)

theorem fdiv_scale (t a b : Nat) (ht : 0 < t) : fdiv (t * a) (t * b) = fdiv a b := by
  unfold fdiv
  simp only [findExp_scale t a b ht]
  generalize findExp a b 1100 0 = k
  have hA : t * a * 2 ^ k = t * (a * 2 ^ k) := Nat.mul_assoc _ _ _
  rw [hA, Nat.mul_div_mul_left _ _ ht, Nat.mul_mod_mul_left]
  have h1 : 2 * (t * (a * 2 ^ k % b)) < t * b ↔ 2 * (a * 2 ^ k % b) < b := by
    rw [show 2 * (t * (a * 2 ^ k % b)) = t * (2 * (a * 2 ^ k % b)) by ring]
    exact Nat.mul_lt_mul_left ht
  have h2 : t * b < 2 * (t * (a * 2 ^ k % b)) ↔ b < 2 * (a * 2 ^ k % b) := by
    rw [show 2 * (t * (a * 2 ^ k % b)) = t * (2 * (a * 2 ^ k % b)) by ring]
    exact Nat.mul_lt_mul_left ht
  simp only [h1, h2]

theorem percent_tie (c n : Nat) (hn : 0 < n) (h : 199 * n = 200 * c) :
    mathRound (fmul (fdiv c n) 100) = 100 := by
  have hdvd : 200 ∣ n := by
    have hc : Nat.Coprime 200 199 := by decide
    apply hc.dvd_of_dvd_mul_left
    rw [h]
    exact Dvd.intro _ rfl
  obtain ⟨t, rfl⟩ := hdvd
  have hc : c = 199 * t := by omega
  subst hc
  have ht : 0 < t := by omega
  rw [show 199 * t = t * 199 by ring, show 200 * t = t * 200 by ring, fdiv_scale t 199 200 ht]
  decide

theorem percent_eq_100 (c n : Nat) (hn : 0 < n) (hc : c ≤ n) (hsmall : n < 2 ^ 40) :
    mathRound (fmul (fdiv c n) 100) = 100 ↔ 199 * n ≤ 200 * c := by
  by_cases hne : 199 * n = 200 * c
  · constructor
    · intro _; omega
    · intro _; exact percent_tie c n hn hne
  · exact percent_eq_100_iff c n hn hc hsmall hne

set_option maxRecDepth 100000 in
/-- C30 (counterexample): a todo with 201 subtasks of which 200 are completed
has `completionPercentage` 100 although one subtask is not completed:
`Math.round` rounds 99.50248756218906 up. -/
theorem completion_percentage_counterexample :
    longTodo.subtasks.length = 201 ∧
    (longTodo.subtasks.filter (fun subtask => subtask.completed)).length = 200 ∧
    (∃ subtask ∈ longTodo.subtasks, subtask.completed = false) ∧
    completionPercentage longTodo = 100 := by
  refine ⟨by decide, by decide, ?_, by decide⟩
  exact ⟨{ _id := 300, title := "step", completed := false, createdAt := 0 }, by decide, rfl⟩


/-- C30 (amended): `completionPercentage` is 0 for a todo with no subtasks.
For a todo with at least one subtask (and fewer than `2 ^ 40`) it is an
integer between 0 and 100 that equals 100 exactly when at least 99.5 percent
of the subtasks are completed (`199 * n ≤ 200 * c` for `c` completed out of
`n`); so it is 100 whenever every subtask is completed, and for a todo with
fewer than 200 subtasks it is 100 only then. -/
theorem completion_percentage_spec (todo : Todo)
    (hsmall : todo.subtasks.length < 2 ^ 40) :
    (todo.subtasks = [] → completionPercentage todo = 0) ∧
    completionPercentage todo ≤ 100 ∧
    (todo.subtasks ≠ [] →
      (completionPercentage todo = 100 ↔
        199 * todo.subtasks.length ≤
          200 * (todo.subtasks.filter (fun subtask => subtask.completed)).length)) ∧
    (todo.subtasks ≠ [] → (∀ subtask ∈ todo.subtasks, subtask.completed = true) →
      completionPercentage todo = 100) ∧
    (todo.subtasks ≠ [] → todo.subtasks.length < 200 →
      (completionPercentage todo = 100 ↔
        ∀ subtask ∈ todo.subtasks, subtask.completed = true)) := by
  have hc : (todo.subtasks.filter (fun subtask => subtask.completed)).length ≤
      todo.subtasks.length := List.length_filter_le _ _
  have hall : (todo.subtasks.filter (fun subtask => subtask.completed)).length =
      todo.subtasks.length ↔ ∀ subtask ∈ todo.subtasks, subtask.completed = true :=
    List.filter_length_eq_length
  have hpos : todo.subtasks ≠ [] → 0 < todo.subtasks.length := fun h =>
    List.length_pos.mpr h
  have heq : todo.subtasks ≠ [] → completionPercentage todo =
      mathRound (fmul (fdiv (todo.subtasks.filter (fun subtask => subtask.completed)).length
        todo.subtasks.length) 100) := by
    intro h
    have := hpos h
    unfold completionPercentage
    rw [if_neg (by omega)]
  refine ⟨?_, ?_, ?_, ?_, ?_⟩
  · intro h
    simp [completionPercentage, h]
  · by_cases h : todo.subtasks = []
    · simp [completionPercentage, h]
    · rw [heq h]
      exact percent_le _ _ (hpos h) hc
  · intro h
    rw [heq h]
    exact percent_eq_100 _ _ (hpos h) hc hsmall
  · intro h hdone
    rw [heq h, percent_eq_100 _ _ (hpos h) hc hsmall, hall.mpr hdone]
    omega
  · intro h hlt
    rw [heq h, percent_eq_100 _ _ (hpos h) hc hsmall, ← hall]
    constructor
    · intro h1; omega
    · intro h1; omega

theorem completion_percentage_spec_witness :
    report.subtasks.length < 2 ^ 40 ∧
    completionPercentage report = 67 ∧
    (report.subtasks = [] → completionPercentage report = 0) ∧
    completionPercentage report ≤ 100 ∧
    (report.subtasks ≠ [] →
      (completionPercentage report = 100 ↔
        199 * report.subtasks.length ≤
          200 * (report.subtasks.filter (fun subtask => subtask.completed)).length)) ∧
    (report.subtasks ≠ [] → (∀ subtask ∈ report.subtasks, subtask.completed = true) →
      completionPercentage report = 100) ∧
    (report.subtasks ≠ [] → report.subtasks.length < 200 →
      (completionPercentage report = 100 ↔
        ∀ subtask ∈ report.subtasks, subtask.completed = true)) :=
  ⟨by decide, by decide, completion_percentage_spec report (by decide)⟩

/-- C21: the raw reset token appears in the response of
`POST /forgotpassword` only outside production. For every store, email,
generated secret and outcome of the email delivery, when `NODE_ENV` is
`production` the response carries no `resetToken`; in any environment a
response that carries one carries the generated secret and `NODE_ENV` is
`development`. -/
theorem reset_token_hidden_in_production (lib : Lib) (env : Env) (s : Store) (now : Nat)
    (secret email : String) (mail : Except String MailResult) (r : Response)
    (hr : (forgotPassword lib env s now secret mail email).2.1 = Result.sent r) :
    (env.NODE_ENV = "production" → r.resetToken = none) ∧
    (r.resetToken ≠ none →
      env.NODE_ENV = "development" ∧ r.resetToken = some secret ∧ r.status = 200) := by
  unfold forgotPassword at hr
  by_cases hmail : lib.isEmail email = true
  · simp only [hmail, Bool.not_true, Bool.false_eq_true, if_false] at hr
    cases hfind : findOne s (fun u => u.email == lib.normalizeEmail email) with
    | none =>
      simp only [hfind, Result.sent.injEq] at hr
      subst hr
      exact ⟨fun _ => rfl, fun h => absurd rfl h⟩
    | some u =>
      simp only [hfind, getResetPasswordToken] at hr
      cases mail with
      | error e =>
        simp only [Result.sent.injEq] at hr
        subst hr
        exact ⟨fun _ => rfl, fun h => absurd rfl h⟩
      | ok result =>
        by_cases hs : result.success = true
        · simp only [hs, if_true, Result.sent.injEq] at hr
          subst hr
          by_cases hdev : env.NODE_ENV = "development"
          · refine ⟨fun hprod => ?_, fun _ => ⟨hdev, ?_, rfl⟩⟩
            · rw [hprod] at hdev
              exact absurd hdev (by decide)
            · simp [resetEmailSent, hdev]
          · refine ⟨fun _ => ?_, fun h => ?_⟩
            · simp [resetEmailSent, hdev]
            · exact absurd (by simp [resetEmailSent, hdev]) h
        · simp only [hs, Bool.false_eq_true, if_false, Result.sent.injEq] at hr
          subst hr
          exact ⟨fun _ => rfl, fun h => absurd rfl h⟩
  · simp only [hmail, Bool.not_false, if_true, Result.sent.injEq] at hr
    subst hr
    exact ⟨fun _ => rfl, fun h => absurd rfl h⟩

theorem reset_token_hidden_in_production_witness :
    (forgotPassword demoLib prodEnv demoStore 0 "S"
      (Except.ok (sendPasswordResetEmail (Except.ok "message-1")))
      "bob@example.com").2.1 = Result.sent (resetEmailSent prodEnv "S") ∧
    (forgotPassword demoLib demoEnv demoStore 0 "S"
      (Except.ok (sendPasswordResetEmail (Except.ok "message-1")))
      "bob@example.com").2.1 = Result.sent (resetEmailSent demoEnv "S") ∧
    (resetEmailSent demoEnv "S").resetToken = some "S" ∧
    ((prodEnv.NODE_ENV = "production" → (resetEmailSent prodEnv "S").resetToken = none) ∧
     ((resetEmailSent prodEnv "S").resetToken ≠ none →
        prodEnv.NODE_ENV = "development" ∧ (resetEmailSent prodEnv "S").resetToken = some "S" ∧
        (resetEmailSent prodEnv "S").status = 200)) :=
  ⟨by decide, by decide, by decide,
    reset_token_hidden_in_production demoLib prodEnv demoStore 0 "S" "bob@example.com"
      (Except.ok (sendPasswordResetEmail (Except.ok "message-1")))
      (resetEmailSent prodEnv "S") (by decide)⟩

/-- C22 (counterexample): Alice sends a wrong current password to
`PUT /updatepassword` and a wrong password to `POST /login`. Both are answered
401, but with different messages: 'Password is incorrect' and 'Invalid
credentials'. -/
theorem change_password_failure_counterexample :
    (updatePassword demoLib demoEnv demoStore 0 "pepper" 1
      { currentPassword := "Wrong0ne", newPassword := "NewPassw1" }).2 =
        Result.sent (fail 401 "Password is incorrect") ∧
    (login demoLib demoEnv demoStore 0
      { email := "alice@example.com", password := "Wrong0ne" }).2 =
        Result.sent (fail 401 "Invalid credentials") ∧
    fail 401 "Password is incorrect" ≠ fail 401 "Invalid credentials" ∧
    (fail 401 "Password is incorrect").message ≠ (fail 401 "Invalid credentials").message := by
  refine ⟨by decide, by decide, by decide, by decide⟩

/-- C22 (amended): `PUT /updatepassword` with a currentPassword that does not
verify (in a request that passes validation) fails with status 401, the
status login returns for a wrong password, and with its own message
'Password is incorrect' (login's is 'Invalid credentials'); the store is
unchanged. -/
theorem change_password_failure (lib : Lib) (env : Env) (s : Store) (now : Nat)
    (salt : String) (reqUserId : Nat) (body : PasswordBody) (u : User)
    (hvalid : updatePasswordErrors body = [])
    (hu : findById s reqUserId = some u)
    (hwrong : matchPassword lib u body.currentPassword = false) :
    updatePassword lib env s now salt reqUserId body =
      (s, Result.sent (fail 401 "Password is incorrect")) ∧
    (fail 401 "Password is incorrect").status = (fail 401 "Invalid credentials").status ∧
    (fail 401 "Password is incorrect").status = 401 ∧
    (fail 401 "Password is incorrect").message = some "Password is incorrect" := by
  refine ⟨?_, rfl, rfl, rfl⟩
  unfold updatePassword
  simp only [hvalid, hu, hwrong, ne_eq, not_true_eq_false, if_false, Bool.not_false, if_true]

theorem change_password_failure_witness :
    updatePasswordErrors { currentPassword := "Wrong0ne", newPassword := "NewPassw1" } = [] ∧
    findById demoStore 1 = some alice ∧
    matchPassword demoLib alice "Wrong0ne" = false ∧
    updatePassword demoLib demoEnv demoStore 0 "pepper" 1
        { currentPassword := "Wrong0ne", newPassword := "NewPassw1" } =
      (demoStore, Result.sent (fail 401 "Password is incorrect")) ∧
    (fail 401 "Password is incorrect").status = (fail 401 "Invalid credentials").status ∧
    (fail 401 "Password is incorrect").status = 401 ∧
    (fail 401 "Password is incorrect").message = some "Password is incorrect" :=
  ⟨by decide, by decide, by decide,
    change_password_failure demoLib demoEnv demoStore 0 "pepper" 1
      { currentPassword := "Wrong0ne", newPassword := "NewPassw1" } alice
      (by decide) (by decide) (by decide)⟩

/-- C26: for every non-negative integer `n`, `getOrdinalSuffix(n)` is `st`
exactly when `n mod 10 = 1` and `n mod 100` is not 11, `nd` exactly when
`n mod 10 = 2` and `n mod 100` is not 12, `rd` exactly when `n mod 10 = 3` and
`n mod 100` is not 13, and `th` in every other case; so 11, 12, 13, 111, 112
and 113 give `th`. -/
theorem ordinal_suffix_correct (n : Nat) :
    (getOrdinalSuffix n = "st" ↔ n % 10 = 1 ∧ n % 100 ≠ 11) ∧
    (getOrdinalSuffix n = "nd" ↔ n % 10 = 2 ∧ n % 100 ≠ 12) ∧
    (getOrdinalSuffix n = "rd" ↔ n % 10 = 3 ∧ n % 100 ≠ 13) ∧
    (getOrdinalSuffix n = "th" ↔
      ¬ (n % 10 = 1 ∧ n % 100 ≠ 11) ∧ ¬ (n % 10 = 2 ∧ n % 100 ≠ 12) ∧
      ¬ (n % 10 = 3 ∧ n % 100 ≠ 13)) ∧
    [11, 12, 13, 111, 112, 113].map getOrdinalSuffix = ["th", "th", "th", "th", "th", "th"] ∧
    [1, 2, 3, 4, 21, 22, 23, 101].map getOrdinalSuffix =
      ["st", "nd", "rd", "th", "st", "nd", "rd", "st"] := by
  have hst : "st" ≠ "nd" ∧ "st" ≠ "rd" ∧ "st" ≠ "th" ∧ "nd" ≠ "rd" ∧ "nd" ≠ "th" ∧
      "rd" ≠ "th" := by decide
  obtain ⟨h1, h2, h3, h4, h5, h6⟩ := hst
  refine ⟨?_, ?_, ?_, ?_, by decide, by decide⟩
  all_goals
    unfold getOrdinalSuffix
    simp only
    split_ifs with a b c
    all_goals
      constructor
      all_goals intro h
      all_goals first
        | rfl
        | (exfalso; first
            | exact h1 h | exact h2 h | exact h3 h | exact h4 h | exact h5 h | exact h6 h
            | exact h1 h.symm | exact h2 h.symm | exact h3 h.symm | exact h4 h.symm
            | exact h5 h.symm | exact h6 h.symm)
        | omega

/-- C23 (the code at the failing input): `DELETE /bulk` never reaches the
bulk-delete handler. The route `DELETE /:id` is registered before
`DELETE /bulk` and matches the path with `id = "bulk"`, so Alice's request to
delete her todo is answered 400 'Invalid todo ID format' and nothing is
removed; the handler itself, had it been reached, would have removed the todo
and reported one deletion. -/
theorem bulk_delete_is_shadowed :
    dispatch "DELETE" ["bulk"] todoRoutes = some (Handler.delete, [("id", "bulk")]) ∧
    deleteRequest demoTodos 0 1 ["bulk"] [idOne] =
      (demoTodos, TodoResult.sent (todoFail 400 "Invalid todo ID format")) ∧
    (bulkDelete demoTodos 1 [idOne]).1.todos = [report] ∧
    (bulkDelete demoTodos 1 [idOne]).2 = TodoResult.sent
      { status := 200, success := true, message := some "1 todos deleted successfully",
        errors := [], todo := none, count := some 1 } ∧
    dispatch "DELETE" ["clear-all"] todoRoutes = some (Handler.clearAll, []) ∧
    dispatch "PATCH" ["bulk"] todoRoutes = some (Handler.bulkUpdate, []) := by
  refine ⟨by decide, by decide, by decide, by decide, by decide, by decide⟩

/-- C24 (the code at the failing input): Alice owns the todo `groceries`.
After her `DELETE /account` the user collection no longer holds her record,
but the todo collection is unchanged and still holds her todo. -/
theorem account_deletion_keeps_todos :
    groceries.user = alice._id ∧ groceries ∈ demoTodos.todos ∧
    (deleteAccount demoStore demoTodos 1).1.users = [bob] ∧
    (deleteAccount demoStore demoTodos 1).2.1 = demoTodos ∧
    groceries ∈ (deleteAccount demoStore demoTodos 1).2.1.todos ∧
    (deleteAccount demoStore demoTodos 1).2.2.status = 200 ∧
    (deleteAccount demoStore demoTodos 1).2.2.message =
      some "Account deleted successfully" := by
  refine ⟨rfl, by decide, by decide, rfl, by decide, rfl, rfl⟩

/-- C25 (the code at the failing input): `groceries` is not completed and has
no `completedAt`. `PUT /:id` with `completed: true` and `PATCH /bulk` with the
update `completed: true` store it as completed with `completedAt` still null,
because neither runs the `save` hook; `PATCH /:id/toggle`, which saves, sets
`completedAt`. -/
theorem completed_at_not_tracked_by_updates :
    groceries.completed = false ∧ groceries.completedAt = none ∧
    (updateTodo demoParseDate demoTodos 500 1 idOne
        { emptyBody with completed := some true }).1.todos =
      [{ groceries with completed := true, completedAt := none, updatedAt := 500 },
       report] ∧
    (updateTodo demoParseDate demoTodos 500 1 idOne
        { emptyBody with completed := some true }).2 =
      TodoResult.sent (todoOk 200
        { groceries with completed := true, completedAt := none, updatedAt := 500 }) ∧
    (bulkUpdate demoParseDate demoTodos 500 1 [idOne]
        (some { emptyBody with completed := some true })).1.todos =
      [{ groceries with completed := true, completedAt := none, updatedAt := 500 },
       report] ∧
    (toggleTodo demoTodos 500 1 idOne).1.todos =
      [{ groceries with completed := true, completedAt := some 500, updatedAt := 500 },
       report] := by
  refine ⟨rfl, rfl, by decide, by decide, by decide, by decide⟩

/-- C28 (the code at the failing input): `groceries` is owned by Alice
(user 1). Her `PUT /:id` with the body `user: 2` passes validation and the
stored todo is owned by user 2 afterwards; `PATCH /bulk` with the update
`user: 2` does the same. `POST /` with `user: 2` in the body creates a todo
owned by the caller. -/
theorem owner_changes_by_update :
    groceries.user = 1 ∧
    updateErrors { emptyBody with user := some 2 } = [] ∧
    (updateTodo demoParseDate demoTodos 500 1 idOne
        { emptyBody with user := some 2 }).1.todos =
      [{ groceries with user := 2, updatedAt := 500 }, report] ∧
    (updateTodo demoParseDate demoTodos 500 1 idOne
        { emptyBody with user := some 2 }).2 =
      TodoResult.sent (todoOk 200 { groceries with user := 2, updatedAt := 500 }) ∧
    (bulkUpdate demoParseDate demoTodos 500 1 [idOne]
        (some { emptyBody with user := some 2 })).1.todos =
      [{ groceries with user := 2, updatedAt := 500 }, report] ∧
    ((createTodo demoParseDate demoTodos 500 1
        { emptyBody with title := some "Call mum", user := some 2 }).1.todos.map
        (fun t => (t.title, t.user))) =
      [("Buy milk", 1), ("Write report", 2), ("Call mum", 1)] := by
  refine ⟨rfl, by decide, by decide, by decide, by decide, by decide⟩

/-! ## Lemmas on the todo routes -/

theorem findOwn_foreign (s : TodoStore) (id u : Nat)
    (h : ∀ t ∈ s.todos, t._id = id → t.user ≠ u) : findOwn s id u = none := by
  unfold findOwn
  rw [List.find?_eq_none]
  intro t ht
  simp only [Bool.and_eq_true, beq_iff_eq, not_and]
  exact h t ht

theorem mem_updateWhere (parseDate : String → Option Nat) (now : Nat) (body : TodoBody)
    (sel : Todo → Bool) :
    ∀ (l l1 : List Todo), updateWhere parseDate now body sel l = Except.ok l1 →
      ∀ t ∈ l, sel t = false → t ∈ l1
  | [], _, _, t, ht, _ => by simp at ht
  | v :: vs, l1, h, t, ht, hsel => by
    unfold updateWhere at h
    split at h
    · rename_i t1 ts1 h1 h2
      have hl : l1 = t1 :: ts1 := (Except.ok.inj h).symm
      subst hl
      rcases List.mem_cons.mp ht with rfl | hmem
      · rw [hsel] at h1
        simp only [Bool.false_eq_true, if_false, Except.ok.injEq] at h1
        rw [h1]
        exact List.mem_cons_self _ _
      · exact List.mem_cons_of_mem _ (mem_updateWhere parseDate now body sel vs ts1 h2 t hmem hsel)
    · simp at h
    · simp at h

theorem length_lower (x : String) : (lower x).length = x.length := by
  unfold lower
  show (List.map Char.toLower x.toList).length = x.length
  rw [List.length_map]
  rfl

theorem length_of_parseObjectId (param : String) (id : Nat)
    (h : parseObjectId param = some id) : param.length = 24 := by
  unfold parseObjectId at h
  by_contra hne
  simp [hne] at h

theorem dispatch_delete_id (param : String) (id : Nat)
    (h : parseObjectId param = some id) :
    dispatch "DELETE" [param] todoRoutes = some (Handler.delete, [("id", param)]) := by
  have hlen := length_of_parseObjectId param id h
  have hne : (lower "clear-all" == lower param) = false := by
    rw [beq_eq_false_iff_ne]
    intro heq
    have := congrArg String.length heq
    rw [length_lower, length_lower, hlen] at this
    exact absurd this (by decide)
  have hempty : (param == "") = false := by
    rw [beq_eq_false_iff_ne]
    intro heq
    rw [heq] at hlen
    exact absurd hlen (by decide)
  simp [todoRoutes, dispatch, matchPath, hne, hempty]

/-- C27 (counterexample): the todo `report` is owned by user 2 and user 1
addresses it by its well-formed id. `PUT /:id` with the body
`{ priority: 'urgent' }`, or with a title that is one no-break space, and
`POST /:id/subtasks` without a title are answered with 400 'Validation failed',
not with 404 'Todo not found': the validators of these routes run before the
todo is looked up. The store is unchanged. -/
theorem todos_isolated_per_user_counterexample :
    parseObjectId idTwo = some 2 ∧
    report ∈ demoTodos.todos ∧ report._id = 2 ∧ report.user = 2 ∧
    updateTodo demoParseDate demoTodos 500 1 idTwo
        { emptyBody with priority := some "urgent" } =
      (demoTodos, TodoResult.sent (todoInvalid ["Priority must be low, medium, or high"])) ∧
    updateTodo demoParseDate demoTodos 500 1 idTwo
        { emptyBody with title := some (String.mk [Char.ofNat 0xA0]) } =
      (demoTodos, TodoResult.sent (todoInvalid ["Title cannot be empty"])) ∧
    addSubtask demoTodos 500 1 idTwo none =
      (demoTodos, TodoResult.sent (todoInvalid ["Subtask title is required"])) ∧
    (todoInvalid ["Priority must be low, medium, or high"]).status = 400 ∧
    (todoInvalid ["Priority must be low, medium, or high"]).message =
      some "Validation failed" := by
  refine ⟨by decide, by decide, rfl, rfl, by decide, by decide, by decide, rfl, rfl⟩

/-- C27: todos are isolated per user. For a well-formed id whose todo is owned
by a different user than the caller, every route addressed by the id leaves
the todo store unchanged. `GET /:id`, `DELETE /:id` (also through the router),
`PATCH /:id/toggle` and the subtask delete answer 404 'Todo not found';
`PUT /:id` and the subtask add and update, which validate the body first,
answer 404 'Todo not found' when the body passes the validators of the route
and 400 'Validation failed' with the validation errors when it does not. For
every request, `PATCH /bulk`, the bulk-delete handler and `DELETE /clear-all`
keep every todo owned by another user in the store, unmodified. -/
theorem todos_isolated_per_user (parseDate : String → Option Nat) (s : TodoStore)
    (now u id : Nat) (idParam subtaskParam : String) (body : TodoBody)
    (title : Option String) (completed : Option Bool) (todoIds : List String)
    (updates : Option TodoBody)
    (hid : parseObjectId idParam = some id)
    (hforeign : ∀ t ∈ s.todos, t._id = id → t.user ≠ u) :
    getTodo s u idParam = TodoResult.sent (todoFail 404 "Todo not found") ∧
    updateTodo parseDate s now u idParam body =
      (s, TodoResult.sent
        (if updateErrors body = [] then todoFail 404 "Todo not found"
         else todoInvalid (updateErrors body))) ∧
    deleteTodo s u idParam = (s, TodoResult.sent (todoFail 404 "Todo not found")) ∧
    deleteRequest s now u [idParam] todoIds =
      (s, TodoResult.sent (todoFail 404 "Todo not found")) ∧
    toggleTodo s now u idParam = (s, TodoResult.sent (todoFail 404 "Todo not found")) ∧
    addSubtask s now u idParam title =
      (s, TodoResult.sent
        (if subtaskTitleErrors true title = [] then todoFail 404 "Todo not found"
         else todoInvalid (subtaskTitleErrors true title))) ∧
    updateSubtask s now u idParam subtaskParam title completed =
      (s, TodoResult.sent
        (if subtaskTitleErrors false title = [] then todoFail 404 "Todo not found"
         else todoInvalid (subtaskTitleErrors false title))) ∧
    deleteSubtask s now u idParam subtaskParam =
      (s, TodoResult.sent (todoFail 404 "Todo not found")) ∧
    (∀ t ∈ s.todos, t.user ≠ u →
      t ∈ (bulkUpdate parseDate s now u todoIds updates).1.todos ∧
      t ∈ (bulkDelete s u todoIds).1.todos ∧
      t ∈ (clearAll s u).1.todos) := by
  have hown := findOwn_foreign s id u hforeign
  have hdel : deleteTodo s u idParam =
      (s, TodoResult.sent (todoFail 404 "Todo not found")) := by
    simp only [deleteTodo, hid, hown]
  refine ⟨?_, ?_, hdel, ?_, ?_, ?_, ?_, ?_, ?_⟩
  · simp only [getTodo, hid, hown]
  · unfold updateTodo
    by_cases hv : updateErrors body = []
    · simp only [hv, hid, hown, ne_eq, not_true_eq_false, if_false, if_true]
    · simp only [hv, ne_eq, not_false_eq_true, if_true, if_false]
  · unfold deleteRequest
    rw [dispatch_delete_id idParam id hid]
    simp only [paramOf, List.find?_cons_of_pos, beq_self_eq_true, Option.map_some',
      Option.getD_some]
    exact hdel
  · simp only [toggleTodo, hid, hown]
  · unfold addSubtask
    by_cases hv : subtaskTitleErrors true title = []
    · simp only [hv, hid, hown, ne_eq, not_true_eq_false, if_false, if_true]
    · simp only [hv, ne_eq, not_false_eq_true, if_true, if_false]
  · unfold updateSubtask
    by_cases hv : subtaskTitleErrors false title = []
    · simp only [hv, hid, hown, ne_eq, not_true_eq_false, if_false, if_true]
    · simp only [hv, ne_eq, not_false_eq_true, if_true, if_false]
  · simp only [deleteSubtask, hid, hown]
  · intro t ht hne
    have hnot : (t.user == u) = false := by simpa using hne
    refine ⟨?_, ?_, ?_⟩
    · unfold bulkUpdate
      simp only
      generalize ((if 1 ≤ todoIds.length then [] else ["Todo IDs must be a non-empty array"]) ++
        (if updates.isSome then [] else ["Updates must be an object"])) = errors
      by_cases he : errors ≠ []
      · rw [if_pos he]
        exact ht
      · rw [if_neg he]
        cases hc : castIds todoIds with
        | none => exact ht
        | some ids =>
          simp only
          cases hupd : updateWhere parseDate now (updates.getD emptyBody)
              (fun t => ids.contains t._id && t.user == u) s.todos with
          | error e => exact ht
          | ok todos =>
            exact mem_updateWhere parseDate now _ _ s.todos todos hupd t ht
              (by simp [hnot])
    · unfold bulkDelete
      by_cases he : ¬ 1 ≤ todoIds.length
      · rw [if_pos he]
        exact ht
      · rw [if_neg he]
        cases hc : castIds todoIds with
        | none => exact ht
        | some ids =>
          simp only [List.mem_filter]
          exact ⟨ht, by simp [hnot]⟩
    · simp only [clearAll, List.mem_filter]
      exact ⟨ht, by simp [hnot]⟩

theorem todos_isolated_per_user_witness :
    parseObjectId idTwo = some 2 ∧
    (∀ t ∈ demoTodos.todos, t._id = 2 → t.user ≠ 1) ∧
    report ∈ demoTodos.todos ∧ report.user ≠ 1 ∧
    getTodo demoTodos 1 idTwo = TodoResult.sent (todoFail 404 "Todo not found") ∧
    updateTodo demoParseDate demoTodos 500 1 idTwo
        { emptyBody with title := some "Mine now" } =
      (demoTodos, TodoResult.sent (todoFail 404 "Todo not found")) ∧
    deleteTodo demoTodos 1 idTwo =
      (demoTodos, TodoResult.sent (todoFail 404 "Todo not found")) ∧
    toggleTodo demoTodos 500 1 idTwo =
      (demoTodos, TodoResult.sent (todoFail 404 "Todo not found")) ∧
    addSubtask demoTodos 500 1 idTwo (some "Sneak in") =
      (demoTodos, TodoResult.sent (todoFail 404 "Todo not found")) ∧
    report ∈ (bulkUpdate demoParseDate demoTodos 500 1 [idOne, idTwo]
      (some { emptyBody with completed := some true })).1.todos ∧
    report ∈ (bulkDelete demoTodos 1 [idOne, idTwo]).1.todos ∧
    report ∈ (clearAll demoTodos 1).1.todos :=
  have hforeign : ∀ t ∈ demoTodos.todos, t._id = 2 → t.user ≠ 1 := by decide
  have h := todos_isolated_per_user demoParseDate demoTodos 500 1 2 idTwo "x"
    { emptyBody with title := some "Mine now" } (some "Sneak in") none [idOne, idTwo]
    (some { emptyBody with completed := some true }) (by decide) hforeign
  have hb := h.2.2.2.2.2.2.2.2 report (by decide) (by decide)
  ⟨by decide, hforeign, by decide, by decide, h.1, h.2.1, h.2.2.1,
    h.2.2.2.2.1, h.2.2.2.2.2.1, hb.1, hb.2.1, hb.2.2⟩

end TodoAuth
